import Mathlib

/-!
Linear code generation: register lifecycle and GC root tracking.

A shallow embedding of the register-lifecycle part of
`src/coreclr/jit/codegenlinear.cpp` (block-entry seeding and the end-of-block
check of `genCodeForBBlist`, `genSpillVar`, `genUnspillLocal`,
`genUnspillRegIfNeeded`, `genConsumeReg`, `genSpillLocal`, `genProduceReg`,
`genTransferRegGCState`), of the integer-cast descriptor `GenIntCastDesc`, of the
block boundaries of `genCodeForBBlist` (label decision, liveness assertion,
terminal dispatch), of `genInitializeRegisterState` and `genCheckConsumeNode`,
and of `dn_simdhash_select_suffix` from `src/native/containers/dn-simdhash.h`.

Conventions of the embedding:

* `regMaskTP` and `VARSET_TP` are bit sets in the source; here they are finite
  sets of register indices / tracked-variable indices.  `a | b` is `a ∪ b`,
  `a & ~b` is `a \ b`, `RBM_NONE` is `∅`, and a test `a & b` is
  "`a ∩ b` is non-empty".
* The ambient compiler state touched by the functions is one explicit record
  `CodeGen` that is threaded through every call.  The read-only part of the
  local-variable descriptors lives in `Compiler`.
* A node is passed by pointer in the source and its flags are mutated; the
  embedded functions return the updated node together with the state.
* Emitted instructions are appended to `CodeGen.emitted`.
* C++ `int` and `unsigned` arithmetic is integer arithmetic wrapped to 32 bits
  (`toInt32`, `toUInt32`); conditional compilation is a `Target` record.
-/

namespace CodeGenLinear

/-! Registers, types, masks -/

/-- Register numbers: a physical register index, or one of the two sentinels
`REG_STK` ("lives on the stack") and `REG_NA` ("no register assigned"). -/
inductive regNumber
  | REG (n : Nat)
  | REG_STK
  | REG_NA
  deriving DecidableEq, Inhabited

/-- Set of physical registers (`regMaskTP`). -/
abbrev regMaskTP := Finset Nat

/-- Set of tracked local-variable indices (`VARSET_TP`). -/
abbrev VARSET_TP := Finset Nat

/-- The empty register mask `RBM_NONE`. -/
def RBM_NONE : regMaskTP := ∅

/-- Modelled from the spec: `genRegMask` (target.h) is not part of src; it maps a
physical register to the one-element mask holding it (§3 PhysicalRegister).  The
sentinels name no physical register and are mapped to the empty mask. -/
def genRegMask : regNumber → regMaskTP
  | .REG n => {n}
  | .REG_STK => RBM_NONE
  | .REG_NA => RBM_NONE

/-- The JIT value types that the register tracker distinguishes. -/
inductive var_types
  | TYP_VOID
  | TYP_BYTE
  | TYP_UBYTE
  | TYP_SHORT
  | TYP_USHORT
  | TYP_INT
  | TYP_UINT
  | TYP_LONG
  | TYP_ULONG
  | TYP_FLOAT
  | TYP_DOUBLE
  | TYP_REF
  | TYP_BYREF
  | TYP_STRUCT
  deriving DecidableEq, Inhabited

/-- Modelled from the spec: `varTypeIsGC` (vartype.h) is not part of src; the GC
types are the exact reference and the interior pointer (§3 Value). -/
def varTypeIsGC (t : var_types) : Bool :=
  t = .TYP_REF || t = .TYP_BYREF

/-! Local variable descriptors -/

/-- Read-only attributes of a local (`LclVarDsc`) that code generation consults. -/
structure LclVarDsc where
  lvType : var_types
  lvVarIndex : Nat
  lvTracked : Bool
  lvLRACandidate : Bool
  alwaysAliveInMemory : Bool
  gcTracked : Bool
  lvPromoted : Bool
  lvFieldLclStart : Nat
  lvFieldCnt : Nat
  lvIsParam : Bool
  lvRegister : Bool
  addressExposed : Bool
  lvNormalizeOnLoad : Bool
  stackSlotHomeType : var_types
  deriving DecidableEq, Inhabited

/-- Modelled from the spec: `LclVarDsc::IsAlwaysAliveInMemory` is declared
outside src; it is the always-memory-resident flag of §3 LocalVariable. -/
def LclVarDsc.IsAlwaysAliveInMemory (v : LclVarDsc) : Bool := v.alwaysAliveInMemory

/-- Modelled from the spec: `LclVarDsc::lvIsRegCandidate` is declared outside
src; a register candidate is a local the allocator may bind to a register. -/
def LclVarDsc.lvIsRegCandidate (v : LclVarDsc) : Bool := v.lvLRACandidate

/-- The per-method data that stays fixed during code generation: the local
table, the register allocator's per-block variable locations
(`m_pLinearScan->recordVarLocationsAtStartOfBB`, an external collaborator given
as the function it applies to the locals' registers), the method's return
description, and the target's register-mask constants. -/
structure Compiler where
  lvaTable : Nat → LclVarDsc
  lvaCount : Nat
  lvaTrackedCount : Nat
  lvaTrackedToVarNum : Nat → Nat
  gcTrkStkPtrLcls : VARSET_TP
  recordVarLocationsAtStartOfBB : Nat → (Nat → regNumber) → (Nat → regNumber)
  compMethodReturnsRetBufAddr : Bool
  compRetTypeDescRegs : List regNumber
  compIsAsync : Bool
  RBM_INTRET : regMaskTP
  RBM_ASYNC_CONTINUATION_RET : regMaskTP
  fullIntArgRegMask_Managed : regMaskTP
  RBM_EXCEPTION_OBJECT : regMaskTP

/-- The descriptor of local `varNum` (`lvaGetDesc`). -/
def Compiler.lvaGetDesc (c : Compiler) (varNum : Nat) : LclVarDsc := c.lvaTable varNum

/-- The descriptor of the tracked local with index `varIndex`
(`lvaGetDescByTrackedIndex`). -/
def Compiler.lvaGetDescByTrackedIndex (c : Compiler) (varIndex : Nat) : LclVarDsc :=
  c.lvaTable (c.lvaTrackedToVarNum varIndex)

/-- Modelled from the spec: `Compiler::lvaIsGCTracked` is declared outside src;
it is the GC-tracked flag of §3 LocalVariable. -/
def Compiler.lvaIsGCTracked (_c : Compiler) (v : LclVarDsc) : Bool := v.gcTracked

/-! Emitted instructions and spill temps -/

/-- A leased anonymous stack slot (`TempDsc`). -/
structure TempDsc where
  tdNum : Nat
  tdType : var_types
  deriving DecidableEq, Inhabited

/-- The abstract instructions the lifecycle tracker hands to the emitter. -/
inductive instr
  | storeLcl (varNum : Nat) (reg : regNumber)
  | loadLcl (reg : regNumber) (varNum : Nat)
  | storeTmp (tmp : Nat) (reg : regNumber)
  | loadTmp (reg : regNumber) (tmp : Nat)
  | mov (dst src : regNumber)
  deriving DecidableEq, Inhabited

/-- Record of a spilled non-local value: which node, which result register
index, which temp holds it. -/
structure SpillDsc where
  spillTree : Nat
  spillIdx : Nat
  spillTemp : TempDsc
  deriving DecidableEq, Inhabited

/-! The threaded code-generation state -/

/-- The mutable state of one method compilation that the register lifecycle
functions read and write. -/
structure CodeGen where
  gcRegGCrefSetCur : regMaskTP
  gcRegByrefSetCur : regMaskTP
  gcVarPtrSetCur : VARSET_TP
  rsMaskVars : regMaskTP
  compCurLife : VARSET_TP
  lvRegNum : Nat → regNumber
  emitted : List instr
  tmpUsed : List TempDsc
  tmpFree : List TempDsc
  tmpCount : Nat
  rsSpillDesc : List SpillDsc
  tmpReleased : List TempDsc

/-- The current register of local `varNum` (`LclVarDsc::GetRegNum`). -/
def CodeGen.GetRegNum (s : CodeGen) (varNum : Nat) : regNumber := s.lvRegNum varNum

/-- Set the current register of local `varNum` (`LclVarDsc::SetRegNum`). -/
def CodeGen.SetRegNum (s : CodeGen) (varNum : Nat) (r : regNumber) : CodeGen :=
  { s with lvRegNum := fun n => if n = varNum then r else s.lvRegNum n }

/-- Modelled from the spec: `LclVarDsc::lvIsInReg` is declared outside src; a
local is in a register when its currently-assigned register is not the
"on stack" sentinel (§3 LocalVariable). -/
def CodeGen.lvIsInReg (s : CodeGen) (varNum : Nat) : Bool :=
  s.lvRegNum varNum ≠ regNumber.REG_STK

/-- Modelled from the spec: `LclVarDsc::lvRegMask` is declared outside src; it is
the mask of the register currently assigned to the local, empty when the local
is on the stack. -/
def CodeGen.lvRegMask (s : CodeGen) (varNum : Nat) : regMaskTP :=
  if s.lvRegNum varNum ≠ regNumber.REG_STK then genRegMask (s.lvRegNum varNum) else RBM_NONE

/-- Modelled from the spec: `genGetRegMask(varDsc)` is declared outside src; it is
the mask of the register currently recorded for the local. -/
def CodeGen.genGetRegMask (s : CodeGen) (varNum : Nat) : regMaskTP :=
  genRegMask (s.lvRegNum varNum)

/-- Append one instruction to the output (`GetEmitter()->emitIns_*`). -/
def CodeGen.emit (s : CodeGen) (i : instr) : CodeGen :=
  { s with emitted := s.emitted ++ [i] }

/-! `RegSet` live-variable mask -/

/-- Live-variable register mask accessor `regSet.GetMaskVars()`. -/
def CodeGen.GetMaskVars (s : CodeGen) : regMaskTP := s.rsMaskVars

/-- Overwrite the mask, `regSet.SetMaskVars(mask)`. -/
def CodeGen.SetMaskVars (s : CodeGen) (m : regMaskTP) : CodeGen := { s with rsMaskVars := m }

/-- Empty the mask, `regSet.ClearMaskVars()`. -/
def CodeGen.ClearMaskVars (s : CodeGen) : CodeGen := { s with rsMaskVars := RBM_NONE }

/-- Add registers, `regSet.AddMaskVars(mask)`. -/
def CodeGen.AddMaskVars (s : CodeGen) (m : regMaskTP) : CodeGen :=
  { s with rsMaskVars := s.rsMaskVars ∪ m }

/-- Remove registers, `regSet.RemoveMaskVars(mask)`. -/
def CodeGen.RemoveMaskVars (s : CodeGen) (m : regMaskTP) : CodeGen :=
  { s with rsMaskVars := s.rsMaskVars \ m }

/-! GC register-set marking (`GCInfo`) -/

/-- Modelled from the spec: `GCInfo::gcMarkRegSetGCref` (gcinfo.cpp) is not part of
src.  §4.3 MarkRegisterSet: sets the exact-reference kind for the registers in
`mask`; kinds are mutually exclusive, so the registers leave the byref set. -/
def gcMarkRegSetGCref (mask : regMaskTP) (s : CodeGen) : CodeGen :=
  { s with gcRegGCrefSetCur := s.gcRegGCrefSetCur ∪ mask,
           gcRegByrefSetCur := s.gcRegByrefSetCur \ mask }

/-- Modelled from the spec: `GCInfo::gcMarkRegSetByref` (gcinfo.cpp) is not part of
src.  §4.3 MarkRegisterSet: sets the interior-pointer kind for the registers in
`mask`; marking byref clears exact-ref for the same registers. -/
def gcMarkRegSetByref (mask : regMaskTP) (s : CodeGen) : CodeGen :=
  { s with gcRegByrefSetCur := s.gcRegByrefSetCur ∪ mask,
           gcRegGCrefSetCur := s.gcRegGCrefSetCur \ mask }

/-- Modelled from the spec: `GCInfo::gcMarkRegSetNpt` (gcinfo.cpp) is not part of
src.  §4.3 MarkRegisterSet with the "not a pointer" kind: the registers in `mask`
leave both the exact-ref and the byref set. -/
def gcMarkRegSetNpt (mask : regMaskTP) (s : CodeGen) : CodeGen :=
  { s with gcRegGCrefSetCur := s.gcRegGCrefSetCur \ mask,
           gcRegByrefSetCur := s.gcRegByrefSetCur \ mask }

/-- Modelled from the spec: `GCInfo::gcMarkRegPtrVal` (gcinfo.cpp) is not part of
src.  It marks one register under the kind of the given type (§4.2 Produce:
"add it to the root snapshot under the correct kind"): exact reference, interior
pointer, or not a pointer. -/
def gcMarkRegPtrVal (reg : regNumber) (type : var_types) (s : CodeGen) : CodeGen :=
  match type with
  | .TYP_REF => gcMarkRegSetGCref (genRegMask reg) s
  | .TYP_BYREF => gcMarkRegSetByref (genRegMask reg) s
  | _ => gcMarkRegSetNpt (genRegMask reg) s

/-- Source lines 2220-2237, `CodeGen::genTransferRegGCState`: transfer the
gc/byref status of `src` to `dst`. -/
def genTransferRegGCState (dst src : regNumber) (s : CodeGen) : CodeGen :=
  let srcMask := genRegMask src
  let dstMask := genRegMask dst
  if (s.gcRegGCrefSetCur ∩ srcMask).Nonempty then
    gcMarkRegSetGCref dstMask s
  else if (s.gcRegByrefSetCur ∩ srcMask).Nonempty then
    gcMarkRegSetByref dstMask s
  else
    gcMarkRegSetNpt dstMask s

/-! GenTree nodes -/

/-- The node kinds that the lifecycle functions tell apart; every other operator
behaves like `GT_ADD` (a non-local value-producing node). -/
inductive genTreeOps
  | GT_LCL_VAR
  | GT_STORE_LCL_VAR
  | GT_COPY
  | GT_RELOAD
  | GT_CALL
  | GT_CATCH_ARG
  | GT_IL_OFFSET
  | GT_ADD
  deriving DecidableEq, Inhabited

/-- The two spill bits kept per result register of a multi-register node
(`GetRegSpillFlagByIdx`): `GTF_SPILL` and `GTF_SPILLED`. -/
structure RegSpillFlags where
  GTF_SPILL : Bool
  GTF_SPILLED : Bool
  deriving DecidableEq, Inhabited

/-- The fields of one IR node that the lifecycle functions read or write.  The
`gtFlags` bits are one Boolean each. -/
structure GenTreeNode where
  gtTreeID : Nat
  gtOper : genTreeOps
  gtType : var_types
  GTF_SPILL : Bool
  GTF_SPILLED : Bool
  GTF_VAR_DEF : Bool
  GTF_VAR_USEASG : Bool
  GTF_VAR_DEATH : Bool
  GTF_VAR_MULTIREG : Bool
  gtRegNum : regNumber
  gtOtherRegs : List regNumber
  gtSpillFlags : List RegSpillFlags
  gtFieldDeath : List Bool
  gtLclNum : Nat
  gtRetRegTypes : List var_types
  deriving DecidableEq, Inhabited

/-- A node together with the operand of a `GT_COPY` / `GT_RELOAD` wrapper
(`gtOp1`); other operands are never inspected by the lifecycle functions. -/
structure GenTree extends GenTreeNode where
  gtOp1 : Option GenTreeNode
  deriving DecidableEq, Inhabited

/-- The operand of a wrapper viewed as a tree of its own (`tree->AsOp()->gtOp1`). -/
def GenTree.gtGetOp1 (tree : GenTree) : GenTree :=
  match tree.gtOp1 with
  | some n => { toGenTreeNode := n, gtOp1 := none }
  | none => tree

/-- Write the (possibly updated) operand back into its wrapper. -/
def GenTree.setOp1 (tree : GenTree) (child : GenTree) : GenTree :=
  match tree.gtOp1 with
  | some _ => { tree with gtOp1 := some child.toGenTreeNode }
  | none => child

/-- Modelled from the spec: `GenTree::IsCopyOrReload` (gentree.h) is not part of
src; the copy/reload wrapper nodes of §4.2. -/
def GenTree.IsCopyOrReload (tree : GenTree) : Bool :=
  tree.gtOper = .GT_COPY || tree.gtOper = .GT_RELOAD

/-- Modelled from the spec: `GenTree::gtSkipReloadOrCopy` (gentree.h) is not part of
src; the underlying defining node of a copy/reload wrapper (§9). -/
def GenTree.gtSkipReloadOrCopy (tree : GenTree) : GenTree :=
  if tree.IsCopyOrReload then tree.gtGetOp1 else tree

/-- Modelled from the spec: `GenTree::OperIsScalarLocal` (gentree.h) is not part of
src; the nodes that read or write a whole local. -/
def GenTree.OperIsScalarLocal (tree : GenTree) : Bool :=
  tree.gtOper = .GT_LCL_VAR || tree.gtOper = .GT_STORE_LCL_VAR

/-- Modelled from the spec: `GenTree::IsMultiRegLclVar` (gentree.h) is not part of
src; a local node whose value is an aggregate held in several registers. -/
def GenTree.IsMultiRegLclVar (tree : GenTree) : Bool :=
  tree.OperIsScalarLocal && tree.GTF_VAR_MULTIREG

/-- Modelled from the spec: `GenTree::IsMultiRegCall` (gentree.h) is not part of
src; a call whose return value occupies more than one register. -/
def GenTree.IsMultiRegCall (tree : GenTree) : Bool :=
  tree.gtOper = .GT_CALL && decide (1 < tree.gtRetRegTypes.length)

/-- Modelled from the spec: `GenTree::IsCopyOrReloadOfMultiRegCall` (gentree.h) is
not part of src; a copy/reload wrapper around a multi-register call. -/
def GenTree.IsCopyOrReloadOfMultiRegCall (tree : GenTree) : Bool :=
  tree.IsCopyOrReload && tree.gtGetOp1.IsMultiRegCall

/-- Modelled from the spec: `GenTree::IsMultiRegNode` (gentree.h) is not part of
src; a multi-register call or local, or a wrapper around one. -/
def GenTree.IsMultiRegNode (tree : GenTree) : Bool :=
  tree.IsMultiRegCall || tree.IsMultiRegLclVar ||
    (tree.IsCopyOrReload && (tree.gtGetOp1.IsMultiRegCall || tree.gtGetOp1.IsMultiRegLclVar))

/-- Register accessor `GetRegNum()`. -/
def GenTree.GetRegNum (tree : GenTree) : regNumber := tree.gtRegNum

/-- Modelled from the spec: `GenTree::GetRegByIndex` (gentree.h) is not part of
src; the register assigned to the `i`-th result, `REG_NA` when none is. -/
def GenTree.GetRegByIndex (tree : GenTree) (i : Nat) : regNumber :=
  match i with
  | 0 => tree.gtRegNum
  | j + 1 => tree.gtOtherRegs.getD j .REG_NA

/-- Same accessor under its other name, `GetRegNumByIdx`. -/
def GenTree.GetRegNumByIdx (tree : GenTree) (i : Nat) : regNumber := tree.GetRegByIndex i

/-- Modelled from the spec: `GenTree::GetRegSpillFlagByIdx` (gentree.h) is not part
of src; the spill bits of the `i`-th result register. -/
def GenTree.GetRegSpillFlagByIdx (tree : GenTree) (i : Nat) : RegSpillFlags :=
  tree.gtSpillFlags.getD i (RegSpillFlags.mk false false)

/-- Modelled from the spec: `GenTree::SetRegSpillFlagByIdx` (gentree.h) is not part
of src; overwrite the spill bits of the `i`-th result register. -/
def GenTree.SetRegSpillFlagByIdx (tree : GenTree) (f : RegSpillFlags) (i : Nat) : GenTree :=
  { tree with gtSpillFlags :=
      (tree.gtSpillFlags ++
        List.replicate (i + 1 - tree.gtSpillFlags.length) (RegSpillFlags.mk false false)).set i f }

/-- Modelled from the spec: `GenTreeLclVar::IsLastUse` (gentree.h) is not part of
src; the last-use flag of the value (§3 Value), per field for a multi-register
local and `GTF_VAR_DEATH` otherwise. -/
def GenTree.IsLastUse (tree : GenTree) (i : Nat) : Bool :=
  if tree.GTF_VAR_MULTIREG then tree.gtFieldDeath.getD i false else tree.GTF_VAR_DEATH

/-- Modelled from the spec: `GenTree::GetMultiRegCount` (gentree.h) is not part of
src; the number of result registers of a multi-register node: the return
register count of a call, the field count of a multi-register local. -/
def GenTree.GetMultiRegCount (tree : GenTree) (c : Compiler) : Nat :=
  if tree.IsMultiRegCall then tree.gtRetRegTypes.length
  else if tree.IsMultiRegLclVar then (c.lvaGetDesc tree.gtLclNum).lvFieldCnt
  else if tree.IsCopyOrReload then
    (if tree.gtGetOp1.IsMultiRegCall then tree.gtGetOp1.gtRetRegTypes.length
     else if tree.gtGetOp1.IsMultiRegLclVar then (c.lvaGetDesc tree.gtGetOp1.gtLclNum).lvFieldCnt
     else 1)
  else 1

/-- Modelled from the spec: `GenTree::GetRegTypeByIndex` (gentree.h) is not part of
src; the type of the `i`-th result register: the return register type of a call,
the field type of a multi-register local, the node type otherwise. -/
def GenTree.GetRegTypeByIndex (tree : GenTree) (c : Compiler) (i : Nat) : var_types :=
  if tree.IsMultiRegCall then tree.gtRetRegTypes.getD i tree.gtType
  else if tree.IsMultiRegLclVar then
    (c.lvaGetDesc ((c.lvaGetDesc tree.gtLclNum).lvFieldLclStart + i)).lvType
  else tree.gtType

/-- Modelled from the spec: `GenTree::gtHasReg` (gentree.h) is not part of src; the
node has been assigned a register: every result register of a multi-register
call, some register of a multi-register copy/reload or local, the node register
otherwise. -/
def GenTree.gtHasReg (tree : GenTree) (c : Compiler) : Bool :=
  if tree.IsMultiRegCall then
    (List.range tree.gtRetRegTypes.length).all (fun i => tree.GetRegNumByIdx i ≠ .REG_NA)
  else if tree.IsCopyOrReloadOfMultiRegCall then
    (List.range tree.gtGetOp1.gtRetRegTypes.length).any (fun i => tree.GetRegNumByIdx i ≠ .REG_NA)
  else if tree.IsMultiRegLclVar then
    (List.range (c.lvaGetDesc tree.gtLclNum).lvFieldCnt).any
      (fun i => tree.GetRegNumByIdx i ≠ .REG_NA)
  else tree.GetRegNum ≠ .REG_NA

/-- Modelled from the spec: `GenTree::gtGetRegMask` (gentree.h) is not part of src;
the mask of all registers assigned to the node (§3 Value: "zero or more assigned
physical registers"). -/
def GenTree.gtGetRegMask (tree : GenTree) : regMaskTP :=
  if tree.IsMultiRegCall then
    (List.range tree.gtRetRegTypes.length).foldl
      (fun m i => m ∪ genRegMask (tree.GetRegNumByIdx i)) RBM_NONE
  else if tree.IsCopyOrReloadOfMultiRegCall then
    (List.range tree.gtGetOp1.gtRetRegTypes.length).foldl
      (fun m i => m ∪ genRegMask (tree.GetRegNumByIdx i)) RBM_NONE
  else genRegMask tree.GetRegNum

/-- Modelled from the spec: `genIsRegCandidateLocal` (codegen.h) is not part of src;
the node reads or writes a whole local that is a register candidate. -/
def genIsRegCandidateLocal (c : Compiler) (tree : GenTree) : Bool :=
  tree.OperIsScalarLocal && (c.lvaGetDesc tree.gtLclNum).lvIsRegCandidate

/-! Emitter and spill-temp pool -/

/-- Modelled from the spec: `inst_Mov` (instr.cpp) is not part of src.  §4.2
CopyIfNeeded: no instruction when the value is already in the target register
and skipping is allowed, otherwise one register-to-register move. -/
def inst_Mov (dst src : regNumber) (canSkip : Bool) (s : CodeGen) : CodeGen :=
  if canSkip && dst = src then s else s.emit (instr.mov dst src)

/-- Modelled from the spec: `genTypeSize` (vartype.h) is not part of src; the
natural width in bytes of a type on a 64-bit target. -/
def genTypeSize : var_types → Nat
  | .TYP_VOID => 0
  | .TYP_BYTE => 1
  | .TYP_UBYTE => 1
  | .TYP_SHORT => 2
  | .TYP_USHORT => 2
  | .TYP_INT => 4
  | .TYP_UINT => 4
  | .TYP_LONG => 8
  | .TYP_ULONG => 8
  | .TYP_FLOAT => 4
  | .TYP_DOUBLE => 8
  | .TYP_REF => 8
  | .TYP_BYREF => 8
  | .TYP_STRUCT => 0

/-- Modelled from the spec: `RegSet::tmpGetTemp` (regset.cpp) is not part of src.
§4.4 Lease: hand out a slot sized to the natural width of the type, reusing a
released slot of compatible size when there is one and creating a new slot
otherwise; the slot is leased until it is released. -/
def tmpGetTemp (type : var_types) (s : CodeGen) : TempDsc × CodeGen :=
  match s.tmpFree.find? (fun t => genTypeSize t.tdType = genTypeSize type) with
  | some t => (t, { s with tmpFree := s.tmpFree.erase t, tmpUsed := t :: s.tmpUsed })
  | none =>
    let t : TempDsc := { tdNum := s.tmpCount, tdType := type }
    (t, { s with tmpCount := s.tmpCount + 1, tmpUsed := t :: s.tmpUsed })

/-- Modelled from the spec: `RegSet::tmpRlsTemp` (regset.cpp) is not part of src.
§4.4 Release: return the slot to the pool for reuse by a later lease.  Every
release is also logged in `tmpReleased`. -/
def tmpRlsTemp (t : TempDsc) (s : CodeGen) : CodeGen :=
  { s with tmpUsed := s.tmpUsed.erase t, tmpFree := t :: s.tmpFree,
           tmpReleased := s.tmpReleased ++ [t] }

/-- Modelled from the spec: `RegSet::rsSpillTree` (regset.cpp) is not part of src.
§4.2 Produce: store the value of result register `regIdx` of a temporary to a
newly leased SpillTemp and mark it spilled (the per-register spill bits of a
multi-register node; the node-level bits are set by the caller). -/
def rsSpillTree (c : Compiler) (reg : regNumber) (tree : GenTree) (regIdx : Nat) (s : CodeGen) :
    GenTree × CodeGen :=
  let t := (tmpGetTemp (tree.GetRegTypeByIndex c regIdx) s).1
  let s1 := (tmpGetTemp (tree.GetRegTypeByIndex c regIdx) s).2
  let s2 := s1.emit (instr.storeTmp t.tdNum reg)
  let s3 := { s2 with rsSpillDesc :=
    { spillTree := tree.gtTreeID, spillIdx := regIdx, spillTemp := t } :: s2.rsSpillDesc }
  let tree1 := if tree.IsMultiRegNode then
      tree.SetRegSpillFlagByIdx { GTF_SPILL := false, GTF_SPILLED := true } regIdx
    else tree
  (tree1, s3)

/-- Modelled from the spec: `RegSet::rsUnspillInPlace` (regset.cpp) is not part of
src.  It looks up the SpillTemp that holds result register `regIdx` of the
spilled node, forgets the association and hands the temp to the caller, leaving
the value's register assignment as it is (§4.2 Consume, "in-place reload"). -/
def rsUnspillInPlace (tree : GenTree) (regIdx : Nat) (s : CodeGen) : TempDsc × CodeGen :=
  match s.rsSpillDesc.find? (fun d => d.spillTree = tree.gtTreeID ∧ d.spillIdx = regIdx) with
  | some d => (d.spillTemp, { s with rsSpillDesc := s.rsSpillDesc.erase d })
  | none => (default, s)

/-! Spill and reload of locals -/

/-- Modelled from the spec: `genUpdateRegLife` (codegencommon.cpp) is not part of
src.  Its two uses in src fix its effect: the call with `isDying` in
`genSpillVar` is commented "Remove the live var from the register", and
`genUnspillLocal` spells out the `isBorn` case as
`regSet.AddMaskVars(genGetRegMask(varDsc))`. -/
def genUpdateRegLife (varNum : Nat) (_isBorn isDying : Bool) (s : CodeGen) : CodeGen :=
  if isDying then s.RemoveMaskVars (s.genGetRegMask varNum)
  else s.AddMaskVars (s.genGetRegMask varNum)

/-- Source lines 1038-1043, `CodeGenInterface::genUpdateVarReg(varDsc, tree)`. -/
def genUpdateVarReg (varNum : Nat) (tree : GenTree) (s : CodeGen) : CodeGen :=
  s.SetRegNum varNum tree.GetRegNum

/-- Source lines 1022-1028, `CodeGenInterface::genUpdateVarReg(varDsc, tree, regIndex)`. -/
def genUpdateVarRegIdx (varNum : Nat) (tree : GenTree) (regIndex : Nat) (s : CodeGen) : CodeGen :=
  s.SetRegNum varNum (tree.GetRegByIndex regIndex)

/-- The debug assertions of `genSpillVar` (source lines 931, 948, 966, 1002). -/
def genSpillVar_asserts (c : Compiler) (tree : GenTree) (s : CodeGen) : Bool :=
  let varNum := tree.gtLclNum
  let varDsc := c.lvaGetDesc varNum
  let needsSpill := (!tree.GTF_VAR_DEF) && s.lvIsInReg varNum
  varDsc.lvIsRegCandidate &&
  (!(needsSpill && !varDsc.IsAlwaysAliveInMemory) || decide (s.GetRegNum varNum = tree.GetRegNum)) &&
  (!needsSpill || !tree.GTF_SPILLED) &&
  (!tree.GTF_SPILLED || (varDsc.IsAlwaysAliveInMemory && tree.GTF_VAR_DEF))

/-- Source lines 926-1011, `CodeGen::genSpillVar`.  (64-bit target: no local
occupies a register pair, so `varTypeIsMultiReg(tree)` is false; the debug-info
call `siUpdateVariableLiveRange` does not touch the tracked state.) -/
def genSpillVar (c : Compiler) (tree : GenTree) (s : CodeGen) : GenTree × CodeGen :=
  let varNum := tree.gtLclNum
  let varDsc := c.lvaGetDesc varNum
  -- We don't actually need to spill if it is already living in memory
  let needsSpill := (!tree.GTF_VAR_DEF) && s.lvIsInReg varNum
  let s1 :=
    if needsSpill then
      -- a write-thru or single-def variable is not stored at a use
      let sa :=
        if !varDsc.IsAlwaysAliveInMemory then s.emit (instr.storeLcl varNum tree.GetRegNum) else s
      -- Remove the live var from the register.
      let sb := genUpdateRegLife varNum false true sa
      let sc := gcMarkRegSetNpt (sb.lvRegMask varNum) sb
      if varDsc.lvVarIndex ∈ c.gcTrkStkPtrLcls then
        { sc with gcVarPtrSetCur := insert varDsc.lvVarIndex sc.gcVarPtrSetCur }
      else sc
    else s
  let tree1 : GenTree := { tree with GTF_SPILL := false }
  -- If this is NOT a write-thru, reset the var location.
  let s2 := if !tree1.GTF_SPILLED then s1.SetRegNum varNum .REG_STK else s1
  (tree1, s2)

/-- Source lines 1060-1121, `CodeGen::genUnspillLocal`. -/
def genUnspillLocal (c : Compiler) (varNum : Nat) (type : var_types) (regNum : regNumber)
    (reSpill _isLastUse : Bool) (s : CodeGen) : CodeGen :=
  let varDsc := c.lvaGetDesc varNum
  let s1 := s.emit (instr.loadLcl regNum varNum)
  -- Don't update the variable's location if we are just re-spilling it again.
  let s2 :=
    if !reSpill then
      let sa := s1.SetRegNum varNum regNum
      let sb :=
        if !varDsc.IsAlwaysAliveInMemory then
          { sa with gcVarPtrSetCur := sa.gcVarPtrSetCur.erase varDsc.lvVarIndex }
        else sa
      sb.AddMaskVars (sb.genGetRegMask varNum)
    else s1
  gcMarkRegPtrVal regNum type s2

/-- The node whose spill state decides a reload (`unspillTree` in the source):
the operand of a `GT_RELOAD`, otherwise the node itself. -/
def GenTree.unspillTree (tree : GenTree) : GenTree :=
  if tree.gtOper = .GT_RELOAD then tree.gtGetOp1 else tree

/-- Store the updated `unspillTree` back where it came from. -/
def GenTree.withUnspillTree (tree u : GenTree) : GenTree :=
  if tree.gtOper = .GT_RELOAD then tree.setOp1 u else u

/-- Source lines 1138-1185, `CodeGen::genUnspillRegIfNeeded(tree, multiRegIndex)`:
reload one result register of a multi-register node, if it was spilled. -/
def genUnspillRegIfNeededIdx (c : Compiler) (tree : GenTree) (multiRegIndex : Nat)
    (s : CodeGen) : CodeGen :=
  let unspillTree := tree.unspillTree
  if !unspillTree.GTF_SPILLED then s
  else
    let spillFlags := unspillTree.GetRegSpillFlagByIdx multiRegIndex
    if !spillFlags.GTF_SPILLED then s
    else
      let dstReg0 := tree.GetRegByIndex multiRegIndex
      let dstReg := if dstReg0 = .REG_NA then unspillTree.GetRegByIndex multiRegIndex else dstReg0
      if tree.IsMultiRegLclVar then
        let fieldVarNum := (c.lvaGetDesc tree.gtLclNum).lvFieldLclStart + multiRegIndex
        let reSpill := spillFlags.GTF_SPILL
        let isLastUse := tree.IsLastUse multiRegIndex
        genUnspillLocal c fieldVarNum (c.lvaGetDesc fieldVarNum).lvType dstReg reSpill isLastUse s
      else
        let dstType := unspillTree.GetRegTypeByIndex c multiRegIndex
        let t := (rsUnspillInPlace unspillTree multiRegIndex s).1
        let s1 := (rsUnspillInPlace unspillTree multiRegIndex s).2
        let s2 := s1.emit (instr.loadTmp dstReg t.tdNum)
        let s3 := tmpRlsTemp t s2
        gcMarkRegPtrVal dstReg dstType s3

/-- Body of the field loop at source lines 1270-1282. -/
def genUnspillRegIfNeeded_field (c : Compiler) (lclNode : GenTree) (st : CodeGen) (i : Nat) :
    CodeGen :=
  let varDsc := c.lvaGetDesc lclNode.gtLclNum
  let spillFlags := lclNode.GetRegSpillFlagByIdx i
  if spillFlags.GTF_SPILLED then
    let reg := lclNode.GetRegNumByIdx i
    let fieldVarNum := varDsc.lvFieldLclStart + i
    let reSpill := spillFlags.GTF_SPILL
    let isLastUse := lclNode.IsLastUse i
    genUnspillLocal c fieldVarNum (c.lvaGetDesc fieldVarNum).lvType reg reSpill isLastUse st
  else st

/-- The type used to reload a register-candidate local (source lines 1250-1255). -/
def genUnspillRegIfNeeded_unspillType (c : Compiler) (lcl : GenTree) : var_types :=
  let varDsc := c.lvaGetDesc lcl.gtLclNum
  let unspillType := if varDsc.lvNormalizeOnLoad then varDsc.lvType else varDsc.stackSlotHomeType
  if varTypeIsGC lcl.gtType then lcl.gtType else unspillType

/-- Source lines 1207-1313, `CodeGen::genUnspillRegIfNeeded(tree)`: reload the value
into a register, if needed.  Returns the node with its updated flags. -/
def genUnspillRegIfNeeded (c : Compiler) (tree : GenTree) (s : CodeGen) : GenTree × CodeGen :=
  let unspillTree := tree.unspillTree
  if unspillTree.GTF_SPILLED then
    if genIsRegCandidateLocal c unspillTree then
      -- Reset spilled flag, since we are going to load a local variable from its home location.
      let lcl : GenTree := { unspillTree with GTF_SPILLED := false }
      let unspillType := genUnspillRegIfNeeded_unspillType c lcl
      let reSpill := lcl.GTF_SPILL
      let isLastUse := lcl.IsLastUse 0
      (tree.withUnspillTree lcl,
        genUnspillLocal c lcl.gtLclNum unspillType tree.GetRegNum reSpill isLastUse s)
    else if unspillTree.IsMultiRegLclVar then
      let regCount := (c.lvaGetDesc unspillTree.gtLclNum).lvFieldCnt
      (tree, (List.range regCount).foldl (genUnspillRegIfNeeded_field c unspillTree) s)
    else if unspillTree.IsMultiRegNode then
      let regCount := unspillTree.GetMultiRegCount c
      let s1 := (List.range regCount).foldl (fun st i => genUnspillRegIfNeededIdx c tree i st) s
      (tree.withUnspillTree { unspillTree with GTF_SPILLED := false }, s1)
    else
      let t := (rsUnspillInPlace unspillTree 0 s).1
      let s1 := (rsUnspillInPlace unspillTree 0 s).2
      -- Reload into the register specified by 'tree' which may be a GT_RELOAD.
      let dstReg := tree.GetRegNum
      let s2 := s1.emit (instr.loadTmp dstReg t.tdNum)
      let s3 := tmpRlsTemp t s2
      (tree.withUnspillTree { unspillTree with GTF_SPILLED := false },
        gcMarkRegPtrVal dstReg unspillTree.gtType s3)
  else (tree, s)

/-- Source lines 2030-2049, `CodeGen::genSpillLocal`: generate the actual spill of
a local var. -/
def genSpillLocal (c : Compiler) (varNum : Nat) (_type : var_types) (lclNode : GenTree)
    (regNum : regNumber) (s : CodeGen) : CodeGen :=
  if lclNode.GTF_VAR_DEF || !(c.lvaGetDesc varNum).IsAlwaysAliveInMemory then
    -- Store local variable to its home location.
    s.emit (instr.storeLcl varNum regNum)
  else s

/-! Liveness update -/

/-- Modelled from the spec: part of `genUpdateLife(tree)`, which is not part of src.
The liveness change of one local that is born or dies at a node: the live set
`compCurLife`, then the live-variable mask through `genUpdateRegLife` when the
local is in the node's register, then the stack-slot set for a GC-tracked
local that is valid in memory (§4.3 MarkStackSlotLive/Dead). -/
def genUpdateLife_var (c : Compiler) (varNum : Nat) (isBorn isDying : Bool) (newReg : Bool)
    (reg : regNumber) (s : CodeGen) : CodeGen :=
  let varDsc := c.lvaGetDesc varNum
  let sa := { s with compCurLife :=
    (if isDying then s.compCurLife.erase varDsc.lvVarIndex
     else insert varDsc.lvVarIndex s.compCurLife) }
  let sb := if newReg then sa.SetRegNum varNum reg else sa
  let isInReg := sb.lvIsInReg varNum && decide (reg ≠ .REG_NA)
  let isInMemory := !isInReg || varDsc.IsAlwaysAliveInMemory
  let sc := if isInReg then genUpdateRegLife varNum isBorn isDying sb else sb
  if isInMemory && decide (varDsc.lvVarIndex ∈ c.gcTrkStkPtrLcls) then
    { sc with gcVarPtrSetCur :=
      (if isDying then sc.gcVarPtrSetCur.erase varDsc.lvVarIndex
       else insert varDsc.lvVarIndex sc.gcVarPtrSetCur) }
  else sc

/-- Modelled from the spec: part of `genUpdateLife(tree)`, which is not part of src.
The per-field step for a multi-register local (§4.2 "repeat per sub-register /
per-field"). -/
def genUpdateLife_field (c : Compiler) (tree : GenTree) (st : CodeGen) (i : Nat) : CodeGen :=
  let varDsc := c.lvaGetDesc tree.gtLclNum
  let fieldVarNum := varDsc.lvFieldLclStart + i
  let isBorn := tree.GTF_VAR_DEF && !tree.GTF_VAR_USEASG
  let isDying := tree.IsLastUse i
  if (c.lvaGetDesc fieldVarNum).lvTracked && (isBorn || isDying) then
    genUpdateLife_var c fieldVarNum isBorn isDying
      (isBorn && decide (tree.GetRegByIndex i ≠ .REG_NA)) (tree.GetRegByIndex i) st
  else st

/-- Modelled from the spec: `genUpdateLife(tree)` (the tree life updater) is not
part of src.  For the node of a tracked local it updates liveness "after the
instruction was emitted" (comment at source line 2138): a definition is born, a
node with `GTF_VAR_DEATH` dies; a born register candidate takes the node's
register (`genUpdateVarReg`, source lines 1038-1043); and, per the comment at
source line 1508, "genUpdateLife() will also spill local var if marked as
GTF_SPILL by calling CodeGen::genSpillVar".  For a multi-register local the
born/dying update is repeated per field; its fields are stored by
`genProduceReg` itself.  Other nodes carry no liveness change. -/
def genUpdateLife (c : Compiler) (tree : GenTree) (s : CodeGen) : GenTree × CodeGen :=
  if tree.OperIsScalarLocal && !tree.IsMultiRegLclVar then
    let varNum := tree.gtLclNum
    let varDsc := c.lvaGetDesc varNum
    if !varDsc.lvTracked then (tree, s)
    else
      let isBorn := tree.GTF_VAR_DEF && !tree.GTF_VAR_USEASG
      let isDying := tree.GTF_VAR_DEATH
      let s1 :=
        if isBorn || isDying then
          genUpdateLife_var c varNum isBorn isDying
            (isBorn && varDsc.lvIsRegCandidate && tree.gtHasReg c) tree.GetRegNum s
        else s
      if tree.GTF_SPILL then genSpillVar c tree s1 else (tree, s1)
  else if tree.IsMultiRegLclVar then
    (tree, (List.range (c.lvaGetDesc tree.gtLclNum).lvFieldCnt).foldl (genUpdateLife_field c tree) s)
  else (tree, s)

/-! Consume and produce -/

/-- Body of the field loop at source lines 1540-1563. -/
def genConsumeReg_clearField (c : Compiler) (tree : GenTree) (st : CodeGen) (i : Nat) : CodeGen :=
  let lcl := tree.gtSkipReloadOrCopy
  let firstFieldVarNum := (c.lvaGetDesc lcl.gtLclNum).lvFieldLclStart
  let reg :=
    if tree.IsCopyOrReload && decide (tree.GetRegByIndex i ≠ .REG_NA) then tree.GetRegByIndex i
    else lcl.GetRegNumByIdx i
  if st.GetRegNum (firstFieldVarNum + i) = .REG_STK then
    -- We have loaded this into a register only temporarily
    gcMarkRegSetNpt (genRegMask reg) st
  else if lcl.IsLastUse i then
    gcMarkRegSetNpt (genRegMask (st.GetRegNum (firstFieldVarNum + i))) st
  else st

/-- The last step of `genConsumeReg(tree)` (source lines 1511-1568): the three
cases where consuming a register means clearing its bit in the GC masks. -/
def genConsumeReg_clear (c : Compiler) (tree : GenTree) (s : CodeGen) : CodeGen :=
  if genIsRegCandidateLocal c tree then
    if s.GetRegNum tree.gtLclNum = .REG_STK then
      -- We have loaded this into a register only temporarily
      gcMarkRegSetNpt (genRegMask tree.GetRegNum) s
    else if tree.GTF_VAR_DEATH then
      gcMarkRegSetNpt (genRegMask (s.GetRegNum tree.gtLclNum)) s
    else s
  else if tree.gtSkipReloadOrCopy.IsMultiRegLclVar then
    (List.range (c.lvaGetDesc tree.gtSkipReloadOrCopy.gtLclNum).lvFieldCnt).foldl
      (genConsumeReg_clearField c tree) s
  else
    gcMarkRegSetNpt tree.gtGetRegMask s

/-- The copy of a lclVar that has to be moved before use (source lines 1495-1504). -/
def genConsumeReg_copyLcl (c : Compiler) (tree : GenTree) (s : CodeGen) : CodeGen :=
  if genIsRegCandidateLocal c tree then
    if s.GetRegNum tree.gtLclNum ≠ .REG_STK then
      inst_Mov tree.GetRegNum (s.GetRegNum tree.gtLclNum) true s
    else s
  else s

/-- Source lines 1478-1572, `CodeGen::genConsumeReg(tree)`.  `genRegCopy` (the code
that performs a `GT_COPY`) is not part of src and is a parameter: an arbitrary
transformer of the state.  The debug-only `genCheckConsumeNode` changes debug
flags only.  Returns the register of the node, the node with its updated flags,
and the state. -/
def genConsumeReg (c : Compiler) (genRegCopy : GenTree → CodeGen → CodeGen) (tree : GenTree)
    (s : CodeGen) : regNumber × GenTree × CodeGen :=
  let s0 := if tree.gtOper = .GT_COPY then genRegCopy tree s else s
  let s1 := genConsumeReg_copyLcl c tree s0
  let tree2 := (genUnspillRegIfNeeded c tree s1).1
  let s2 := (genUnspillRegIfNeeded c tree s1).2
  -- genUpdateLife() will also spill local var if marked as GTF_SPILL by calling genSpillVar
  let tree3 := (genUpdateLife c tree2 s2).1
  let s3 := (genUpdateLife c tree2 s2).2
  (tree3.GetRegNum, tree3, genConsumeReg_clear c tree3 s3)

/-- Body of the loop at source lines 2161-2166 (multi-register call). -/
def genProduceReg_markCallReg (tree : GenTree) (st : CodeGen) (i : Nat) : CodeGen :=
  gcMarkRegPtrVal (tree.GetRegNumByIdx i) (tree.gtRetRegTypes.getD i default) st

/-- Body of the loop at source lines 2181-2190 (copy of a multi-register call). -/
def genProduceReg_markCopyReg (tree : GenTree) (st : CodeGen) (i : Nat) : CodeGen :=
  let type := tree.gtGetOp1.gtRetRegTypes.getD i default
  let toReg := tree.GetRegNumByIdx i
  if toReg ≠ .REG_NA then gcMarkRegPtrVal toReg type st else st

/-- Body of the loop at source lines 2198-2209 (multi-register local). -/
def genProduceReg_markField (c : Compiler) (tree : GenTree) (st : CodeGen) (i : Nat) : CodeGen :=
  if !tree.IsLastUse i then
    let reg := tree.GetRegNumByIdx i
    if reg ≠ .REG_NA then
      gcMarkRegPtrVal reg (c.lvaGetDesc ((c.lvaGetDesc tree.gtLclNum).lvFieldLclStart + i)).lvType st
    else st
  else st

/-- The marking step of `genProduceReg` (source lines 2141-2216): if we have
produced a register, mark it as a pointer, as needed.  `none` is the failing
`noway_assert(tree->OperIs(GT_COPY))`. -/
def genProduceReg_mark (c : Compiler) (tree : GenTree) (s : CodeGen) : Option CodeGen :=
  if tree.gtHasReg c then
    if !genIsRegCandidateLocal c tree || !tree.GTF_VAR_DEATH then
      if tree.IsMultiRegCall then
        some ((List.range tree.gtRetRegTypes.length).foldl (genProduceReg_markCallReg tree) s)
      else if tree.IsCopyOrReloadOfMultiRegCall then
        -- we should never see reload of multi-reg call here
        if tree.gtOper ≠ .GT_COPY then none
        else
          some ((List.range tree.gtGetOp1.gtRetRegTypes.length).foldl
            (genProduceReg_markCopyReg tree) s)
      else if tree.IsMultiRegLclVar then
        some ((List.range (c.lvaGetDesc tree.gtLclNum).lvFieldCnt).foldl
          (genProduceReg_markField c tree) s)
      else
        some (gcMarkRegPtrVal tree.GetRegNum tree.gtType s)
    else some s
  else some s

/-- The part of `genProduceReg` after the spill block (source lines 2138-2216):
update liveness, then mark the produced registers. -/
def genProduceReg_tail (c : Compiler) (tree : GenTree) (s : CodeGen) : Option (GenTree × CodeGen) :=
  (genProduceReg_mark c (genUpdateLife c tree s).1 (genUpdateLife c tree s).2).map
    (fun s2 => ((genUpdateLife c tree s).1, s2))

/-- Body of the field loop at source lines 2094-2104 (spill of a multi-register
local). -/
def genProduceReg_spillField (c : Compiler) (tree : GenTree) (st : CodeGen) (i : Nat) : CodeGen :=
  if (tree.GetRegSpillFlagByIdx i).GTF_SPILL then
    let reg := tree.GetRegNumByIdx i
    let fieldVarNum := (c.lvaGetDesc tree.gtLclNum).lvFieldLclStart + i
    genSpillLocal c fieldVarNum (c.lvaGetDesc fieldVarNum).lvType tree reg st
  else st

/-- Body of the loop at source lines 2114-2123 (spill of a multi-register
temporary). -/
def genProduceReg_spillReg (c : Compiler) (acc : GenTree × CodeGen) (i : Nat) :
    GenTree × CodeGen :=
  if (acc.1.GetRegSpillFlagByIdx i).GTF_SPILL then
    let reg := acc.1.GetRegByIndex i
    ((rsSpillTree c reg acc.1 i acc.2).1,
      gcMarkRegSetNpt (genRegMask reg) (rsSpillTree c reg acc.1 i acc.2).2)
  else acc

/-- The spill of a non-local temporary (source lines 2106-2134), before the
node-level flags are updated. -/
def genProduceReg_spillTemp (c : Compiler) (tree : GenTree) (s : CodeGen) : GenTree × CodeGen :=
  if tree.IsMultiRegNode then
    (List.range (tree.GetMultiRegCount c)).foldl (genProduceReg_spillReg c) (tree, s)
  else
    ((rsSpillTree c tree.GetRegNum tree 0 s).1,
      gcMarkRegSetNpt (genRegMask tree.GetRegNum) (rsSpillTree c tree.GetRegNum tree 0 s).2)

/-- Source lines 2061-2217, `CodeGen::genProduceReg`: liveness update for the
register(s) produced by the node, after code has been emitted for it.  `none`
is a failing `noway_assert`.  (The type handed to `genSpillLocal` only selects
the store instruction.) -/
def genProduceReg (c : Compiler) (tree : GenTree) (s : CodeGen) : Option (GenTree × CodeGen) :=
  if tree.GTF_SPILL then
    -- a GT_COPY / GT_RELOAD node should never be marked to spill
    if tree.IsCopyOrReload then none
    else if genIsRegCandidateLocal c tree then
      genProduceReg_tail c tree
        (genSpillLocal c tree.gtLclNum (c.lvaGetDesc tree.gtLclNum).lvType tree tree.GetRegNum s)
    else if tree.IsMultiRegLclVar then
      genProduceReg_tail c tree
        ((List.range (c.lvaGetDesc tree.gtLclNum).lvFieldCnt).foldl (genProduceReg_spillField c tree) s)
    else
      some ({ (genProduceReg_spillTemp c tree s).1 with GTF_SPILLED := true, GTF_SPILL := false },
        (genProduceReg_spillTemp c tree s).2)
  else genProduceReg_tail c tree s

/-! Block entry and block exit in `genCodeForBBlist` -/

/-- The fields of a `BasicBlock` read at block entry and exit. -/
structure BasicBlock where
  bbNum : Nat
  bbLiveIn : VARSET_TP
  bbLiveOut : VARSET_TP
  handlerGetsXcptnObj : Bool
  nodes : List GenTree
  BBF_HAS_JMP : Bool
  BBF_HAS_LABEL : Bool

/-- The elements of a variable set in the order `VarSetOps::Iter` visits them
(increasing index). -/
def VarSetOps_Iter (set : VARSET_TP) : List Nat :=
  (List.range (set.sup id + 1)).filter (fun i => i ∈ set)

/-- Modelled from the spec: part of `genUpdateLife(VARSET)`, which is not part of
src: a local leaving the live set.  Its register leaves the live-variable mask
and the GC register sets, its stack slot leaves the stack-slot set. -/
def genUpdateLifeSet_dead (c : Compiler) (st : CodeGen) (varIndex : Nat) : CodeGen :=
  let varNum := c.lvaTrackedToVarNum varIndex
  let varDsc := c.lvaGetDesc varNum
  let isInReg := st.lvIsInReg varNum
  let isInMemory := !isInReg || varDsc.IsAlwaysAliveInMemory
  let sa :=
    if isInReg then
      genUpdateRegLife varNum false true
        (if varTypeIsGC varDsc.lvType then gcMarkRegSetNpt (st.lvRegMask varNum) st else st)
    else st
  if isInMemory && varTypeIsGC varDsc.lvType then
    { sa with gcVarPtrSetCur := sa.gcVarPtrSetCur.erase varIndex }
  else sa

/-- Modelled from the spec: part of `genUpdateLife(VARSET)`, which is not part of
src: a local entering the live set.  In a register: the register joins the
live-variable mask and is marked under the kind of the local's type (§4.3
MarkRegisterSet), and the stack slot is no longer current unless the local is
always-memory-resident.  On the stack: a GC-tracked local joins the stack-slot
set. -/
def genUpdateLifeSet_born (c : Compiler) (st : CodeGen) (varIndex : Nat) : CodeGen :=
  let varNum := c.lvaTrackedToVarNum varIndex
  let varDsc := c.lvaGetDesc varNum
  if st.lvIsInReg varNum then
    let sa : CodeGen :=
      if !varDsc.IsAlwaysAliveInMemory then
        { st with gcVarPtrSetCur := st.gcVarPtrSetCur.erase varIndex }
      else st
    let sb := genUpdateRegLife varNum true false sa
    match varDsc.lvType with
    | .TYP_REF => gcMarkRegSetGCref (sb.lvRegMask varNum) sb
    | .TYP_BYREF => gcMarkRegSetByref (sb.lvRegMask varNum) sb
    | _ => sb
  else if c.lvaIsGCTracked varDsc then
    { st with gcVarPtrSetCur := insert varIndex st.gcVarPtrSetCur }
  else st

/-- Modelled from the spec: `genUpdateLife(VARSET)` (the change of the live set at a
block boundary) is not part of src.  Per the comment at source lines 196-199,
"genUpdateLife will update the registers live due to liveness changes": the
locals leaving the live set are handled first, then the locals entering it. -/
def genUpdateLifeSet (c : Compiler) (newLife : VARSET_TP) (s : CodeGen) : CodeGen :=
  let deadSet := s.compCurLife \ newLife
  let bornSet := newLife \ s.compCurLife
  let s0 := { s with compCurLife := newLife }
  let s1 := (VarSetOps_Iter deadSet).foldl (genUpdateLifeSet_dead c) s0
  (VarSetOps_Iter bornSet).foldl (genUpdateLifeSet_born c) s1

/-- The three local masks and the state of the live-in loop at source lines
201-246. -/
structure SeedState where
  newLiveRegSet : regMaskTP
  newRegGCrefSet : regMaskTP
  newRegByrefSet : regMaskTP
  cg : CodeGen

/-- One iteration of the live-in loop (source lines 210-246). -/
def genCodeForBBlist_seedStep (c : Compiler) (a : SeedState) (varIndex : Nat) : SeedState :=
  let varNum := c.lvaTrackedToVarNum varIndex
  let varDsc := c.lvaGetDescByTrackedIndex varIndex
  let a1 : SeedState :=
    if a.cg.lvIsInReg varNum then
      let live := a.newLiveRegSet ∪ a.cg.lvRegMask varNum
      let gcref := if varDsc.lvType = .TYP_REF then a.newRegGCrefSet ∪ a.cg.lvRegMask varNum
                   else a.newRegGCrefSet
      let byref := if varDsc.lvType = .TYP_REF then a.newRegByrefSet
                   else if varDsc.lvType = .TYP_BYREF then a.newRegByrefSet ∪ a.cg.lvRegMask varNum
                   else a.newRegByrefSet
      let cg1 :=
        if !varDsc.IsAlwaysAliveInMemory then
          { a.cg with gcVarPtrSetCur := a.cg.gcVarPtrSetCur.erase varIndex }
        else a.cg
      { newLiveRegSet := live, newRegGCrefSet := gcref, newRegByrefSet := byref, cg := cg1 }
    else a
  if (!a1.cg.lvIsInReg varNum || varDsc.IsAlwaysAliveInMemory) && c.lvaIsGCTracked varDsc then
    { a1 with cg := { a1.cg with gcVarPtrSetCur := insert varIndex a1.cg.gcVarPtrSetCur } }
  else a1

/-- The live-in loop (source lines 201-246), started from empty masks. -/
def genCodeForBBlist_seedLoop (c : Compiler) (block : BasicBlock) (s : CodeGen) : SeedState :=
  (VarSetOps_Iter block.bbLiveIn).foldl (genCodeForBBlist_seedStep c)
    { newLiveRegSet := RBM_NONE, newRegGCrefSet := RBM_NONE, newRegByrefSet := RBM_NONE, cg := s }

/-- Source lines 186-194 of `CodeGen::genCodeForBBlist`: clear the live-variable
mask and the GC register sets, let the register allocator record the variable
locations of the block, and update liveness to the live-in set. -/
def genCodeForBBlist_resetState (c : Compiler) (block : BasicBlock) (s : CodeGen) : CodeGen :=
  let s1 := s.ClearMaskVars
  let s2 : CodeGen := { s1 with gcRegGCrefSetCur := RBM_NONE, gcRegByrefSetCur := RBM_NONE }
  let s3 : CodeGen := { s2 with lvRegNum := c.recordVarLocationsAtStartOfBB block.bbNum s2.lvRegNum }
  -- Updating variable liveness after last instruction of previous block was emitted
  genUpdateLifeSet c block.bbLiveIn s3

/-- Source lines 248-269 of `CodeGen::genCodeForBBlist`: install the masks
computed by the live-in loop. -/
def genCodeForBBlist_installMasks (a : SeedState) : CodeGen :=
  gcMarkRegSetByref a.newRegByrefSet
    (gcMarkRegSetGCref a.newRegGCrefSet (a.cg.SetMaskVars a.newLiveRegSet))

/-- Source lines 186-288 of `CodeGen::genCodeForBBlist`: figure out which registers
hold variables on entry to this block. -/
def genCodeForBBlist_blockEntry (c : Compiler) (block : BasicBlock) (s : CodeGen) : CodeGen :=
  let s7 := genCodeForBBlist_installMasks
    (genCodeForBBlist_seedLoop c block (genCodeForBBlist_resetState c block s))
  if block.handlerGetsXcptnObj then
    if block.nodes.any (fun node => node.gtOper = .GT_CATCH_ARG) then
      gcMarkRegSetGCref c.RBM_EXCEPTION_OBJECT s7
    else s7
  else s7

/-- The mask `nonVarPtrRegs` computed by the end-of-block check (source lines
486-516). -/
def genCodeForBBlist_nonVarPtrRegs (c : Compiler) (block : BasicBlock) (s : CodeGen) : regMaskTP :=
  let ptrRegs := s.gcRegGCrefSetCur ∪ s.gcRegByrefSetCur
  let n0 := ptrRegs \ s.GetMaskVars
  -- If this is a return block then we expect some live GC regs. Clear those.
  let n1 :=
    if c.compMethodReturnsRetBufAddr then n0 \ c.RBM_INTRET
    else c.compRetTypeDescRegs.foldl (fun n reg => n \ genRegMask reg) n0
  let n2 := if c.compIsAsync then n1 \ c.RBM_ASYNC_CONTINUATION_RET else n1
  -- For a tailcall arbitrary argument registers may be live into the epilog.
  if block.BBF_HAS_JMP then n2 \ c.fullIntArgRegMask_Managed else n2

/-- The end-of-block GC register check (source lines 486-532):
`noway_assert(nonVarPtrRegs == RBM_NONE)`; `none` is the fatal failure. -/
def genCodeForBBlist_gcRegCheck (c : Compiler) (block : BasicBlock) (s : CodeGen) : Option Unit :=
  if genCodeForBBlist_nonVarPtrRegs c block s = RBM_NONE then some () else none

/-! Basic facts about the GC register sets -/

/-- The two GC register sets share no register (§3 GCRootSnapshot). -/
def DisjointGC (s : CodeGen) : Prop :=
  Disjoint s.gcRegGCrefSetCur s.gcRegByrefSetCur

/-- A register is rooted when it is in one of the two GC register sets. -/
def Rooted (r : Nat) (s : CodeGen) : Prop :=
  r ∈ s.gcRegGCrefSetCur ∨ r ∈ s.gcRegByrefSetCur

/-- Two states with the same GC register sets. -/
def SameGC (t s : CodeGen) : Prop :=
  t.gcRegGCrefSetCur = s.gcRegGCrefSetCur ∧ t.gcRegByrefSetCur = s.gcRegByrefSetCur

/-! Sets and predicates used in the statements -/

/-- The excused set in the words of the spec: the declared return-value
registers (`RBM_INTRET` when the method returns the return-buffer address,
otherwise the ABI return registers of the return type), the async continuation
register for async methods, and the managed integer argument registers for a
block flagged `BBF_HAS_JMP`. -/
def excusedSet_spec (c : Compiler) (block : BasicBlock) : regMaskTP :=
  (if c.compMethodReturnsRetBufAddr then c.RBM_INTRET
   else c.compRetTypeDescRegs.foldr (fun reg m => genRegMask reg ∪ m) ∅) ∪
  (if c.compIsAsync then c.RBM_ASYNC_CONTINUATION_RET else ∅) ∪
  (if block.BBF_HAS_JMP then c.fullIntArgRegMask_Managed else ∅)

/-- The registers of the live-out locals of a GC type that are in a register:
the "live-out GC-tracked variable registers" of the spec. -/
def liveOutGCVarRegs (c : Compiler) (block : BasicBlock) (s : CodeGen) : regMaskTP :=
  (VarSetOps_Iter block.bbLiveOut).foldr
    (fun i m =>
      if varTypeIsGC (c.lvaGetDescByTrackedIndex i).lvType && s.lvIsInReg (c.lvaTrackedToVarNum i)
      then s.lvRegMask (c.lvaTrackedToVarNum i) ∪ m else m) ∅

/-- A node with its spill bits cleared. -/
def GenTreeNode.eraseSpill (n : GenTreeNode) : GenTreeNode :=
  { n with GTF_SPILL := false, GTF_SPILLED := false }

/-- A tree with the spill bits of the node and of its operand cleared: what
reload and life update never change. -/
def GenTree.eraseSpill (t : GenTree) : GenTree :=
  { t with GTF_SPILL := false, GTF_SPILLED := false, gtOp1 := t.gtOp1.map GenTreeNode.eraseSpill }

/-- A tracked, GC-tracked register-candidate local of type `t` whose tracked
index is `idx`. -/
def exLcl (t : var_types) (idx : Nat) (alwaysAlive : Bool) : LclVarDsc :=
  { lvType := t, lvVarIndex := idx, lvTracked := true, lvLRACandidate := true,
    alwaysAliveInMemory := alwaysAlive, gcTracked := varTypeIsGC t, lvPromoted := false,
    lvFieldLclStart := 0, lvFieldCnt := 0, lvIsParam := false, lvRegister := false,
    addressExposed := false, lvNormalizeOnLoad := false, stackSlotHomeType := t }

/-- A method with the given local table; tracked index `i` is local `i`, locals
0..3 have GC-tracked stack slots, the allocator leaves the variable locations as
they are, and the method returns one value in register 0. -/
def exCompiler (tbl : Nat → LclVarDsc) : Compiler :=
  { lvaTable := tbl, lvaCount := 4, lvaTrackedCount := 4, lvaTrackedToVarNum := fun i => i,
    gcTrkStkPtrLcls := {0, 1, 2, 3}, recordVarLocationsAtStartOfBB := fun _ f => f,
    compMethodReturnsRetBufAddr := false, compRetTypeDescRegs := [.REG 0], compIsAsync := false,
    RBM_INTRET := {0}, RBM_ASYNC_CONTINUATION_RET := {1}, fullIntArgRegMask_Managed := {1, 2, 6, 7},
    RBM_EXCEPTION_OBJECT := {0} }

/-- A state with the given GC register sets, live-variable mask and variable
locations; nothing emitted, no spill temps, no live variables, empty stack-slot
set. -/
def exState (gcref byref maskVars : regMaskTP) (regs : Nat → regNumber) : CodeGen :=
  { gcRegGCrefSetCur := gcref, gcRegByrefSetCur := byref, gcVarPtrSetCur := ∅,
    rsMaskVars := maskVars, compCurLife := ∅, lvRegNum := regs, emitted := [],
    tmpUsed := [], tmpFree := [], tmpCount := 0, rsSpillDesc := [], tmpReleased := [] }

/-- A single-register node without operand and with all flags clear. -/
def exNode (id : Nat) (oper : genTreeOps) (t : var_types) (reg : regNumber) (lclNum : Nat) :
    GenTree :=
  { gtTreeID := id, gtOper := oper, gtType := t, GTF_SPILL := false, GTF_SPILLED := false,
    GTF_VAR_DEF := false, GTF_VAR_USEASG := false, GTF_VAR_DEATH := false,
    GTF_VAR_MULTIREG := false, gtRegNum := reg, gtOtherRegs := [], gtSpillFlags := [],
    gtFieldDeath := [], gtLclNum := lclNum, gtRetRegTypes := [], gtOp1 := none }

/-- A call that returns two `TYP_REF` values in registers 0 and 2; `spill0` is the
spill request for the first result register (and then also the node-level
`GTF_SPILL`). -/
def exCall2 (spill0 : Bool) : GenTree :=
  { exNode 7 .GT_CALL .TYP_STRUCT (.REG 0) 0 with
    GTF_SPILL := spill0,
    gtOtherRegs := [.REG 2],
    gtSpillFlags := [{ GTF_SPILL := spill0, GTF_SPILLED := false },
                     { GTF_SPILL := false, GTF_SPILLED := false }],
    gtRetRegTypes := [.TYP_REF, .TYP_REF] }

/-- From `s` to `t` the GC register sets only shrink and the spill records,
leased temps and emitted instructions only grow. -/
def SpillMono (s t : CodeGen) : Prop :=
  t.gcRegGCrefSetCur ⊆ s.gcRegGCrefSetCur ∧ t.gcRegByrefSetCur ⊆ s.gcRegByrefSetCur ∧
  (∀ d ∈ s.rsSpillDesc, d ∈ t.rsSpillDesc) ∧ (∀ x ∈ s.tmpUsed, x ∈ t.tmpUsed) ∧
  (∀ x ∈ s.emitted, x ∈ t.emitted)

/-- The register mask of a local as a function of the table of recorded
registers. -/
def maskOf (L : Nat → regNumber) (v : Nat) : regMaskTP :=
  if L v ≠ regNumber.REG_STK then genRegMask (L v) else RBM_NONE

/-- Every register of the two GC register sets of `t` belongs to a local of the
set `live` that has the matching GC type, under the recorded registers `L`. -/
def GCOwned (c : Compiler) (L : Nat → regNumber) (live : VARSET_TP) (t : CodeGen) : Prop :=
  (∀ r ∈ t.gcRegGCrefSetCur, ∃ i ∈ live, (c.lvaGetDescByTrackedIndex i).lvType = .TYP_REF ∧
      r ∈ maskOf L (c.lvaTrackedToVarNum i)) ∧
  (∀ r ∈ t.gcRegByrefSetCur, ∃ i ∈ live, (c.lvaGetDescByTrackedIndex i).lvType = .TYP_BYREF ∧
      r ∈ maskOf L (c.lvaTrackedToVarNum i))

/-- Three locals: 0 is a `TYP_REF`, 1 a `TYP_BYREF`, every other a `TYP_INT`
local; `alive0` makes local 0 always-alive-in-memory. -/
def exTable3 (alive0 : Bool) (n : Nat) : LclVarDsc :=
  if n = 0 then exLcl .TYP_REF 0 alive0
  else if n = 1 then exLcl .TYP_BYREF 1 false
  else exLcl .TYP_INT n false

/-- Local 0 lives in register 3, local 1 in register 5, local 2 in register 6,
every other local on the stack. -/
def exRegs3 (n : Nat) : regNumber :=
  if n = 0 then .REG 3 else if n = 1 then .REG 5 else if n = 2 then .REG 6 else .REG_STK

/-- A block without catch argument whose live-in locals are 0, 1 and 2. -/
def exBlock3 : BasicBlock :=
  { bbNum := 2, bbLiveIn := {0, 1, 2}, bbLiveOut := {0}, handlerGetsXcptnObj := false,
    nodes := [], BBF_HAS_JMP := false, BBF_HAS_LABEL := true }

/-- Two nodes that differ in their per-register spill bits only. -/
def SameButSpillFlags (t u : GenTree) : Prop :=
  ({ t with gtSpillFlags := [] } : GenTree) = { u with gtSpillFlags := [] }

/-- Result register `i` of `tree` has been spilled to a leased temp in state `s`:
the register is in neither GC register set, and some leased temp is recorded as
holding it and was the target of an emitted store of that register. -/
def SpilledToTemp (tree : GenTree) (i : Nat) (s : CodeGen) : Prop :=
  (∀ r ∈ genRegMask (tree.GetRegByIndex i),
    r ∉ s.gcRegGCrefSetCur ∧ r ∉ s.gcRegByrefSetCur) ∧
  ∃ t, SpillDsc.mk tree.gtTreeID i t ∈ s.rsSpillDesc ∧ t ∈ s.tmpUsed ∧
    instr.storeTmp t.tdNum (tree.GetRegByIndex i) ∈ s.emitted

/-! Integer casts: `GenIntCastDesc` -/

/-- The target properties that select the conditionally compiled parts of
`GenIntCastDesc`: `TARGET_64BIT`, and `TARGET_LOONGARCH64` or `TARGET_RISCV64`. -/
structure Target where
  TARGET_64BIT : Bool
  TARGET_LOONGARCH64_OR_RISCV64 : Bool
  deriving DecidableEq

/-- Modelled from the spec: the enumeration `CheckKind` (codegen.h) is not part of
src; its members are the check kinds `GenIntCastDesc` assigns (§4.5: none, small
range, non-negative, and the three 64-to-32 range checks). -/
inductive CheckKind
  | CHECK_NONE
  | CHECK_SMALL_INT_RANGE
  | CHECK_POSITIVE
  | CHECK_UINT_RANGE
  | CHECK_POSITIVE_INT_RANGE
  | CHECK_INT_RANGE
  deriving DecidableEq

/-- Modelled from the spec: the enumeration `ExtendKind` (codegen.h) is not part of
src; its members are the extension kinds `GenIntCastDesc` assigns (§4.5: copy,
sign/zero extension, and the extensions folded into a load). -/
inductive ExtendKind
  | COPY
  | ZERO_EXTEND_SMALL_INT
  | SIGN_EXTEND_SMALL_INT
  | ZERO_EXTEND_INT
  | SIGN_EXTEND_INT
  | LOAD_ZERO_EXTEND_SMALL_INT
  | LOAD_SIGN_EXTEND_SMALL_INT
  | LOAD_ZERO_EXTEND_INT
  | LOAD_SIGN_EXTEND_INT
  | LOAD_SOURCE
  deriving DecidableEq

/-- The fields of a `GT_CAST` node and of its operand that `GenIntCastDesc` reads:
the type of the operand (`CastOp()->TypeGet()`), whether the operand is used from
a register or from memory, the `GTF_UNSIGNED` flag (`IsUnsigned()`), the cast-to
type, the type of the node and the overflow flag (`gtOverflow()`). -/
structure GenTreeCast where
  CastOp_TypeGet : var_types
  CastOp_isUsedFromReg : Bool
  CastOp_isUsedFromMemory : Bool
  IsUnsigned : Bool
  gtCastType : var_types
  gtType : var_types
  gtOverflow : Bool
  deriving DecidableEq

/-- Modelled from the spec: `genActualType` (vartype.h) is not part of src; the type
a value has in a register.  A small integer type is widened to `TYP_INT` (source
line 2326: "srcType cannot be a small int type since it's the actual type of the
cast operand"), the unsigned 32 and 64 bit types are `TYP_INT` and `TYP_LONG`,
every other type is unchanged. -/
def genActualType : var_types → var_types
  | .TYP_BYTE => .TYP_INT
  | .TYP_UBYTE => .TYP_INT
  | .TYP_SHORT => .TYP_INT
  | .TYP_USHORT => .TYP_INT
  | .TYP_INT => .TYP_INT
  | .TYP_UINT => .TYP_INT
  | .TYP_LONG => .TYP_LONG
  | .TYP_ULONG => .TYP_LONG
  | t => t

/-- Modelled from the spec: `varTypeIsUnsigned` (vartype.h) is not part of src; the
unsigned integer types (§4.5 destSigned). -/
def varTypeIsUnsigned : var_types → Bool
  | .TYP_UBYTE => true
  | .TYP_USHORT => true
  | .TYP_UINT => true
  | .TYP_ULONG => true
  | _ => false

/-- Modelled from the spec: `varTypeIsSigned` (vartype.h) is not part of src; the
signed integer types. -/
def varTypeIsSigned : var_types → Bool
  | .TYP_BYTE => true
  | .TYP_SHORT => true
  | .TYP_INT => true
  | .TYP_LONG => true
  | _ => false

/-- Modelled from the spec: `varTypeIsSmall` (vartype.h) is not part of src; the
integer types narrower than 32 bits. -/
def varTypeIsSmall : var_types → Bool
  | .TYP_BYTE => true
  | .TYP_UBYTE => true
  | .TYP_SHORT => true
  | .TYP_USHORT => true
  | _ => false

/-- The size of `TYP_I_IMPL`, the native integer of the target. -/
def genTypeSize_I_IMPL (tgt : Target) : Nat := if tgt.TARGET_64BIT then 8 else 4

/-- The value of a C++ `int` expression: wrap to the 32-bit signed range. -/
def toInt32 (x : Int) : Int := (x + 2147483648) % 4294967296 - 2147483648

/-- The value of a C++ `unsigned` expression: wrap to the 32-bit unsigned range. -/
def toUInt32 (x : Int) : Int := x % 4294967296

/-- Source line 2308: `const int castNumBits = (castSize * 8) - (castUnsigned ? 0 : 1)`,
an `unsigned` expression converted to `int`. -/
def GenIntCastDesc_castNumBits (castSize : Nat) (castUnsigned : Bool) : Int :=
  toInt32 (toUInt32 (toUInt32 ((castSize : Int) * 8) - (if castUnsigned then 0 else 1)))

/-- Source line 2309: `m_checkSmallIntMax = (1 << castNumBits) - 1` in `int`
arithmetic.  (A shift count outside `0..31` is undefined in the source; here a
negative count counts as 0.) -/
def GenIntCastDesc_checkSmallIntMax (castNumBits : Int) : Int :=
  toInt32 (toInt32 (2 ^ castNumBits.toNat) - 1)

/-- Source line 2310:
`m_checkSmallIntMin = (castUnsigned || srcUnsigned) ? 0 : (-m_checkSmallIntMax - 1)`
in `int` arithmetic. -/
def GenIntCastDesc_checkSmallIntMin (castUnsigned srcUnsigned : Bool) (checkSmallIntMax : Int) :
    Int :=
  if castUnsigned || srcUnsigned then 0 else toInt32 (toInt32 (-checkSmallIntMax) - 1)

/-- The cast descriptor: what to check and how to extend.  A field that the source
leaves unassigned on a path holds 0 here. -/
structure GenIntCastDesc where
  m_checkKind : CheckKind
  m_checkSrcSize : Nat
  m_checkSmallIntMin : Int
  m_checkSmallIntMax : Int
  m_extendKind : ExtendKind
  m_extendSrcSize : Nat
  deriving DecidableEq

/-- Source lines 2300-2407 of the constructor `GenIntCastDesc::GenIntCastDesc`: the
check and the extension planned from the sizes and signedness, before the
operand's location is looked at. -/
def GenIntCastDesc.plan (tgt : Target) (cast : GenTreeCast) : GenIntCastDesc :=
  let srcType := genActualType cast.CastOp_TypeGet
  let srcUnsigned := cast.IsUnsigned
  let srcSize := genTypeSize srcType
  let castType := cast.gtCastType
  let castUnsigned := varTypeIsUnsigned castType
  let castSize := genTypeSize castType
  let dstType := genActualType cast.gtType
  let dstSize := genTypeSize dstType
  let overflow := cast.gtOverflow
  if castSize < 4 then -- Cast to small int type
    if overflow then
      let castNumBits := GenIntCastDesc_castNumBits castSize castUnsigned
      let checkSmallIntMax := GenIntCastDesc_checkSmallIntMax castNumBits
      { m_checkKind := .CHECK_SMALL_INT_RANGE, m_checkSrcSize := srcSize,
        m_checkSmallIntMax := checkSmallIntMax,
        m_checkSmallIntMin := GenIntCastDesc_checkSmallIntMin castUnsigned srcUnsigned checkSmallIntMax,
        m_extendKind := .COPY, m_extendSrcSize := dstSize }
    else
      -- Casting to a small type really means widening from that small type to INT/LONG.
      { m_checkKind := .CHECK_NONE, m_checkSrcSize := 0, m_checkSmallIntMax := 0,
        m_checkSmallIntMin := 0,
        m_extendKind := if castUnsigned then .ZERO_EXTEND_SMALL_INT else .SIGN_EXTEND_SMALL_INT,
        m_extendSrcSize := castSize }
  else if tgt.TARGET_64BIT && decide (castSize > srcSize) then -- (U)INT to (U)LONG widening cast
    if overflow && !srcUnsigned && castUnsigned then
      -- Widening from INT to ULONG, check if the value is positive
      { m_checkKind := .CHECK_POSITIVE, m_checkSrcSize := 4, m_checkSmallIntMax := 0,
        m_checkSmallIntMin := 0, m_extendKind := .ZERO_EXTEND_INT, m_extendSrcSize := 4 }
    else
      { m_checkKind := .CHECK_NONE, m_checkSrcSize := 0, m_checkSmallIntMax := 0,
        m_checkSmallIntMin := 0,
        m_extendKind := if srcUnsigned then .ZERO_EXTEND_INT else .SIGN_EXTEND_INT,
        m_extendSrcSize := 4 }
  else if tgt.TARGET_64BIT && decide (castSize < srcSize) then -- (U)LONG to (U)INT narrowing cast
    let checkKind : CheckKind :=
      if overflow then
        if castUnsigned then .CHECK_UINT_RANGE -- (U)LONG to UINT cast
        else if srcUnsigned then .CHECK_POSITIVE_INT_RANGE -- ULONG to INT cast
        else .CHECK_INT_RANGE -- LONG to INT cast
      else .CHECK_NONE
    { m_checkKind := checkKind, m_checkSrcSize := if overflow then 8 else 0,
      m_checkSmallIntMax := 0, m_checkSmallIntMin := 0,
      m_extendKind := if tgt.TARGET_LOONGARCH64_OR_RISCV64 then .SIGN_EXTEND_INT else .COPY,
      m_extendSrcSize := 4 }
  else -- Sign changing or same type cast
    if overflow && (srcUnsigned != castUnsigned) then
      { m_checkKind := .CHECK_POSITIVE, m_checkSrcSize := srcSize, m_checkSmallIntMax := 0,
        m_checkSmallIntMin := 0, m_extendKind := .COPY, m_extendSrcSize := srcSize }
    else
      { m_checkKind := .CHECK_NONE, m_checkSrcSize := 0, m_checkSmallIntMax := 0,
        m_checkSmallIntMin := 0, m_extendKind := .COPY, m_extendSrcSize := srcSize }

/-- Source lines 2409-2447 of the constructor: when the operand is used from memory
the extension is folded into the load.  `none` is `unreached()`. -/
def GenIntCastDesc.foldLoad (tgt : Target) (cast : GenTreeCast) (d : GenIntCastDesc) :
    Option GenIntCastDesc :=
  let srcLoadType := cast.CastOp_TypeGet
  let castType := cast.gtCastType
  match d.m_extendKind with
  | .ZERO_EXTEND_SMALL_INT => -- small type/int/long -> ubyte/ushort
    some { d with m_extendKind := .LOAD_ZERO_EXTEND_SMALL_INT,
                  m_extendSrcSize := min (genTypeSize srcLoadType) (genTypeSize castType) }
  | .SIGN_EXTEND_SMALL_INT => -- small type/int/long -> byte/short
    some { d with m_extendKind := .LOAD_SIGN_EXTEND_SMALL_INT,
                  m_extendSrcSize := min (genTypeSize srcLoadType) (genTypeSize castType) }
  | .ZERO_EXTEND_INT => -- ubyte/ushort/uint -> long.
    if tgt.TARGET_64BIT then
      some { d with m_extendKind :=
                      (if varTypeIsSmall srcLoadType then .LOAD_ZERO_EXTEND_SMALL_INT
                       else .LOAD_ZERO_EXTEND_INT),
                    m_extendSrcSize := genTypeSize srcLoadType }
    else none
  | .SIGN_EXTEND_INT => -- byte/short/int -> long.
    if tgt.TARGET_64BIT then
      some { d with m_extendKind :=
                      (if varTypeIsSmall srcLoadType then .LOAD_SIGN_EXTEND_SMALL_INT
                       else .LOAD_SIGN_EXTEND_INT),
                    m_extendSrcSize := genTypeSize srcLoadType }
    else none
  | .COPY => -- long -> long, small type/int/long -> int.
    some { d with m_extendKind := .LOAD_SOURCE, m_extendSrcSize := 0 }
  | _ => none

/-- Source lines 2280-2448, the constructor `CodeGen::GenIntCastDesc::GenIntCastDesc`.
`none` is `unreached()`. -/
def GenIntCastDesc.GenIntCastDesc (tgt : Target) (cast : GenTreeCast) : Option GenIntCastDesc :=
  let castIsLoad := !cast.CastOp_isUsedFromReg
  if castIsLoad then GenIntCastDesc.foldLoad tgt cast (GenIntCastDesc.plan tgt cast)
  else some (GenIntCastDesc.plan tgt cast)

/-- The debug assertions of the constructor (source lines 2294-2298, 2330, 2340,
2354, 2393, 2416, 2422, 2429, 2435). -/
def GenIntCastDesc.asserts (tgt : Target) (cast : GenTreeCast) : Bool :=
  let srcType := genActualType cast.CastOp_TypeGet
  let srcUnsigned := cast.IsUnsigned
  let srcSize := genTypeSize srcType
  let castType := cast.gtCastType
  let castUnsigned := varTypeIsUnsigned castType
  let castSize := genTypeSize castType
  let dstSize := genTypeSize (genActualType cast.gtType)
  let overflow := cast.gtOverflow
  let castIsLoad := !cast.CastOp_isUsedFromReg
  let srcLoadType := cast.CastOp_TypeGet
  let extendKind := (GenIntCastDesc.plan tgt cast).m_extendKind
  (castIsLoad == cast.CastOp_isUsedFromMemory) &&
  (srcSize == 4 || srcSize == genTypeSize_I_IMPL tgt) &&
  (dstSize == 4 || dstSize == genTypeSize_I_IMPL tgt) &&
  (dstSize == genTypeSize (genActualType castType)) &&
  (if castSize < 4 then true
   else if tgt.TARGET_64BIT && decide (castSize > srcSize) then
     (srcSize == 4 && castSize == 8) &&
     (!(overflow && !srcUnsigned && castUnsigned) ||
       (srcType == .TYP_INT && castType == .TYP_ULONG))
   else if tgt.TARGET_64BIT && decide (castSize < srcSize) then
     (srcSize == 8 && castSize == 4)
   else castSize == srcSize) &&
  (!castIsLoad ||
    (match extendKind with
     | .ZERO_EXTEND_SMALL_INT =>
       varTypeIsUnsigned srcLoadType || decide (genTypeSize srcLoadType ≥ genTypeSize castType)
     | .SIGN_EXTEND_SMALL_INT =>
       varTypeIsSigned srcLoadType || decide (genTypeSize srcLoadType ≥ genTypeSize castType)
     | .ZERO_EXTEND_INT => varTypeIsUnsigned srcLoadType || srcLoadType == .TYP_INT
     | .SIGN_EXTEND_INT => varTypeIsSigned srcLoadType || srcLoadType == .TYP_INT
     | _ => true))

/-- An `int`-to-`byte` cast (signed 8-bit destination) of an operand in a register;
`srcUnsigned` is the `GTF_UNSIGNED` flag and `ovf` the overflow flag. -/
def exCastToByte (srcUnsigned ovf : Bool) : GenTreeCast :=
  { CastOp_TypeGet := .TYP_INT, CastOp_isUsedFromReg := true, CastOp_isUsedFromMemory := false,
    IsUnsigned := srcUnsigned, gtCastType := .TYP_BYTE, gtType := .TYP_INT, gtOverflow := ovf }

/-- A cast between 32 and 64 bit integer types of an operand in a register. -/
def exCastWide (srcT castT : var_types) (srcUnsigned ovf : Bool) : GenTreeCast :=
  { CastOp_TypeGet := srcT, CastOp_isUsedFromReg := true, CastOp_isUsedFromMemory := false,
    IsUnsigned := srcUnsigned, gtCastType := castT, gtType := genActualType castT,
    gtOverflow := ovf }

/-- The 64-bit targets other than LoongArch64 and RISC-V64. -/
def exTarget64 : Target := { TARGET_64BIT := true, TARGET_LOONGARCH64_OR_RISCV64 := false }

/-! Consuming one register of a multi-register node -/

/-- The debug fields of a node that the consume-order check reads: its identity,
its operator and its use number `gtUseNum` (`-1` when the node is not numbered).
The flag `GTF_DEBUG_NODE_CG_CONSUMED` of the node is kept in the state. -/
structure DebugNode where
  gtTreeID : Nat
  gtOper : genTreeOps
  gtUseNum : Int
  deriving DecidableEq

/-- The state of the consume-order check: the nodes whose
`GTF_DEBUG_NODE_CG_CONSUMED` flag is set, and `lastConsumedNode` (`none` is
`nullptr`). -/
structure ConsumeCheck where
  consumed : Finset Nat
  lastConsumedNode : Option DebugNode
  deriving DecidableEq

/-- Source lines 1366-1394, `CodeGen::genCheckConsumeNode`.  `none` is a failing
assertion; the `verbose` printing has no effect on the state. -/
def genCheckConsumeNode (node : DebugNode) (s : ConsumeCheck) : Option ConsumeCheck :=
  let inOrder : Bool :=
    match s.lastConsumedNode with
    | none => true
    | some lastConsumedNode =>
      decide (node.gtUseNum = -1) || decide (node.gtUseNum > lastConsumedNode.gtUseNum)
  if !(decide (node.gtOper = .GT_CATCH_ARG) || decide (node.gtTreeID ∉ s.consumed)) then none
  else if !inOrder then none
  else some { consumed := insert node.gtTreeID s.consumed, lastConsumedNode := some node }

/-- A sequence of `genCheckConsumeNode` calls; `none` as soon as an assertion
fires. -/
def genCheckConsumeNode_seq : List DebugNode → ConsumeCheck → Option ConsumeCheck
  | [], s => some s
  | node :: rest, s =>
    match genCheckConsumeNode node s with
    | some s1 => genCheckConsumeNode_seq rest s1
    | none => none

/-! The end-of-block liveness assertion -/

/-- Source lines 578-606 of `CodeGen::genCodeForBBlist`: `foundMismatchedRegVar`,
the condition under which the assertion "Found mismatched live reg var(s) after
block" fails. -/
def genCodeForBBlist_foundMismatchedRegVar (c : Compiler) (block : BasicBlock) (s : CodeGen) :
    Bool :=
  let mismatchLiveVars := (block.bbLiveOut \ s.compCurLife) ∪ (s.compCurLife \ block.bbLiveOut)
  (VarSetOps_Iter mismatchLiveVars).foldl
    (fun foundMismatchedRegVar mismatchLiveVarIndex =>
      if (c.lvaGetDescByTrackedIndex mismatchLiveVarIndex).lvIsRegCandidate then true
      else foundMismatchedRegVar)
    false

/-! Register state at method entry -/

/-- Body of the loop at source lines 40-65 of `genInitializeRegisterState`.
`used` is the set of registers marked by `regSet.verifyRegUsed`. -/
def genInitializeRegisterState_step (c : Compiler) (fgFirstBB_bbLiveIn : VARSET_TP)
    (genIsValidIntReg : regNumber → Bool) (s : CodeGen) (used : regMaskTP) (varNum : Nat) :
    regMaskTP :=
  let varDsc := c.lvaGetDesc varNum
  -- Is this variable a parameter assigned to a register?
  if !varDsc.lvIsParam || !varDsc.lvRegister then used
  -- Is the argument live on entry to the method?
  else if varDsc.lvVarIndex ∉ fgFirstBB_bbLiveIn then used
  else if varDsc.addressExposed then used
  else
    -- Mark the register as holding the variable
    let reg := s.GetRegNum varNum
    if genIsValidIntReg reg then used ∪ genRegMask reg else used

/-- Source lines 29-66, `CodeGen::genInitializeRegisterState`.  `regSet.rsSpillBeg()`
resets the spill records; the loop marks the registers of the register
arguments.  `genIsValidIntReg` (target.h) is not part of src and is a parameter.
Returns the state and the set of registers marked by `regSet.verifyRegUsed`,
starting from `used`. -/
def genInitializeRegisterState (c : Compiler) (fgFirstBB_bbLiveIn : VARSET_TP)
    (genIsValidIntReg : regNumber → Bool) (s : CodeGen) (used : regMaskTP) :
    CodeGen × regMaskTP :=
  let s1 : CodeGen := { s with rsSpillDesc := [] }
  (s1, (List.range c.lvaCount).foldl
    (genInitializeRegisterState_step c fgFirstBB_bbLiveIn genIsValidIntReg s1) used)

/-! `dn-simdhash.h` -/

/-- Source lines 128-137 of `src/native/containers/dn-simdhash.h`,
`dn_simdhash_select_suffix`: extract the low 8 bits of the 32-bit hash and ensure
that the suffix is not 0.  `uint32_t` and `uint8_t` values are natural numbers
reduced modulo `2^32` and `2^8`. -/
def dn_simdhash_select_suffix (key_hash : Nat) : Nat :=
  let result := ((key_hash % 4294967296) &&& 0xFF) % 256
  if result ≠ 0 then result else 0xFF

/-! Block boundaries in `genCodeForBBlist`: label and terminal -/

/-- Modelled from the spec: the enumeration `BBKinds` (block.h) is not part of src.
Its members are the block kinds the terminal dispatch lists, and the two kinds it
does not list (`BBJ_LEAVE`, which only exists before the exception-handling
blocks are finalised, and `BBJ_CALLFINALLYRET`, the tail of a call-finally
pair). -/
inductive BBKinds
  | BBJ_EHFINALLYRET
  | BBJ_EHFAULTRET
  | BBJ_EHFILTERRET
  | BBJ_EHCATCHRET
  | BBJ_THROW
  | BBJ_RETURN
  | BBJ_ALWAYS
  | BBJ_LEAVE
  | BBJ_CALLFINALLY
  | BBJ_CALLFINALLYRET
  | BBJ_COND
  | BBJ_SWITCH
  deriving DecidableEq

/-- The conditionally compiled parts of the block loop and the two method-wide
answers it asks for: `TARGET_AMD64`, `TARGET_XARCH`, `FEATURE_LOOP_ALIGN`,
`FEATURE_EH_WINDOWS_X86`, `compiler->UsesFunclets()` and `isFramePointerUsed()`. -/
structure BlockLoopConfig where
  TARGET_AMD64 : Bool
  TARGET_XARCH : Bool
  FEATURE_LOOP_ALIGN : Bool
  FEATURE_EH_WINDOWS_X86 : Bool
  UsesFunclets : Bool
  isFramePointerUsed : Bool
  deriving DecidableEq

/-- What the block loop reads of the position of a block in the method: its kind,
its neighbours, its weight and its jump target.  Questions about the previous,
the next and the target block are the answers of the out-of-scope flow graph
(`Prev()`, `Next()`, `GetTarget()`, `sameEHRegion`, `CanRemoveJumpToNext`, ...);
weights are exact numbers, compared only for equality. -/
structure BlockLayout where
  bbKind : BBKinds
  IsFirst : Bool
  IsLast : Bool
  IsFirstColdBlock : Bool
  IsLastHotBlock : Bool
  isBBCallFinallyPairTail : Bool
  bbWeight : Nat
  Prev_bbNum : Nat
  Prev_bbKind : BBKinds
  Prev_bbWeight : Nat
  sameEHRegion_Next : Bool
  fgIsThrowHlpBlk_Next : Bool
  bbIsFuncletBeg_Next : Bool
  lastNode_IsCall : Bool
  lastNode_IsNoReturn : Bool
  CanRemoveJumpToNext : Bool
  Target_bbNum : Nat
  fgInDifferentRegions_Target : Bool
  Target_isLoopAlign : Bool
  TrueTarget_bbNum : Nat
  TrueTarget_isLoopAlign : Bool
  FalseTarget_bbNum : Nat
  FalseTarget_isLoopAlign : Bool
  deriving DecidableEq

/-- Modelled from the spec: the instruction group started by
`emitter::emitAddLabel` (emit.h) is not part of src.  A label carries the GC root
snapshot handed to it (§4.3 `Snapshot()`: "(regRefMask, regByrefMask, stackVarSet)
for attachment to a label") and the previous block. -/
structure insGroup where
  igGCvars : VARSET_TP
  igGCrefRegs : regMaskTP
  igByrefRegs : regMaskTP
  igPrevBB : Option Nat
  deriving DecidableEq

/-- The part of the emitter that the label decision touches: the labels added so
far (a cookie is the position of its label) and the cookie of the first cold
instruction group. -/
structure emitter where
  labels : List insGroup
  firstColdIGCookie : Option Nat
  deriving DecidableEq

/-- Modelled from the spec: `emitter::emitAddLabel` (emit.cpp) is not part of src.
It starts a new instruction group whose label carries the given snapshot and
returns its cookie, which is never null. -/
def emitAddLabel (gcVars : VARSET_TP) (gcrefRegs byrefRegs : regMaskTP) (prevBlock : Option Nat)
    (e : emitter) : Nat × emitter :=
  (e.labels.length,
    { e with labels := e.labels ++
        [{ igGCvars := gcVars, igGCrefRegs := gcrefRegs, igByrefRegs := byrefRegs,
           igPrevBB := prevBlock }] })

/-- Source lines 300-339 of `CodeGen::genCodeForBBlist`: does the block need a
label?  `none` is the failing
`noway_assert(!block->isBBCallFinallyPairTail())`. -/
def genCodeForBBlist_needLabel (cfg : BlockLoopConfig) (block : BasicBlock) (lay : BlockLayout)
    (emitEndsWithAlignInstr : Bool) : Option Bool :=
  -- If this block is a jump target or it requires a label then set 'needLabel' to true,
  let needLabel0 := block.BBF_HAS_LABEL
  -- We should never split call/finally pairs between hot/cold sections
  if lay.IsFirstColdBlock && lay.isBBCallFinallyPairTail then none
  else
    let needLabel1 := if lay.IsFirstColdBlock then true else needLabel0
    let needLabel2 :=
      if !lay.IsFirst && decide (lay.Prev_bbKind = .BBJ_COND) &&
          decide (lay.bbWeight ≠ lay.Prev_bbWeight) then true
      else needLabel1
    let needLabel3 :=
      if cfg.FEATURE_LOOP_ALIGN && emitEndsWithAlignInstr then true else needLabel2
    some needLabel3

/-- Source lines 290-353 of `CodeGen::genCodeForBBlist`: start of a new code output
block.  Returns `bbEmitCookie` of the block (`none` is `nullptr`) and the
emitter; the result `none` is a failing `noway_assert`. -/
def genCodeForBBlist_blockLabel (cfg : BlockLoopConfig) (block : BasicBlock) (lay : BlockLayout)
    (emitEndsWithAlignInstr : Bool) (s : CodeGen) (e : emitter) :
    Option (Option Nat × emitter) :=
  match genCodeForBBlist_needLabel cfg block lay emitEndsWithAlignInstr with
  | none => none
  | some needLabel =>
    let bbEmitCookie0 : Option Nat := none
    let r : Option Nat × emitter :=
      if needLabel then
        -- Mark a label and update the current set of live GC refs
        (some (emitAddLabel s.gcVarPtrSetCur s.gcRegGCrefSetCur s.gcRegByrefSetCur
                (if lay.IsFirst then none else some lay.Prev_bbNum) e).1,
          (emitAddLabel s.gcVarPtrSetCur s.gcRegGCrefSetCur s.gcRegByrefSetCur
                (if lay.IsFirst then none else some lay.Prev_bbNum) e).2)
      else (bbEmitCookie0, e)
    if lay.IsFirstColdBlock then
      -- We require the block that starts the Cold section to have a label
      match r.1 with
      | none => none
      | some cookie => some (r.1, { r.2 with firstColdIGCookie := some cookie })
    else some r

/-- The calls the block end hands to the out-of-scope encoder. -/
inductive blockEndInstr
  | genExitCode
  | INS_BREAKPOINT
  | genCallFinally
  | genEHCatchRet
  | genReserveFuncletEpilog
  | genEHFinallyOrFilterRet
  | INS_nop
  | inst_JMP (target : Nat) (isRemovableJmpCandidate : Bool)
  deriving DecidableEq

/-- Source lines 612-663 of `CodeGen::genCodeForBBlist`: on AMD64, is a NOP needed
after a call that ends the block (`emitNopBeforeEHRegion`)?  `none` is the
failing `noway_assert(!"Unexpected bbKind")` of this switch. -/
def genCodeForBBlist_emitNopBeforeEHRegion (cfg : BlockLoopConfig) (lay : BlockLayout)
    (emitIsLastInsCall : Bool) : Option Bool :=
  if cfg.TARGET_AMD64 then
    if emitIsLastInsCall then
      if lay.IsLast || !lay.sameEHRegion_Next then
        match lay.bbKind with
        | .BBJ_ALWAYS => some true
        | .BBJ_THROW => some false
        | .BBJ_CALLFINALLY => some false
        | .BBJ_EHCATCHRET => some false
        | .BBJ_RETURN => some false
        | .BBJ_EHFINALLYRET => some false
        | .BBJ_EHFAULTRET => some false
        | .BBJ_EHFILTERRET => some false
        | _ => none -- BBJ_COND, BBJ_SWITCH: these can't have a call as the last instruction!
      else some false
    else some false
  else some false

/-- Source lines 666-694, the lambda `SetLoopAlignBackEdge(block, target)`: whether
the next block gets marked `BBF_HAS_LABEL`.  `emitSetLoopBackEdge` is the answer
of the emitter for the target. -/
def SetLoopAlignBackEdge (lay : BlockLayout) (target_isLoopAlign emitSetLoopBackEdge : Bool) :
    Bool :=
  target_isLoopAlign && emitSetLoopBackEdge && !lay.IsLast

/-- The result of the terminal dispatch: the calls handed to the encoder,
`removedJmp`, and whether the next block was marked `BBF_HAS_LABEL`. -/
structure BlockEnd where
  emitted : List blockEndInstr
  removedJmp : Bool
  Next_BBF_HAS_LABEL : Bool
  deriving DecidableEq

/-- Source lines 697-820 of `CodeGen::genCodeForBBlist`: do we need to generate a
jump or return?  `emitSetLoopBackEdge` is the answer of the emitter for a target
block.  `none` is the failing `noway_assert(!"Unexpected bbKind")`. -/
def genCodeForBBlist_terminal (cfg : BlockLoopConfig) (lay : BlockLayout)
    (emitNopBeforeEHRegion : Bool) (emitSetLoopBackEdge : Nat → Bool) : Option BlockEnd :=
  match lay.bbKind with
  | .BBJ_RETURN =>
    some { emitted := [.genExitCode], removedJmp := false, Next_BBF_HAS_LABEL := false }
  | .BBJ_THROW =>
    if lay.IsLast || !lay.sameEHRegion_Next ||
        (!cfg.isFramePointerUsed && lay.fgIsThrowHlpBlk_Next) ||
        lay.bbIsFuncletBeg_Next || lay.IsLastHotBlock then
      some { emitted := [.INS_BREAKPOINT], removedJmp := false, Next_BBF_HAS_LABEL := false }
    -- Do likewise for blocks that end in DOES_NOT_RETURN calls
    else if lay.lastNode_IsCall && lay.lastNode_IsNoReturn then
      some { emitted := [.INS_BREAKPOINT], removedJmp := false, Next_BBF_HAS_LABEL := false }
    else some { emitted := [], removedJmp := false, Next_BBF_HAS_LABEL := false }
  | .BBJ_CALLFINALLY =>
    some { emitted := [.genCallFinally], removedJmp := false, Next_BBF_HAS_LABEL := false }
  | .BBJ_EHCATCHRET =>
    some { emitted := [.genEHCatchRet] ++
             (if cfg.UsesFunclets then [.genReserveFuncletEpilog]
              else if cfg.FEATURE_EH_WINDOWS_X86 then [.genEHFinallyOrFilterRet] else []),
           removedJmp := false, Next_BBF_HAS_LABEL := false }
  | .BBJ_EHFINALLYRET =>
    some { emitted :=
             (if cfg.UsesFunclets then [.genReserveFuncletEpilog]
              else if cfg.FEATURE_EH_WINDOWS_X86 then [.genEHFinallyOrFilterRet] else []),
           removedJmp := false, Next_BBF_HAS_LABEL := false }
  | .BBJ_EHFAULTRET =>
    some { emitted :=
             (if cfg.UsesFunclets then [.genReserveFuncletEpilog]
              else if cfg.FEATURE_EH_WINDOWS_X86 then [.genEHFinallyOrFilterRet] else []),
           removedJmp := false, Next_BBF_HAS_LABEL := false }
  | .BBJ_EHFILTERRET =>
    some { emitted :=
             (if cfg.UsesFunclets then [.genReserveFuncletEpilog]
              else if cfg.FEATURE_EH_WINDOWS_X86 then [.genEHFinallyOrFilterRet] else []),
           removedJmp := false, Next_BBF_HAS_LABEL := false }
  | .BBJ_SWITCH => some { emitted := [], removedJmp := false, Next_BBF_HAS_LABEL := false }
  | .BBJ_ALWAYS =>
    -- If this block jumps to the next one, we might be able to skip emitting the jump
    if lay.CanRemoveJumpToNext then
      some { emitted := if cfg.TARGET_AMD64 && emitNopBeforeEHRegion then [.INS_nop] else [],
             removedJmp := true, Next_BBF_HAS_LABEL := false }
    else
      -- Do not remove a jump between hot and cold regions.
      let isRemovableJmpCandidate :=
        if cfg.TARGET_XARCH then !lay.fgInDifferentRegions_Target else false
      some { emitted := [.inst_JMP lay.Target_bbNum isRemovableJmpCandidate],
             removedJmp := false,
             Next_BBF_HAS_LABEL :=
               cfg.FEATURE_LOOP_ALIGN &&
                 SetLoopAlignBackEdge lay lay.Target_isLoopAlign
                   (emitSetLoopBackEdge lay.Target_bbNum) }
  | .BBJ_COND =>
    some { emitted := [], removedJmp := false,
           Next_BBF_HAS_LABEL :=
             cfg.FEATURE_LOOP_ALIGN &&
               (SetLoopAlignBackEdge lay lay.TrueTarget_isLoopAlign
                  (emitSetLoopBackEdge lay.TrueTarget_bbNum) ||
                SetLoopAlignBackEdge lay lay.FalseTarget_isLoopAlign
                  (emitSetLoopBackEdge lay.FalseTarget_bbNum)) }
  | _ => none

/-- Source lines 612-820 of `CodeGen::genCodeForBBlist`: the NOP decision followed by
the terminal dispatch. -/
def genCodeForBBlist_blockEnd (cfg : BlockLoopConfig) (lay : BlockLayout)
    (emitIsLastInsCall : Bool) (emitSetLoopBackEdge : Nat → Bool) : Option BlockEnd :=
  match genCodeForBBlist_emitNopBeforeEHRegion cfg lay emitIsLastInsCall with
  | none => none
  | some emitNopBeforeEHRegion =>
    genCodeForBBlist_terminal cfg lay emitNopBeforeEHRegion emitSetLoopBackEdge

/-- A cast of an operand used from memory: `loadT` is the type of the load. -/
def exCastMem (loadT castT : var_types) (srcUnsigned ovf : Bool) : GenTreeCast :=
  { CastOp_TypeGet := loadT, CastOp_isUsedFromReg := false, CastOp_isUsedFromMemory := true,
    IsUnsigned := srcUnsigned, gtCastType := castT, gtType := genActualType castT,
    gtOverflow := ovf }

/-- AMD64 with funclets and loop alignment. -/
def exConfigAmd64 : BlockLoopConfig :=
  { TARGET_AMD64 := true, TARGET_XARCH := true, FEATURE_LOOP_ALIGN := true,
    FEATURE_EH_WINDOWS_X86 := false, UsesFunclets := true, isFramePointerUsed := true }

/-- A block of the given kind in the middle of the hot section: not first, not
last, same EH region as the next block, previous block `BBJ_ALWAYS` of the same
weight, jump target block 9. -/
def exLayout (kind : BBKinds) (canRemoveJump : Bool) : BlockLayout :=
  { bbKind := kind, IsFirst := false, IsLast := false, IsFirstColdBlock := false,
    IsLastHotBlock := false, isBBCallFinallyPairTail := false, bbWeight := 100,
    Prev_bbNum := 1, Prev_bbKind := .BBJ_ALWAYS, Prev_bbWeight := 100,
    sameEHRegion_Next := true, fgIsThrowHlpBlk_Next := false, bbIsFuncletBeg_Next := false,
    lastNode_IsCall := false, lastNode_IsNoReturn := false,
    CanRemoveJumpToNext := canRemoveJump, Target_bbNum := 9,
    fgInDifferentRegions_Target := false, Target_isLoopAlign := false,
    TrueTarget_bbNum := 9, TrueTarget_isLoopAlign := false,
    FalseTarget_bbNum := 3, FalseTarget_isLoopAlign := false }

/-- An emitter without labels. -/
def exEmitter : emitter := { labels := [], firstColdIGCookie := none }

/-- The extension kinds that fold the extension into a load (`LOAD_*`). -/
def ExtendKind.IsLoadKind : ExtendKind → Bool
  | .LOAD_ZERO_EXTEND_SMALL_INT => true
  | .LOAD_SIGN_EXTEND_SMALL_INT => true
  | .LOAD_ZERO_EXTEND_INT => true
  | .LOAD_SIGN_EXTEND_INT => true
  | .LOAD_SOURCE => true
  | _ => false

/-- A target whose integer registers are numbered 0..15; register 16 and up are
floating-point registers. -/
def exIsValidIntReg : regNumber → Bool
  | .REG n => decide (n < 16)
  | _ => false

/-- A method whose local 0 is a register parameter of type `t` (tracked index 0)
and whose other locals are ordinary `TYP_INT` locals. -/
def exParamTable (t : var_types) (n : Nat) : LclVarDsc :=
  if n = 0 then { exLcl t 0 false with lvIsParam := true, lvRegister := true }
  else exLcl .TYP_INT n false

/-! Preservation of disjointness -/

theorem disjointGC_gcMarkRegSetGCref (m : regMaskTP) (s : CodeGen) (h : DisjointGC s) :
    DisjointGC (gcMarkRegSetGCref m s) := by
  unfold DisjointGC gcMarkRegSetGCref at *
  simp only [Finset.disjoint_left] at *
  intro a ha
  simp only [Finset.mem_union, Finset.mem_sdiff] at *
  rintro ⟨hb, hm⟩
  rcases ha with ha | ha
  · exact h ha hb
  · exact hm ha

theorem disjointGC_gcMarkRegSetByref (m : regMaskTP) (s : CodeGen) (h : DisjointGC s) :
    DisjointGC (gcMarkRegSetByref m s) := by
  unfold DisjointGC gcMarkRegSetByref at *
  simp only [Finset.disjoint_left] at *
  intro a ha
  simp only [Finset.mem_union, Finset.mem_sdiff] at *
  rintro (hb | hb)
  · exact h ha.1 hb
  · exact ha.2 hb

theorem disjointGC_gcMarkRegSetNpt (m : regMaskTP) (s : CodeGen) (h : DisjointGC s) :
    DisjointGC (gcMarkRegSetNpt m s) := by
  unfold DisjointGC gcMarkRegSetNpt at *
  simp only [Finset.disjoint_left] at *
  intro a ha
  simp only [Finset.mem_sdiff] at *
  rintro ⟨hb, _⟩
  exact h ha.1 hb

theorem disjointGC_gcMarkRegPtrVal (reg : regNumber) (t : var_types) (s : CodeGen)
    (h : DisjointGC s) : DisjointGC (gcMarkRegPtrVal reg t s) := by
  unfold gcMarkRegPtrVal
  split
  · exact disjointGC_gcMarkRegSetGCref _ _ h
  · exact disjointGC_gcMarkRegSetByref _ _ h
  · exact disjointGC_gcMarkRegSetNpt _ _ h

/-- Disjointness only depends on the two GC register sets. -/
theorem disjointGC_congr {s t : CodeGen} (h1 : t.gcRegGCrefSetCur = s.gcRegGCrefSetCur)
    (h2 : t.gcRegByrefSetCur = s.gcRegByrefSetCur) (h : DisjointGC s) : DisjointGC t := by
  unfold DisjointGC at *
  rw [h1, h2]; exact h

/-- A property kept by every step of a left fold is kept by the fold. -/
theorem foldl_preserves {α β : Type} (P : α → Prop) (f : α → β → α)
    (hf : ∀ a b, P a → P (f a b)) (l : List β) (a : α) (ha : P a) : P (l.foldl f a) := by
  induction l generalizing a with
  | nil => exact ha
  | cons x xs ih => exact ih (f a x) (hf a x ha)

theorem disjointGC_genUpdateRegLife (v : Nat) (b d : Bool) (s : CodeGen) (h : DisjointGC s) :
    DisjointGC (genUpdateRegLife v b d s) := by
  unfold genUpdateRegLife; split <;> exact h

theorem disjointGC_genSpillVar (c : Compiler) (tree : GenTree) (s : CodeGen) (h : DisjointGC s) :
    DisjointGC (genSpillVar c tree s).2 := by
  unfold genSpillVar
  simp only []
  have key : ∀ t : CodeGen, DisjointGC t →
      DisjointGC (gcMarkRegSetNpt ((genUpdateRegLife tree.gtLclNum false true t).lvRegMask tree.gtLclNum)
        (genUpdateRegLife tree.gtLclNum false true t)) :=
    fun t ht => disjointGC_gcMarkRegSetNpt _ _ (disjointGC_genUpdateRegLife _ _ _ _ ht)
  split_ifs <;> first | exact h | exact key _ h

theorem disjointGC_genUnspillLocal (c : Compiler) (varNum : Nat) (type : var_types)
    (regNum : regNumber) (reSpill isLastUse : Bool) (s : CodeGen) (h : DisjointGC s) :
    DisjointGC (genUnspillLocal c varNum type regNum reSpill isLastUse s) := by
  unfold genUnspillLocal
  apply disjointGC_gcMarkRegPtrVal
  split_ifs <;> exact h

theorem disjointGC_tmpGetTemp (t : var_types) (s : CodeGen) (h : DisjointGC s) :
    DisjointGC (tmpGetTemp t s).2 := by
  unfold tmpGetTemp; split <;> exact h

theorem disjointGC_rsUnspillInPlace (tree : GenTree) (i : Nat) (s : CodeGen) (h : DisjointGC s) :
    DisjointGC (rsUnspillInPlace tree i s).2 := by
  unfold rsUnspillInPlace; split <;> exact h

theorem disjointGC_rsSpillTree (c : Compiler) (reg : regNumber) (tree : GenTree) (i : Nat)
    (s : CodeGen) (h : DisjointGC s) : DisjointGC (rsSpillTree c reg tree i s).2 :=
  disjointGC_tmpGetTemp _ s h

theorem disjointGC_inst_Mov (d r : regNumber) (b : Bool) (s : CodeGen) (h : DisjointGC s) :
    DisjointGC (inst_Mov d r b s) := by
  unfold inst_Mov; split <;> exact h

theorem disjointGC_genSpillLocal (c : Compiler) (v : Nat) (t : var_types) (n : GenTree)
    (r : regNumber) (s : CodeGen) (h : DisjointGC s) : DisjointGC (genSpillLocal c v t n r s) := by
  unfold genSpillLocal; split <;> exact h

theorem disjointGC_genUnspillRegIfNeededIdx (c : Compiler) (tree : GenTree) (i : Nat)
    (s : CodeGen) (h : DisjointGC s) : DisjointGC (genUnspillRegIfNeededIdx c tree i s) := by
  unfold genUnspillRegIfNeededIdx
  simp only []
  split
  · exact h
  · split
    · exact h
    · split
      · exact disjointGC_genUnspillLocal _ _ _ _ _ _ _ h
      · exact disjointGC_gcMarkRegPtrVal _ _ _ (disjointGC_rsUnspillInPlace _ _ _ h)

theorem disjointGC_genUnspillRegIfNeeded_field (c : Compiler) (u : GenTree) (s : CodeGen) (i : Nat)
    (h : DisjointGC s) : DisjointGC (genUnspillRegIfNeeded_field c u s i) := by
  unfold genUnspillRegIfNeeded_field
  simp only []
  split
  · exact disjointGC_genUnspillLocal _ _ _ _ _ _ _ h
  · exact h

theorem disjointGC_genUnspillRegIfNeeded (c : Compiler) (tree : GenTree) (s : CodeGen)
    (h : DisjointGC s) : DisjointGC (genUnspillRegIfNeeded c tree s).2 := by
  unfold genUnspillRegIfNeeded
  simp only []
  split
  · split
    · exact disjointGC_genUnspillLocal _ _ _ _ _ false _ h
    · split
      · exact foldl_preserves DisjointGC _
          (fun a b ha => disjointGC_genUnspillRegIfNeeded_field _ _ _ _ ha) _ _ h
      · split
        · exact foldl_preserves DisjointGC _
            (fun a b ha => disjointGC_genUnspillRegIfNeededIdx _ _ _ _ ha) _ _ h
        · exact disjointGC_gcMarkRegPtrVal _ _ _ (disjointGC_rsUnspillInPlace _ _ _ h)
  · exact h
theorem sameGC_refl (s : CodeGen) : SameGC s s := ⟨rfl, rfl⟩

theorem sameGC_trans {a b c : CodeGen} (h1 : SameGC a b) (h2 : SameGC b c) : SameGC a c :=
  ⟨h1.1.trans h2.1, h1.2.trans h2.2⟩

theorem SameGC.disjoint {t s : CodeGen} (h : SameGC t s) (hs : DisjointGC s) : DisjointGC t :=
  disjointGC_congr h.1 h.2 hs

theorem sameGC_genUpdateLife_var (c : Compiler) (v : Nat) (b d n : Bool) (r : regNumber)
    (s : CodeGen) : SameGC (genUpdateLife_var c v b d n r s) s := by
  unfold genUpdateLife_var genUpdateRegLife
  simp only []
  split_ifs <;> exact ⟨rfl, rfl⟩

theorem sameGC_genUpdateLife_field (c : Compiler) (tree : GenTree) (s : CodeGen) (i : Nat) :
    SameGC (genUpdateLife_field c tree s i) s := by
  unfold genUpdateLife_field
  simp only []
  split
  · exact sameGC_genUpdateLife_var _ _ _ _ _ _ _
  · exact ⟨rfl, rfl⟩

theorem sameGC_foldl {β : Type} (f : CodeGen → β → CodeGen) (hf : ∀ a b, SameGC (f a b) a)
    (l : List β) (s : CodeGen) : SameGC (l.foldl f s) s :=
  foldl_preserves (fun t => SameGC t s) f (fun a b ha => sameGC_trans (hf a b) ha) l s (sameGC_refl s)

theorem disjointGC_genUpdateLife (c : Compiler) (tree : GenTree) (s : CodeGen)
    (h : DisjointGC s) : DisjointGC (genUpdateLife c tree s).2 := by
  unfold genUpdateLife
  simp only []
  split
  · split
    · exact h
    · split
      · apply disjointGC_genSpillVar
        split
        · exact (sameGC_genUpdateLife_var _ _ _ _ _ _ _).disjoint h
        · exact h
      · split
        · exact (sameGC_genUpdateLife_var _ _ _ _ _ _ _).disjoint h
        · exact h
  · split
    · exact (sameGC_foldl _ (sameGC_genUpdateLife_field c tree) _ _).disjoint h
    · exact h

theorem disjointGC_genConsumeReg_clearField (c : Compiler) (tree : GenTree) (s : CodeGen) (i : Nat)
    (h : DisjointGC s) : DisjointGC (genConsumeReg_clearField c tree s i) := by
  unfold genConsumeReg_clearField
  simp only []
  split
  · exact disjointGC_gcMarkRegSetNpt _ _ h
  · split
    · exact disjointGC_gcMarkRegSetNpt _ _ h
    · exact h

theorem disjointGC_genConsumeReg_clear (c : Compiler) (tree : GenTree) (s : CodeGen)
    (h : DisjointGC s) : DisjointGC (genConsumeReg_clear c tree s) := by
  unfold genConsumeReg_clear
  split
  · split
    · exact disjointGC_gcMarkRegSetNpt _ _ h
    · split
      · exact disjointGC_gcMarkRegSetNpt _ _ h
      · exact h
  · split
    · exact foldl_preserves DisjointGC _
        (fun a b ha => disjointGC_genConsumeReg_clearField _ _ _ _ ha) _ _ h
    · exact disjointGC_gcMarkRegSetNpt _ _ h

theorem disjointGC_genConsumeReg_copyLcl (c : Compiler) (tree : GenTree) (s : CodeGen)
    (h : DisjointGC s) : DisjointGC (genConsumeReg_copyLcl c tree s) := by
  unfold genConsumeReg_copyLcl
  split
  · split
    · exact disjointGC_inst_Mov _ _ _ _ h
    · exact h
  · exact h

theorem disjointGC_genConsumeReg (c : Compiler) (genRegCopy : GenTree → CodeGen → CodeGen)
    (hcopy : ∀ t s, DisjointGC s → DisjointGC (genRegCopy t s))
    (tree : GenTree) (s : CodeGen) (h : DisjointGC s) :
    DisjointGC (genConsumeReg c genRegCopy tree s).2.2 := by
  unfold genConsumeReg
  simp only []
  apply disjointGC_genConsumeReg_clear
  apply disjointGC_genUpdateLife
  apply disjointGC_genUnspillRegIfNeeded
  apply disjointGC_genConsumeReg_copyLcl
  split
  · exact hcopy _ _ h
  · exact h
theorem disjointGC_genProduceReg_mark (c : Compiler) (tree : GenTree) (s s2 : CodeGen)
    (h : DisjointGC s) (hr : genProduceReg_mark c tree s = some s2) : DisjointGC s2 := by
  unfold genProduceReg_mark at hr
  split at hr
  · split at hr
    · split at hr
      · cases hr
        exact foldl_preserves DisjointGC _
          (fun a b ha => disjointGC_gcMarkRegPtrVal _ _ _ ha) _ _ h
      · split at hr
        · split at hr
          · cases hr
          · cases hr
            apply foldl_preserves DisjointGC _ _ _ _ h
            intro a b ha
            unfold genProduceReg_markCopyReg
            simp only []
            split
            · exact disjointGC_gcMarkRegPtrVal _ _ _ ha
            · exact ha
        · split at hr
          · cases hr
            apply foldl_preserves DisjointGC _ _ _ _ h
            intro a b ha
            unfold genProduceReg_markField
            simp only []
            split
            · split
              · exact disjointGC_gcMarkRegPtrVal _ _ _ ha
              · exact ha
            · exact ha
          · cases hr
            exact disjointGC_gcMarkRegPtrVal _ _ _ h
    · cases hr; exact h
  · cases hr; exact h

theorem disjointGC_genProduceReg_tail (c : Compiler) (tree : GenTree) (s : CodeGen)
    (r : GenTree × CodeGen) (h : DisjointGC s) (hr : genProduceReg_tail c tree s = some r) :
    DisjointGC r.2 := by
  unfold genProduceReg_tail at hr
  rw [Option.map_eq_some'] at hr
  obtain ⟨s2, hs2, rfl⟩ := hr
  exact disjointGC_genProduceReg_mark _ _ _ _ (disjointGC_genUpdateLife _ _ _ h) hs2

theorem disjointGC_genProduceReg_spillReg (c : Compiler) (acc : GenTree × CodeGen) (i : Nat)
    (h : DisjointGC acc.2) : DisjointGC (genProduceReg_spillReg c acc i).2 := by
  unfold genProduceReg_spillReg
  split
  · exact disjointGC_gcMarkRegSetNpt _ _ (disjointGC_rsSpillTree _ _ _ _ _ h)
  · exact h

theorem disjointGC_genProduceReg_spillTemp (c : Compiler) (tree : GenTree) (s : CodeGen)
    (h : DisjointGC s) : DisjointGC (genProduceReg_spillTemp c tree s).2 := by
  unfold genProduceReg_spillTemp
  split
  · exact foldl_preserves (fun a : GenTree × CodeGen => DisjointGC a.2) _
      (fun a b ha => disjointGC_genProduceReg_spillReg c a b ha) _ _ h
  · exact disjointGC_gcMarkRegSetNpt _ _ (disjointGC_rsSpillTree _ _ _ _ _ h)

theorem disjointGC_genProduceReg (c : Compiler) (tree : GenTree) (s : CodeGen)
    (r : GenTree × CodeGen) (h : DisjointGC s) (hr : genProduceReg c tree s = some r) :
    DisjointGC r.2 := by
  unfold genProduceReg at hr
  split at hr
  · split at hr
    · cases hr
    · split at hr
      · exact disjointGC_genProduceReg_tail _ _ _ _ (disjointGC_genSpillLocal _ _ _ _ _ _ h) hr
      · split at hr
        · refine disjointGC_genProduceReg_tail _ _ _ _ ?_ hr
          apply foldl_preserves DisjointGC _ _ _ _ h
          intro a b ha
          unfold genProduceReg_spillField
          split
          · exact disjointGC_genSpillLocal _ _ _ _ _ _ ha
          · exact ha
        · cases hr
          exact disjointGC_genProduceReg_spillTemp _ _ _ h
  · exact disjointGC_genProduceReg_tail _ _ _ _ h hr

theorem disjointGC_genTransferRegGCState (dst src : regNumber) (s : CodeGen) (h : DisjointGC s) :
    DisjointGC (genTransferRegGCState dst src s) := by
  unfold genTransferRegGCState
  simp only []
  split
  · exact disjointGC_gcMarkRegSetGCref _ _ h
  · split
    · exact disjointGC_gcMarkRegSetByref _ _ h
    · exact disjointGC_gcMarkRegSetNpt _ _ h

theorem sameGC_genCodeForBBlist_seedStep (c : Compiler) (a : SeedState) (i : Nat) :
    SameGC (genCodeForBBlist_seedStep c a i).cg a.cg := by
  unfold genCodeForBBlist_seedStep
  simp only []
  split_ifs <;> exact ⟨rfl, rfl⟩

theorem sameGC_genCodeForBBlist_seedLoop (c : Compiler) (block : BasicBlock) (s : CodeGen) :
    SameGC (genCodeForBBlist_seedLoop c block s).cg s := by
  unfold genCodeForBBlist_seedLoop
  exact foldl_preserves (fun t : SeedState => SameGC t.cg s) _
    (fun x i hx => sameGC_trans (sameGC_genCodeForBBlist_seedStep c x i) hx) _ _ (sameGC_refl _)

theorem disjointGC_genUpdateLifeSet_dead (c : Compiler) (t : CodeGen) (i : Nat)
    (ht : DisjointGC t) : DisjointGC (genUpdateLifeSet_dead c t i) := by
  unfold genUpdateLifeSet_dead
  simp only []
  have h1 : DisjointGC (if varTypeIsGC (c.lvaGetDesc (c.lvaTrackedToVarNum i)).lvType = true then
      gcMarkRegSetNpt (t.lvRegMask (c.lvaTrackedToVarNum i)) t else t) := by
    split
    · exact disjointGC_gcMarkRegSetNpt _ _ ht
    · exact ht
  split
  · split
    · exact disjointGC_genUpdateRegLife _ _ _ _ h1
    · exact ht
  · split
    · exact disjointGC_genUpdateRegLife _ _ _ _ h1
    · exact ht

theorem disjointGC_genUpdateLifeSet_born (c : Compiler) (t : CodeGen) (i : Nat)
    (ht : DisjointGC t) : DisjointGC (genUpdateLifeSet_born c t i) := by
  unfold genUpdateLifeSet_born
  simp only []
  split
  · have h1 : DisjointGC (genUpdateRegLife (c.lvaTrackedToVarNum i) true false
        (if (!(c.lvaGetDesc (c.lvaTrackedToVarNum i)).IsAlwaysAliveInMemory) = true then
          { t with gcVarPtrSetCur := t.gcVarPtrSetCur.erase i } else t)) := by
      apply disjointGC_genUpdateRegLife
      split <;> exact ht
    split
    · exact disjointGC_gcMarkRegSetGCref _ _ h1
    · exact disjointGC_gcMarkRegSetByref _ _ h1
    · exact h1
  · split <;> exact ht

theorem disjointGC_genUpdateLifeSet (c : Compiler) (newLife : VARSET_TP) (t : CodeGen)
    (ht : DisjointGC t) : DisjointGC (genUpdateLifeSet c newLife t) := by
  unfold genUpdateLifeSet
  simp only []
  exact foldl_preserves DisjointGC _ (fun a b ha => disjointGC_genUpdateLifeSet_born c a b ha) _ _
    (foldl_preserves DisjointGC _ (fun a b ha => disjointGC_genUpdateLifeSet_dead c a b ha) _ _ ht)

theorem disjointGC_genCodeForBBlist_resetState (c : Compiler) (block : BasicBlock) (s : CodeGen) :
    DisjointGC (genCodeForBBlist_resetState c block s) := by
  unfold genCodeForBBlist_resetState
  apply disjointGC_genUpdateLifeSet
  exact Finset.disjoint_empty_left _

theorem disjointGC_genCodeForBBlist_blockEntry (c : Compiler) (block : BasicBlock) (s : CodeGen) :
    DisjointGC (genCodeForBBlist_blockEntry c block s) := by
  have hfin : DisjointGC (genCodeForBBlist_installMasks
      (genCodeForBBlist_seedLoop c block (genCodeForBBlist_resetState c block s))) :=
    disjointGC_gcMarkRegSetByref _ _ (disjointGC_gcMarkRegSetGCref _ _
      ((sameGC_genCodeForBBlist_seedLoop c block _).disjoint
        (disjointGC_genCodeForBBlist_resetState c block s)))
  unfold genCodeForBBlist_blockEntry
  simp only []
  split
  · split
    · exact disjointGC_gcMarkRegSetGCref _ _ hfin
    · exact hfin
  · exact hfin

/-! C5: the two GC register sets stay disjoint -/

theorem genTransferRegGCState_mem (d sr : Nat) (s : CodeGen) (h : DisjointGC s) :
    (d ∈ (genTransferRegGCState (.REG d) (.REG sr) s).gcRegGCrefSetCur ↔ sr ∈ s.gcRegGCrefSetCur) ∧
    (d ∈ (genTransferRegGCState (.REG d) (.REG sr) s).gcRegByrefSetCur ↔ sr ∈ s.gcRegByrefSetCur) ∧
    (∀ r, r ≠ d →
      ((r ∈ (genTransferRegGCState (.REG d) (.REG sr) s).gcRegGCrefSetCur ↔ r ∈ s.gcRegGCrefSetCur) ∧
       (r ∈ (genTransferRegGCState (.REG d) (.REG sr) s).gcRegByrefSetCur ↔
          r ∈ s.gcRegByrefSetCur))) := by
  have hd : ∀ a, a ∈ s.gcRegGCrefSetCur → a ∉ s.gcRegByrefSetCur :=
    fun a ha => Finset.disjoint_left.mp h ha
  unfold genTransferRegGCState
  simp only [genRegMask, Finset.inter_singleton]
  by_cases h1 : sr ∈ s.gcRegGCrefSetCur
  · simp [h1, gcMarkRegSetGCref, hd sr h1]
    intro r hr
    exact ⟨fun h => absurd h hr, fun _ => hr⟩
  · by_cases h2 : sr ∈ s.gcRegByrefSetCur
    · simp [h1, h2, gcMarkRegSetByref]
      intro r hr
      exact ⟨fun _ => hr, fun h => absurd h hr⟩
    · simp [h1, h2, gcMarkRegSetNpt]
      intro r hr
      exact ⟨fun _ => hr, fun _ => hr⟩

/-- C5: the exact-reference and byref register sets are disjoint after the
block-entry seeding, and disjointness is preserved by `genTransferRegGCState`,
`genProduceReg`, `genConsumeReg` (for any `genRegCopy` that preserves it),
`genUnspillLocal` and `genSpillVar`; after `genTransferRegGCState(dst, src)` on a
disjoint state, `dst` is in the ref set iff `src` was, in the byref set iff `src`
was, and the membership of every other register is unchanged. -/
theorem C5_gc_register_sets_disjoint :
    (∀ (c : Compiler) (block : BasicBlock) (s : CodeGen),
      DisjointGC (genCodeForBBlist_blockEntry c block s)) ∧
    (∀ (dst src : regNumber) (s : CodeGen),
      DisjointGC s → DisjointGC (genTransferRegGCState dst src s)) ∧
    (∀ (c : Compiler) (tree : GenTree) (s : CodeGen) (r : GenTree × CodeGen),
      DisjointGC s → genProduceReg c tree s = some r → DisjointGC r.2) ∧
    (∀ (c : Compiler) (genRegCopy : GenTree → CodeGen → CodeGen) (tree : GenTree) (s : CodeGen),
      (∀ t s0, DisjointGC s0 → DisjointGC (genRegCopy t s0)) →
      DisjointGC s → DisjointGC (genConsumeReg c genRegCopy tree s).2.2) ∧
    (∀ (c : Compiler) (varNum : Nat) (type : var_types) (regNum : regNumber)
        (reSpill isLastUse : Bool) (s : CodeGen),
      DisjointGC s → DisjointGC (genUnspillLocal c varNum type regNum reSpill isLastUse s)) ∧
    (∀ (c : Compiler) (tree : GenTree) (s : CodeGen),
      DisjointGC s → DisjointGC (genSpillVar c tree s).2) ∧
    (∀ (d sr : Nat) (s : CodeGen), DisjointGC s →
      (d ∈ (genTransferRegGCState (.REG d) (.REG sr) s).gcRegGCrefSetCur ↔
          sr ∈ s.gcRegGCrefSetCur) ∧
      (d ∈ (genTransferRegGCState (.REG d) (.REG sr) s).gcRegByrefSetCur ↔
          sr ∈ s.gcRegByrefSetCur) ∧
      (∀ r, r ≠ d →
        ((r ∈ (genTransferRegGCState (.REG d) (.REG sr) s).gcRegGCrefSetCur ↔
            r ∈ s.gcRegGCrefSetCur) ∧
         (r ∈ (genTransferRegGCState (.REG d) (.REG sr) s).gcRegByrefSetCur ↔
            r ∈ s.gcRegByrefSetCur)))) :=
  ⟨disjointGC_genCodeForBBlist_blockEntry,
   fun dst src s h => disjointGC_genTransferRegGCState dst src s h,
   fun c tree s r h hr => disjointGC_genProduceReg c tree s r h hr,
   fun c g tree s hg h => disjointGC_genConsumeReg c g hg tree s h,
   fun c v t r b l s h => disjointGC_genUnspillLocal c v t r b l s h,
   fun c tree s h => disjointGC_genSpillVar c tree s h,
   genTransferRegGCState_mem⟩

/-- C5 at a concrete state: register 1 holds an exact reference and register 2
a byref; transferring the state of register 2 to register 3 makes register 3 a
byref and leaves the sets disjoint. -/
theorem C5_gc_register_sets_disjoint_witness :
    DisjointGC (exState {1} {2} ∅ (fun _ => .REG_STK)) ∧
    DisjointGC (genTransferRegGCState (.REG 3) (.REG 2) (exState {1} {2} ∅ (fun _ => .REG_STK))) ∧
    (3 ∈ (genTransferRegGCState (.REG 3) (.REG 2)
        (exState {1} {2} ∅ (fun _ => .REG_STK))).gcRegByrefSetCur ↔
      2 ∈ (exState {1} {2} ∅ (fun _ => .REG_STK)).gcRegByrefSetCur) :=
  have h0 : DisjointGC (exState {1} {2} ∅ (fun _ => .REG_STK)) := by
    unfold DisjointGC exState; decide
  ⟨h0, C5_gc_register_sets_disjoint.2.1 _ _ _ h0,
    (C5_gc_register_sets_disjoint.2.2.2.2.2.2 3 2 _ h0).2.1⟩

/-! Marking one register under the kind of a type -/

/-- After `gcMarkRegPtrVal (REG r) t`, register `r` has exactly the kind of `t`:
in the ref set only for `TYP_REF`, in the byref set only for `TYP_BYREF`, in
neither for a non-GC type. -/
theorem gcMarkRegPtrVal_kind (r : Nat) (t : var_types) (s : CodeGen) :
    (r ∈ (gcMarkRegPtrVal (.REG r) t s).gcRegGCrefSetCur ↔ t = .TYP_REF) ∧
    (r ∈ (gcMarkRegPtrVal (.REG r) t s).gcRegByrefSetCur ↔ t = .TYP_BYREF) := by
  cases t <;>
    simp [gcMarkRegPtrVal, gcMarkRegSetGCref, gcMarkRegSetByref, gcMarkRegSetNpt, genRegMask]

/-- `gcMarkRegPtrVal (REG r) t` leaves the membership of every other register as
it was. -/
theorem gcMarkRegPtrVal_other (r q : Nat) (hq : q ≠ r) (t : var_types) (s : CodeGen) :
    (q ∈ (gcMarkRegPtrVal (.REG r) t s).gcRegGCrefSetCur ↔ q ∈ s.gcRegGCrefSetCur) ∧
    (q ∈ (gcMarkRegPtrVal (.REG r) t s).gcRegByrefSetCur ↔ q ∈ s.gcRegByrefSetCur) := by
  cases t <;>
    simp [gcMarkRegPtrVal, gcMarkRegSetGCref, gcMarkRegSetByref, gcMarkRegSetNpt, genRegMask, hq]

/-- `gcMarkRegPtrVal` only changes the two GC register sets. -/
theorem gcMarkRegPtrVal_frame (reg : regNumber) (t : var_types) (s : CodeGen) :
    (gcMarkRegPtrVal reg t s).lvRegNum = s.lvRegNum ∧
    (gcMarkRegPtrVal reg t s).gcVarPtrSetCur = s.gcVarPtrSetCur ∧
    (gcMarkRegPtrVal reg t s).rsMaskVars = s.rsMaskVars ∧
    (gcMarkRegPtrVal reg t s).emitted = s.emitted := by
  cases t <;> exact ⟨rfl, rfl, rfl, rfl⟩

/-! C10: `genUnspillLocal` -/

/-- C10: `genUnspillLocal` with `reSpill = true` emits the load and marks the
target register under the kind of the type, but leaves the local's recorded
register, the stack GC set and the live-variable register mask unchanged; with
`reSpill = false` it also sets the recorded register of the local to the target
register, adds the local's register mask to the live-variable mask, and removes
the local from the stack GC set unless the local is always-alive-in-memory. -/
theorem C10_genUnspillLocal_reSpill_frame (c : Compiler) (varNum : Nat) (type : var_types)
    (regNum : regNumber) (isLastUse : Bool) (s : CodeGen) :
    ((genUnspillLocal c varNum type regNum true isLastUse s).emitted =
        s.emitted ++ [instr.loadLcl regNum varNum] ∧
      SameGC (genUnspillLocal c varNum type regNum true isLastUse s) (gcMarkRegPtrVal regNum type s) ∧
      (genUnspillLocal c varNum type regNum true isLastUse s).lvRegNum = s.lvRegNum ∧
      (genUnspillLocal c varNum type regNum true isLastUse s).gcVarPtrSetCur = s.gcVarPtrSetCur ∧
      (genUnspillLocal c varNum type regNum true isLastUse s).rsMaskVars = s.rsMaskVars) ∧
    ((genUnspillLocal c varNum type regNum false isLastUse s).emitted =
        s.emitted ++ [instr.loadLcl regNum varNum] ∧
      SameGC (genUnspillLocal c varNum type regNum false isLastUse s) (gcMarkRegPtrVal regNum type s) ∧
      (genUnspillLocal c varNum type regNum false isLastUse s).lvRegNum varNum = regNum ∧
      (∀ n, n ≠ varNum →
        (genUnspillLocal c varNum type regNum false isLastUse s).lvRegNum n = s.lvRegNum n) ∧
      (genUnspillLocal c varNum type regNum false isLastUse s).rsMaskVars =
        s.rsMaskVars ∪ genRegMask regNum ∧
      (genUnspillLocal c varNum type regNum false isLastUse s).gcVarPtrSetCur =
        (if (c.lvaGetDesc varNum).IsAlwaysAliveInMemory then s.gcVarPtrSetCur
         else s.gcVarPtrSetCur.erase (c.lvaGetDesc varNum).lvVarIndex)) ∧
    (∀ r : Nat, regNum = .REG r → ∀ reSpill : Bool,
      (r ∈ (genUnspillLocal c varNum type regNum reSpill isLastUse s).gcRegGCrefSetCur ↔
        type = .TYP_REF) ∧
      (r ∈ (genUnspillLocal c varNum type regNum reSpill isLastUse s).gcRegByrefSetCur ↔
        type = .TYP_BYREF)) := by
  refine ⟨?_, ?_, ?_⟩
  · cases type <;> exact ⟨rfl, ⟨rfl, rfl⟩, rfl, rfl, rfl⟩
  · by_cases ha : (c.lvaGetDesc varNum).IsAlwaysAliveInMemory = true
    · cases type <;>
        simp [genUnspillLocal, gcMarkRegPtrVal, gcMarkRegSetGCref, gcMarkRegSetByref,
          gcMarkRegSetNpt, CodeGen.emit, CodeGen.SetRegNum, CodeGen.AddMaskVars,
          CodeGen.genGetRegMask, SameGC, ha] <;>
        intro n hn <;> simp [hn]
    · cases type <;>
        simp [genUnspillLocal, gcMarkRegPtrVal, gcMarkRegSetGCref, gcMarkRegSetByref,
          gcMarkRegSetNpt, CodeGen.emit, CodeGen.SetRegNum, CodeGen.AddMaskVars,
          CodeGen.genGetRegMask, SameGC, ha] <;>
        intro n hn <;> simp [hn]
  · rintro r rfl reSpill
    unfold genUnspillLocal
    exact gcMarkRegPtrVal_kind r type _

/-- C10 at a concrete input: reloading local 0 into register 3 for an immediate
re-spill keeps its recorded location on the stack, while a plain reload records
register 3 and marks it as holding an exact reference. -/
theorem C10_genUnspillLocal_reSpill_frame_witness :
    (genUnspillLocal (exCompiler (fun _ => exLcl .TYP_REF 0 false)) 0 .TYP_REF (.REG 3) true false
        (exState ∅ ∅ ∅ (fun _ => .REG_STK))).lvRegNum 0 = .REG_STK ∧
    (genUnspillLocal (exCompiler (fun _ => exLcl .TYP_REF 0 false)) 0 .TYP_REF (.REG 3) false false
        (exState ∅ ∅ ∅ (fun _ => .REG_STK))).lvRegNum 0 = .REG 3 ∧
    3 ∈ (genUnspillLocal (exCompiler (fun _ => exLcl .TYP_REF 0 false)) 0 .TYP_REF (.REG 3) false false
        (exState ∅ ∅ ∅ (fun _ => .REG_STK))).gcRegGCrefSetCur :=
  ⟨congrFun (C10_genUnspillLocal_reSpill_frame _ 0 .TYP_REF (.REG 3) false _).1.2.2.1 0,
   (C10_genUnspillLocal_reSpill_frame _ 0 .TYP_REF (.REG 3) false _).2.1.2.2.1,
   ((C10_genUnspillLocal_reSpill_frame _ 0 .TYP_REF (.REG 3) false _).2.2 3 rfl false).1.mpr rfl⟩

/-! C8 and C9: `genSpillVar` on an always-memory-resident local -/

/-- C8, as stated, fails at a use: local 0 is an always-alive `TYP_REF` register
candidate living in register 3 (rooted, in the live-variable mask); the node is a
use flagged `GTF_SPILL`.  All assertions of `genSpillVar` hold and no store is
emitted, but the in-register copy is killed: the recorded register becomes
`REG_STK` and register 3 leaves the live-variable mask and the ref set. -/
theorem C8_genSpillVar_alwaysAlive_counterexample :
    ((exCompiler (fun _ => exLcl .TYP_REF 0 true)).lvaGetDesc 0).IsAlwaysAliveInMemory = true ∧
    genSpillVar_asserts (exCompiler (fun _ => exLcl .TYP_REF 0 true))
      { exNode 1 .GT_LCL_VAR .TYP_REF (.REG 3) 0 with GTF_SPILL := true }
      (exState {3} ∅ {3} (fun _ => .REG 3)) = true ∧
    (genSpillVar (exCompiler (fun _ => exLcl .TYP_REF 0 true))
      { exNode 1 .GT_LCL_VAR .TYP_REF (.REG 3) 0 with GTF_SPILL := true }
      (exState {3} ∅ {3} (fun _ => .REG 3))).2.emitted = [] ∧
    (exState {3} ∅ {3} (fun _ => .REG 3)).lvRegNum 0 = .REG 3 ∧
    (genSpillVar (exCompiler (fun _ => exLcl .TYP_REF 0 true))
      { exNode 1 .GT_LCL_VAR .TYP_REF (.REG 3) 0 with GTF_SPILL := true }
      (exState {3} ∅ {3} (fun _ => .REG 3))).2.lvRegNum 0 = .REG_STK ∧
    3 ∈ (exState {3} ∅ {3} (fun _ => .REG 3)).rsMaskVars ∧
    3 ∉ (genSpillVar (exCompiler (fun _ => exLcl .TYP_REF 0 true))
      { exNode 1 .GT_LCL_VAR .TYP_REF (.REG 3) 0 with GTF_SPILL := true }
      (exState {3} ∅ {3} (fun _ => .REG 3))).2.rsMaskVars ∧
    3 ∈ (exState {3} ∅ {3} (fun _ => .REG 3)).gcRegGCrefSetCur ∧
    3 ∉ (genSpillVar (exCompiler (fun _ => exLcl .TYP_REF 0 true))
      { exNode 1 .GT_LCL_VAR .TYP_REF (.REG 3) 0 with GTF_SPILL := true }
      (exState {3} ∅ {3} (fun _ => .REG 3))).2.gcRegGCrefSetCur := by
  refine ⟨rfl, rfl, rfl, rfl, rfl, ?_, ?_, ?_, ?_⟩ <;> decide

/-- C8 (amended): for an always-memory-resident local `genSpillVar` emits no
store and clears `GTF_SPILL`.  At a definition the live-variable mask and the GC
register sets are unchanged, and the recorded register is unchanged when the node
also carries `GTF_SPILLED` (a write-thru definition) and is reset to `REG_STK`
otherwise.  At a use of a local that is in a register the in-register copy is
killed: the local's register leaves the live-variable mask and both GC register
sets, and the recorded register becomes `REG_STK` (the node not carrying
`GTF_SPILLED`). -/
theorem C8_genSpillVar_alwaysAlive (c : Compiler) (tree : GenTree) (s : CodeGen)
    (hAlive : (c.lvaGetDesc tree.gtLclNum).IsAlwaysAliveInMemory = true) :
    (genSpillVar c tree s).2.emitted = s.emitted ∧
    (genSpillVar c tree s).1.GTF_SPILL = false ∧
    (tree.GTF_VAR_DEF = true →
      (genSpillVar c tree s).2.rsMaskVars = s.rsMaskVars ∧
      SameGC (genSpillVar c tree s).2 s ∧
      (tree.GTF_SPILLED = true → (genSpillVar c tree s).2.lvRegNum = s.lvRegNum) ∧
      (tree.GTF_SPILLED = false → (genSpillVar c tree s).2.lvRegNum tree.gtLclNum = .REG_STK)) ∧
    (tree.GTF_VAR_DEF = false → s.lvIsInReg tree.gtLclNum = true →
      (genSpillVar c tree s).2.rsMaskVars = s.rsMaskVars \ genRegMask (s.lvRegNum tree.gtLclNum) ∧
      (genSpillVar c tree s).2.gcRegGCrefSetCur =
        s.gcRegGCrefSetCur \ genRegMask (s.lvRegNum tree.gtLclNum) ∧
      (genSpillVar c tree s).2.gcRegByrefSetCur =
        s.gcRegByrefSetCur \ genRegMask (s.lvRegNum tree.gtLclNum) ∧
      (tree.GTF_SPILLED = false → (genSpillVar c tree s).2.lvRegNum tree.gtLclNum = .REG_STK)) := by
  refine ⟨?_, rfl, ?_, ?_⟩
  · unfold genSpillVar genUpdateRegLife
    simp only [hAlive, Bool.not_true, Bool.false_eq_true, if_false]
    split_ifs <;> rfl
  · intro hdef
    unfold genSpillVar
    simp only [hdef, Bool.not_true, Bool.false_and, Bool.false_eq_true, if_false]
    refine ⟨?_, ?_, ?_, ?_⟩
    · split_ifs <;> rfl
    · split_ifs <;> exact ⟨rfl, rfl⟩
    · intro hsp; simp [hsp]
    · intro hsp; simp [hsp, CodeGen.SetRegNum]
  · intro hdef hreg
    have hne : s.lvRegNum tree.gtLclNum ≠ regNumber.REG_STK := by
      simpa [CodeGen.lvIsInReg] using hreg
    unfold genSpillVar genUpdateRegLife
    simp only [hdef, hreg, hAlive, Bool.not_true, Bool.not_false, Bool.false_eq_true, if_false,
      Bool.and_self, if_true]
    refine ⟨?_, ?_, ?_, ?_⟩
    · split_ifs <;> rfl
    · split_ifs <;>
        simp [gcMarkRegSetNpt, CodeGen.lvRegMask, CodeGen.RemoveMaskVars, CodeGen.SetRegNum, hne]
    · split_ifs <;>
        simp [gcMarkRegSetNpt, CodeGen.lvRegMask, CodeGen.RemoveMaskVars, CodeGen.SetRegNum, hne]
    · intro hsp; simp [hsp, CodeGen.SetRegNum]

/-- C8 (amended) at a concrete input: the write-thru definition of the
always-alive local 0 in register 3 keeps its recorded register. -/
theorem C8_genSpillVar_alwaysAlive_witness :
    ((exCompiler (fun _ => exLcl .TYP_REF 0 true)).lvaGetDesc 0).IsAlwaysAliveInMemory = true ∧
    (genSpillVar (exCompiler (fun _ => exLcl .TYP_REF 0 true))
      { exNode 1 .GT_STORE_LCL_VAR .TYP_REF (.REG 3) 0 with
        GTF_SPILL := true, GTF_SPILLED := true, GTF_VAR_DEF := true }
      (exState {3} ∅ {3} (fun _ => .REG 3))).2.lvRegNum =
      (exState {3} ∅ {3} (fun _ => .REG 3)).lvRegNum :=
  ⟨rfl, ((C8_genSpillVar_alwaysAlive (exCompiler (fun _ => exLcl .TYP_REF 0 true))
      { exNode 1 .GT_STORE_LCL_VAR .TYP_REF (.REG 3) 0 with
        GTF_SPILL := true, GTF_SPILLED := true, GTF_VAR_DEF := true }
      (exState {3} ∅ {3} (fun _ => .REG 3)) rfl).2.2.1 rfl).2.2.1 rfl⟩

/-- C9, as stated, fails when the definition carries `GTF_SPILL` without
`GTF_SPILLED`: local 0 is an always-alive `TYP_REF` register candidate in register
3 and the node is its definition flagged `GTF_VAR_DEF | GTF_SPILL`.  All
assertions of `genSpillVar` hold and `genSpillLocal` emits its one store, but the
subsequent `genSpillVar` resets the recorded register to `REG_STK`; the same
happens inside `genProduceReg`. -/
theorem C9_spill_at_def_counterexample :
    ((exCompiler (fun _ => exLcl .TYP_REF 0 true)).lvaGetDesc 0).IsAlwaysAliveInMemory = true ∧
    genSpillVar_asserts (exCompiler (fun _ => exLcl .TYP_REF 0 true))
      { exNode 1 .GT_STORE_LCL_VAR .TYP_REF (.REG 3) 0 with GTF_SPILL := true, GTF_VAR_DEF := true }
      (exState ∅ ∅ ∅ (fun _ => .REG 3)) = true ∧
    (genSpillLocal (exCompiler (fun _ => exLcl .TYP_REF 0 true)) 0 .TYP_REF
      { exNode 1 .GT_STORE_LCL_VAR .TYP_REF (.REG 3) 0 with GTF_SPILL := true, GTF_VAR_DEF := true }
      (.REG 3) (exState ∅ ∅ ∅ (fun _ => .REG 3))).emitted = [instr.storeLcl 0 (.REG 3)] ∧
    (exState ∅ ∅ ∅ (fun _ => .REG 3)).lvRegNum 0 = .REG 3 ∧
    (genSpillVar (exCompiler (fun _ => exLcl .TYP_REF 0 true))
      { exNode 1 .GT_STORE_LCL_VAR .TYP_REF (.REG 3) 0 with GTF_SPILL := true, GTF_VAR_DEF := true }
      (genSpillLocal (exCompiler (fun _ => exLcl .TYP_REF 0 true)) 0 .TYP_REF
        { exNode 1 .GT_STORE_LCL_VAR .TYP_REF (.REG 3) 0 with GTF_SPILL := true, GTF_VAR_DEF := true }
        (.REG 3) (exState ∅ ∅ ∅ (fun _ => .REG 3)))).2.lvRegNum 0 = .REG_STK ∧
    ((genProduceReg (exCompiler (fun _ => exLcl .TYP_REF 0 true))
      { exNode 1 .GT_STORE_LCL_VAR .TYP_REF (.REG 3) 0 with GTF_SPILL := true, GTF_VAR_DEF := true }
      (exState ∅ ∅ ∅ (fun _ => .REG 3))).map (fun r => r.2.lvRegNum 0)) = some .REG_STK := by
  refine ⟨rfl, rfl, rfl, rfl, rfl, rfl⟩

/-- C9 (amended): for a local spilled at a definition that carries `GTF_VAR_DEF`,
`GTF_SPILL` and `GTF_SPILLED` (the write-thru definition of an always-alive
local), `genSpillLocal` emits exactly one store of the register to the home slot
of the local, and the subsequent `genSpillVar` clears `GTF_SPILL`, keeps
`GTF_SPILLED`, emits nothing, leaves the recorded registers unchanged (the local is
not reset to `REG_STK`) and removes nothing from the live-variable mask or the GC
register sets. -/
theorem C9_spill_at_def (c : Compiler) (tree : GenTree) (type : var_types) (regNum : regNumber)
    (s : CodeGen) (hDef : tree.GTF_VAR_DEF = true) (hSpilled : tree.GTF_SPILLED = true) :
    (genSpillLocal c tree.gtLclNum type tree regNum s).emitted =
      s.emitted ++ [instr.storeLcl tree.gtLclNum regNum] ∧
    (genSpillVar c tree (genSpillLocal c tree.gtLclNum type tree regNum s)).1.GTF_SPILL = false ∧
    (genSpillVar c tree (genSpillLocal c tree.gtLclNum type tree regNum s)).1.GTF_SPILLED = true ∧
    (genSpillVar c tree (genSpillLocal c tree.gtLclNum type tree regNum s)).2.emitted =
      (genSpillLocal c tree.gtLclNum type tree regNum s).emitted ∧
    (genSpillVar c tree (genSpillLocal c tree.gtLclNum type tree regNum s)).2.lvRegNum =
      s.lvRegNum ∧
    (genSpillVar c tree (genSpillLocal c tree.gtLclNum type tree regNum s)).2.rsMaskVars =
      s.rsMaskVars ∧
    SameGC (genSpillVar c tree (genSpillLocal c tree.gtLclNum type tree regNum s)).2 s := by
  have h1 : genSpillLocal c tree.gtLclNum type tree regNum s =
      s.emit (instr.storeLcl tree.gtLclNum regNum) := by
    unfold genSpillLocal
    simp [hDef]
  have h2 : ∀ t : CodeGen, genSpillVar c tree t = ({ tree with GTF_SPILL := false }, t) := by
    intro t
    unfold genSpillVar
    simp [hDef, hSpilled]
  rw [h1, h2]
  exact ⟨rfl, rfl, hSpilled, rfl, rfl, rfl, rfl, rfl⟩

/-- C9 (amended) at a concrete input: the write-thru definition of the
always-alive local 0 in register 3. -/
theorem C9_spill_at_def_witness :
    (genSpillLocal (exCompiler (fun _ => exLcl .TYP_REF 0 true)) 0 .TYP_REF
      { exNode 1 .GT_STORE_LCL_VAR .TYP_REF (.REG 3) 0 with
        GTF_SPILL := true, GTF_SPILLED := true, GTF_VAR_DEF := true }
      (.REG 3) (exState {3} ∅ {3} (fun _ => .REG 3))).emitted = [instr.storeLcl 0 (.REG 3)] ∧
    (genSpillVar (exCompiler (fun _ => exLcl .TYP_REF 0 true))
      { exNode 1 .GT_STORE_LCL_VAR .TYP_REF (.REG 3) 0 with
        GTF_SPILL := true, GTF_SPILLED := true, GTF_VAR_DEF := true }
      (genSpillLocal (exCompiler (fun _ => exLcl .TYP_REF 0 true)) 0 .TYP_REF
        { exNode 1 .GT_STORE_LCL_VAR .TYP_REF (.REG 3) 0 with
          GTF_SPILL := true, GTF_SPILLED := true, GTF_VAR_DEF := true }
        (.REG 3) (exState {3} ∅ {3} (fun _ => .REG 3)))).2.lvRegNum =
      (exState {3} ∅ {3} (fun _ => .REG 3)).lvRegNum :=
  ⟨(C9_spill_at_def (exCompiler (fun _ => exLcl .TYP_REF 0 true))
      { exNode 1 .GT_STORE_LCL_VAR .TYP_REF (.REG 3) 0 with
        GTF_SPILL := true, GTF_SPILLED := true, GTF_VAR_DEF := true }
      .TYP_REF (.REG 3) (exState {3} ∅ {3} (fun _ => .REG 3)) rfl rfl).1,
   (C9_spill_at_def (exCompiler (fun _ => exLcl .TYP_REF 0 true))
      { exNode 1 .GT_STORE_LCL_VAR .TYP_REF (.REG 3) 0 with
        GTF_SPILL := true, GTF_SPILLED := true, GTF_VAR_DEF := true }
      .TYP_REF (.REG 3) (exState {3} ∅ {3} (fun _ => .REG 3)) rfl rfl).2.2.2.2.1⟩

/-! C7: the end-of-block GC register check -/

theorem mem_foldl_sdiff_genRegMask (regs : List regNumber) (n : regMaskTP) (r : Nat) :
    r ∈ regs.foldl (fun n reg => n \ genRegMask reg) n ↔
      r ∈ n ∧ r ∉ regs.foldr (fun reg m => genRegMask reg ∪ m) ∅ := by
  induction regs generalizing n with
  | nil => simp
  | cons x xs ih =>
    simp only [List.foldl_cons, List.foldr_cons, ih, Finset.mem_sdiff, Finset.mem_union]
    tauto

theorem mem_genCodeForBBlist_nonVarPtrRegs (c : Compiler) (block : BasicBlock) (s : CodeGen)
    (r : Nat) :
    r ∈ genCodeForBBlist_nonVarPtrRegs c block s ↔
      Rooted r s ∧ r ∉ s.GetMaskVars ∧ r ∉ excusedSet_spec c block := by
  unfold genCodeForBBlist_nonVarPtrRegs excusedSet_spec Rooted
  simp only []
  split_ifs <;>
    simp only [Finset.mem_sdiff, Finset.mem_union, mem_foldl_sdiff_genRegMask,
      Finset.not_mem_empty, or_false] <;>
    tauto

/-- C7, as stated, fails in its last sentence: with local 0 a live-out `TYP_REF`
local in register 3, register 3 in the live-variable mask and both GC register
sets empty, the end-of-block check passes although the rooted register set (empty)
differs from the live-out GC-tracked variable registers (register 3), also modulo
the excused set (register 0). -/
theorem C7_end_of_block_check_counterexample :
    genCodeForBBlist_gcRegCheck (exCompiler (fun _ => exLcl .TYP_REF 0 false))
      { bbNum := 1, bbLiveIn := {0}, bbLiveOut := {0}, handlerGetsXcptnObj := false, nodes := [],
        BBF_HAS_JMP := false, BBF_HAS_LABEL := false }
      (exState ∅ ∅ {3} (fun _ => .REG 3)) = some () ∧
    ((exState ∅ ∅ {3} (fun _ => .REG 3)).gcRegGCrefSetCur ∪
        (exState ∅ ∅ {3} (fun _ => .REG 3)).gcRegByrefSetCur) \
      excusedSet_spec (exCompiler (fun _ => exLcl .TYP_REF 0 false))
        { bbNum := 1, bbLiveIn := {0}, bbLiveOut := {0}, handlerGetsXcptnObj := false, nodes := [],
          BBF_HAS_JMP := false, BBF_HAS_LABEL := false } ≠
    liveOutGCVarRegs (exCompiler (fun _ => exLcl .TYP_REF 0 false))
        { bbNum := 1, bbLiveIn := {0}, bbLiveOut := {0}, handlerGetsXcptnObj := false, nodes := [],
          BBF_HAS_JMP := false, BBF_HAS_LABEL := false }
        (exState ∅ ∅ {3} (fun _ => .REG 3)) \
      excusedSet_spec (exCompiler (fun _ => exLcl .TYP_REF 0 false))
        { bbNum := 1, bbLiveIn := {0}, bbLiveOut := {0}, handlerGetsXcptnObj := false, nodes := [],
          BBF_HAS_JMP := false, BBF_HAS_LABEL := false } := by
  constructor
  · decide
  · decide

/-- C7 (amended): the end-of-block GC register check fails (fatal `noway_assert`)
if and only if some register in the ref or byref set is neither in the
live-variable register mask nor in the excused set; when the check passes, every
rooted register outside the excused set is in the live-variable register mask
(containment; the check does not establish equality with the live-out GC
registers). -/
theorem C7_end_of_block_check (c : Compiler) (block : BasicBlock) (s : CodeGen) :
    (genCodeForBBlist_gcRegCheck c block s = none ↔
      ∃ r, Rooted r s ∧ r ∉ s.GetMaskVars ∧ r ∉ excusedSet_spec c block) ∧
    (genCodeForBBlist_gcRegCheck c block s = some () →
      ∀ r, Rooted r s → r ∉ excusedSet_spec c block → r ∈ s.GetMaskVars) := by
  have hne : genCodeForBBlist_nonVarPtrRegs c block s ≠ RBM_NONE ↔
      ∃ r, Rooted r s ∧ r ∉ s.GetMaskVars ∧ r ∉ excusedSet_spec c block := by
    unfold RBM_NONE
    rw [← Finset.nonempty_iff_ne_empty]
    constructor
    · rintro ⟨r, hr⟩
      exact ⟨r, (mem_genCodeForBBlist_nonVarPtrRegs c block s r).mp hr⟩
    · rintro ⟨r, hr⟩
      exact ⟨r, (mem_genCodeForBBlist_nonVarPtrRegs c block s r).mpr hr⟩
  unfold genCodeForBBlist_gcRegCheck
  constructor
  · rw [← hne]
    split <;> simp_all
  · intro hpass r hroot hex
    by_contra hmask
    have : genCodeForBBlist_nonVarPtrRegs c block s ≠ RBM_NONE := hne.mpr ⟨r, hroot, hmask, hex⟩
    simp [this] at hpass

/-- C7 (amended) at a concrete state: register 5 is rooted but neither live nor
excused, so the check fails; the state of the counterexample passes. -/
theorem C7_end_of_block_check_witness :
    genCodeForBBlist_gcRegCheck (exCompiler (fun _ => exLcl .TYP_REF 0 false))
      { bbNum := 1, bbLiveIn := {0}, bbLiveOut := {0}, handlerGetsXcptnObj := false, nodes := [],
        BBF_HAS_JMP := false, BBF_HAS_LABEL := false }
      (exState {5} ∅ {3} (fun _ => .REG 3)) = none :=
  (C7_end_of_block_check _ _ _).1.mpr ⟨5, Or.inl (by decide), by decide, by decide⟩

theorem eraseSpill_genSpillVar (c : Compiler) (tree : GenTree) (s : CodeGen) :
    (genSpillVar c tree s).1.eraseSpill = tree.eraseSpill := rfl

theorem eraseSpill_genUpdateLife (c : Compiler) (tree : GenTree) (s : CodeGen) :
    (genUpdateLife c tree s).1.eraseSpill = tree.eraseSpill := by
  unfold genUpdateLife
  simp only []
  split_ifs <;> rfl

theorem eraseSpill_withUnspillTree (tree : GenTree) :
    (tree.withUnspillTree { tree.unspillTree with GTF_SPILLED := false }).eraseSpill =
      tree.eraseSpill := by
  unfold GenTree.withUnspillTree GenTree.unspillTree GenTree.setOp1 GenTree.gtGetOp1
  rcases tree with ⟨n, _ | m⟩ <;> simp only [] <;> split_ifs <;> rfl

theorem eraseSpill_genUnspillRegIfNeeded (c : Compiler) (tree : GenTree) (s : CodeGen) :
    (genUnspillRegIfNeeded c tree s).1.eraseSpill = tree.eraseSpill := by
  unfold genUnspillRegIfNeeded
  simp only []
  split_ifs <;> first | rfl | exact eraseSpill_withUnspillTree tree

/-- The node returned by `genConsumeReg` differs from the argument in spill bits
only. -/
theorem eraseSpill_genConsumeReg (c : Compiler) (g : GenTree → CodeGen → CodeGen) (tree : GenTree)
    (s : CodeGen) : (genConsumeReg c g tree s).2.1.eraseSpill = tree.eraseSpill := by
  unfold genConsumeReg
  simp only []
  rw [eraseSpill_genUpdateLife, eraseSpill_genUnspillRegIfNeeded]

/-! C1: what `genConsumeReg` does to the GC register sets -/

theorem not_rooted_gcMarkRegSetNpt (m : regMaskTP) (s : CodeGen) (r : Nat) (hr : r ∈ m) :
    r ∉ (gcMarkRegSetNpt m s).gcRegGCrefSetCur ∧ r ∉ (gcMarkRegSetNpt m s).gcRegByrefSetCur := by
  simp [gcMarkRegSetNpt, hr]

/-- C2 at its failing input: a multi-register call returns two `TYP_REF` values in
registers 0 and 2 and only the first result register is flagged for spill.
`genProduceReg` spills register 0 to a temp, unmarks it, sets `GTF_SPILLED` and
returns early: register 2, which is not flagged for spill and holds a live
`TYP_REF`, is in neither GC register set.  Without the spill request the same
call has both registers in the ref set. -/
theorem C2_genProduceReg_partial_spill :
    (exCall2 true).IsMultiRegCall = true ∧
    ((exCall2 true).GetRegSpillFlagByIdx 1).GTF_SPILL = false ∧
    (exCall2 true).GetRegByIndex 1 = .REG 2 ∧
    (exCall2 true).GetRegTypeByIndex (exCompiler (fun _ => exLcl .TYP_REF 0 false)) 1 = .TYP_REF ∧
    (genProduceReg (exCompiler (fun _ => exLcl .TYP_REF 0 false)) (exCall2 true)
        (exState ∅ ∅ ∅ (fun _ => .REG_STK))).map
      (fun r => (r.1.GTF_SPILLED, r.1.GTF_SPILL, r.2.emitted, r.2.gcRegGCrefSetCur,
        r.2.gcRegByrefSetCur)) =
      some (true, false, [instr.storeTmp 0 (.REG 0)], ∅, ∅) ∧
    (genProduceReg (exCompiler (fun _ => exLcl .TYP_REF 0 false)) (exCall2 false)
        (exState ∅ ∅ ∅ (fun _ => .REG_STK))).map
      (fun r => (r.2.emitted, r.2.gcRegGCrefSetCur, r.2.gcRegByrefSetCur)) =
      some ([], {0, 2}, ∅) := by
  refine ⟨rfl, rfl, rfl, rfl, ?_, ?_⟩ <;> decide

theorem getD_append_replicate {α : Type} (l : List α) (k j : Nat) (d : α) :
    (l ++ List.replicate k d).getD j d = l.getD j d := by
  simp only [List.getD_eq_getElem?_getD]
  by_cases hj : j < l.length
  · rw [List.getElem?_append_left hj]
  · have hj2 : l.length ≤ j := Nat.le_of_not_lt hj
    rw [List.getElem?_append_right hj2, List.getElem?_eq_none hj2]
    rw [List.getElem?_replicate]
    split <;> rfl

theorem getRegSpillFlagByIdx_set_same (t : GenTree) (f : RegSpillFlags) (i : Nat) :
    (t.SetRegSpillFlagByIdx f i).GetRegSpillFlagByIdx i = f := by
  unfold GenTree.SetRegSpillFlagByIdx GenTree.GetRegSpillFlagByIdx
  simp only [List.getD_eq_getElem?_getD]
  rw [List.getElem?_set_self]
  · rfl
  · simp only [List.length_append, List.length_replicate]
    omega

theorem getRegSpillFlagByIdx_set_other (t : GenTree) (f : RegSpillFlags) (i j : Nat)
    (h : j ≠ i) :
    (t.SetRegSpillFlagByIdx f i).GetRegSpillFlagByIdx j = t.GetRegSpillFlagByIdx j := by
  unfold GenTree.SetRegSpillFlagByIdx GenTree.GetRegSpillFlagByIdx
  simp only []
  rw [List.getD_eq_getElem?_getD, List.getElem?_set_ne (Ne.symm h), ← List.getD_eq_getElem?_getD]
  exact getD_append_replicate _ _ _ _


theorem SameButSpillFlags.attrs {t u : GenTree} (h : SameButSpillFlags t u) (c : Compiler) :
    t.gtTreeID = u.gtTreeID ∧ (∀ i, t.GetRegByIndex i = u.GetRegByIndex i) ∧
    (∀ i, t.GetRegTypeByIndex c i = u.GetRegTypeByIndex c i) ∧
    t.IsMultiRegNode = u.IsMultiRegNode := by
  unfold SameButSpillFlags at h
  refine ⟨?_, ?_, ?_, ?_⟩
  · have := congrArg (fun x : GenTree => x.gtTreeID) h; exact this
  · intro i
    have := congrArg (fun x : GenTree => x.GetRegByIndex i) h; exact this
  · intro i
    have := congrArg (fun x : GenTree => x.GetRegTypeByIndex c i) h; exact this
  · have hk : ∀ x : GenTree,
        ({ x with gtSpillFlags := [] } : GenTree).IsMultiRegNode = x.IsMultiRegNode := by
      intro x; rcases x with ⟨n, _ | m⟩ <;> rfl
    have := congrArg (fun x : GenTree => x.IsMultiRegNode) h
    simp only [hk] at this
    exact this

theorem tmpGetTemp_spec (ty : var_types) (s : CodeGen) :
    (tmpGetTemp ty s).1 ∈ (tmpGetTemp ty s).2.tmpUsed ∧
    (∀ t ∈ s.tmpUsed, t ∈ (tmpGetTemp ty s).2.tmpUsed) ∧
    (tmpGetTemp ty s).2.rsSpillDesc = s.rsSpillDesc ∧
    (tmpGetTemp ty s).2.emitted = s.emitted ∧
    SameGC (tmpGetTemp ty s).2 s := by
  unfold tmpGetTemp
  split
  · exact ⟨List.mem_cons_self _ _, fun t ht => List.mem_cons_of_mem _ ht, rfl, rfl, rfl, rfl⟩
  · exact ⟨List.mem_cons_self _ _, fun t ht => List.mem_cons_of_mem _ ht, rfl, rfl, rfl, rfl⟩

theorem rsSpillTree_spec (c : Compiler) (reg : regNumber) (tree : GenTree) (i : Nat)
    (s : CodeGen) :
    SameButSpillFlags (rsSpillTree c reg tree i s).1 tree ∧
    (∀ j, j ≠ i →
      (rsSpillTree c reg tree i s).1.GetRegSpillFlagByIdx j = tree.GetRegSpillFlagByIdx j) ∧
    SameGC (rsSpillTree c reg tree i s).2 s ∧
    (∃ t, SpillDsc.mk tree.gtTreeID i t ∈ (rsSpillTree c reg tree i s).2.rsSpillDesc ∧
      t ∈ (rsSpillTree c reg tree i s).2.tmpUsed ∧
      (rsSpillTree c reg tree i s).2.emitted = s.emitted ++ [instr.storeTmp t.tdNum reg]) ∧
    (∀ d ∈ s.rsSpillDesc, d ∈ (rsSpillTree c reg tree i s).2.rsSpillDesc) ∧
    (∀ t ∈ s.tmpUsed, t ∈ (rsSpillTree c reg tree i s).2.tmpUsed) := by
  have ht := tmpGetTemp_spec (tree.GetRegTypeByIndex c i) s
  unfold rsSpillTree
  simp only []
  refine ⟨?_, ?_, ht.2.2.2.2, ?_, ?_, ht.2.1⟩
  · split
    · rfl
    · rfl
  · intro j hj
    split
    · exact getRegSpillFlagByIdx_set_other _ _ _ _ hj
    · rfl
  · refine ⟨(tmpGetTemp (tree.GetRegTypeByIndex c i) s).1, List.mem_cons_self _ _, ht.1, ?_⟩
    simp only [CodeGen.emit, ht.2.2.2.1]
  · intro d hd
    simp only [CodeGen.emit, ht.2.2.1]
    exact List.mem_cons_of_mem _ hd

theorem spillMono_refl (s : CodeGen) : SpillMono s s :=
  ⟨Finset.Subset.refl _, Finset.Subset.refl _, fun _ h => h, fun _ h => h, fun _ h => h⟩

theorem spillMono_trans {a b c : CodeGen} (h1 : SpillMono a b) (h2 : SpillMono b c) :
    SpillMono a c :=
  ⟨h2.1.trans h1.1, h2.2.1.trans h1.2.1, fun d hd => h2.2.2.1 d (h1.2.2.1 d hd),
    fun x hx => h2.2.2.2.1 x (h1.2.2.2.1 x hx), fun x hx => h2.2.2.2.2 x (h1.2.2.2.2 x hx)⟩

theorem SpilledToTemp.mono {tree : GenTree} {i : Nat} {s t : CodeGen}
    (h : SpilledToTemp tree i s) (hm : SpillMono s t) : SpilledToTemp tree i t := by
  obtain ⟨h1, x, hx1, hx2, hx3⟩ := h
  refine ⟨fun r hr => ⟨fun hc => (h1 r hr).1 (hm.1 hc), fun hc => (h1 r hr).2 (hm.2.1 hc)⟩,
    x, hm.2.2.1 _ hx1, hm.2.2.2.1 _ hx2, hm.2.2.2.2 _ hx3⟩

theorem spillMono_spill (c : Compiler) (reg : regNumber) (tree : GenTree) (i : Nat)
    (s : CodeGen) :
    SpillMono s (gcMarkRegSetNpt (genRegMask reg) (rsSpillTree c reg tree i s).2) := by
  obtain ⟨_, _, hgc, ⟨t, _, _, hem⟩, hd, hu⟩ := rsSpillTree_spec c reg tree i s
  refine ⟨?_, ?_, hd, hu, ?_⟩
  · simp only [gcMarkRegSetNpt, hgc.1]
    exact Finset.sdiff_subset
  · simp only [gcMarkRegSetNpt, hgc.2]
    exact Finset.sdiff_subset
  · intro x hx
    show x ∈ (rsSpillTree c reg tree i s).2.emitted
    rw [hem]
    exact List.mem_append_left _ hx

theorem spilledToTemp_spill (c : Compiler) (tree orig : GenTree) (i : Nat) (s : CodeGen)
    (hs : SameButSpillFlags tree orig) :
    SpilledToTemp orig i
      (gcMarkRegSetNpt (genRegMask (tree.GetRegByIndex i))
        (rsSpillTree c (tree.GetRegByIndex i) tree i s).2) := by
  obtain ⟨_, _, _, ⟨t, ht1, ht2, hem⟩, _, _⟩ := rsSpillTree_spec c (tree.GetRegByIndex i) tree i s
  have ha := hs.attrs c
  refine ⟨?_, t, ?_, ht2, ?_⟩
  · intro r hr
    rw [← ha.2.1 i] at hr
    exact not_rooted_gcMarkRegSetNpt _ _ r hr
  · rw [← ha.1]; exact ht1
  · show instr.storeTmp t.tdNum (orig.GetRegByIndex i) ∈
      (rsSpillTree c (tree.GetRegByIndex i) tree i s).2.emitted
    rw [hem, ← ha.2.1 i]
    exact List.mem_append_right _ (List.mem_singleton_self _)

theorem genProduceReg_spillReg_step (c : Compiler) (acc : GenTree × CodeGen) (i : Nat) :
    SameButSpillFlags (genProduceReg_spillReg c acc i).1 acc.1 ∧
    (∀ j, j ≠ i → (genProduceReg_spillReg c acc i).1.GetRegSpillFlagByIdx j =
      acc.1.GetRegSpillFlagByIdx j) ∧
    SpillMono acc.2 (genProduceReg_spillReg c acc i).2 := by
  unfold genProduceReg_spillReg
  split
  · obtain ⟨h1, h2, _⟩ := rsSpillTree_spec c (acc.1.GetRegByIndex i) acc.1 i acc.2
    exact ⟨h1, h2, spillMono_spill c _ _ _ _⟩
  · exact ⟨rfl, fun _ _ => rfl, spillMono_refl _⟩

theorem genProduceReg_spillReg_fold_mono (c : Compiler) (l : List Nat) (acc : GenTree × CodeGen) :
    SameButSpillFlags (l.foldl (genProduceReg_spillReg c) acc).1 acc.1 ∧
    (∀ j, j ∉ l → (l.foldl (genProduceReg_spillReg c) acc).1.GetRegSpillFlagByIdx j =
      acc.1.GetRegSpillFlagByIdx j) ∧
    SpillMono acc.2 (l.foldl (genProduceReg_spillReg c) acc).2 := by
  induction l generalizing acc with
  | nil => exact ⟨rfl, fun _ _ => rfl, spillMono_refl _⟩
  | cons x xs ih =>
    obtain ⟨h1, h2, h3⟩ := genProduceReg_spillReg_step c acc x
    obtain ⟨k1, k2, k3⟩ := ih (genProduceReg_spillReg c acc x)
    refine ⟨?_, ?_, spillMono_trans h3 k3⟩
    · unfold SameButSpillFlags at *
      exact k1.trans h1
    · intro j hj
      simp only [List.mem_cons, not_or] at hj
      rw [List.foldl_cons, k2 j hj.2, h2 j hj.1]

theorem genProduceReg_spillReg_fold (c : Compiler) (orig : GenTree) (l : List Nat)
    (hl : l.Nodup) (acc : GenTree × CodeGen) (hs : SameButSpillFlags acc.1 orig) (i : Nat)
    (hi : i ∈ l) (hf : (acc.1.GetRegSpillFlagByIdx i).GTF_SPILL = true) :
    SpilledToTemp orig i (l.foldl (genProduceReg_spillReg c) acc).2 := by
  induction l generalizing acc with
  | nil => cases hi
  | cons x xs ih =>
    rw [List.nodup_cons] at hl
    rw [List.foldl_cons]
    rcases List.mem_cons.mp hi with rfl | hi2
    · have hstep : SpilledToTemp orig i (genProduceReg_spillReg c acc i).2 := by
        unfold genProduceReg_spillReg
        simp only [hf, if_true]
        exact spilledToTemp_spill c acc.1 orig i acc.2 hs
      exact hstep.mono (genProduceReg_spillReg_fold_mono c xs _).2.2
    · obtain ⟨h1, h2, _⟩ := genProduceReg_spillReg_step c acc x
      have hne : i ≠ x := fun h => hl.1 (h ▸ hi2)
      refine ih hl.2 _ ?_ hi2 ?_
      · unfold SameButSpillFlags at *
        exact h1.trans hs
      · rw [h2 i hne]; exact hf
theorem genUpdateLife_tree_cases (c : Compiler) (tree : GenTree) (s : CodeGen) :
    (genUpdateLife c tree s).1 = tree ∨
    (genUpdateLife c tree s).1 = { tree with GTF_SPILL := false } := by
  unfold genUpdateLife
  simp only []
  split_ifs <;> first | (left; rfl) | (right; rfl)

theorem genProduceReg_mark_clearSpill (c : Compiler) (tree : GenTree) (s : CodeGen) :
    genProduceReg_mark c { tree with GTF_SPILL := false } s = genProduceReg_mark c tree s := by
  rcases tree with ⟨n, _ | m⟩ <;> rfl

theorem genProduceReg_tail_eq (c : Compiler) (tree : GenTree) (s : CodeGen) :
    genProduceReg_tail c tree s =
      (genProduceReg_mark c tree (genUpdateLife c tree s).2).map
        (fun s2 => ((genUpdateLife c tree s).1, s2)) := by
  unfold genProduceReg_tail
  rcases genUpdateLife_tree_cases c tree s with h | h
  · rw [h]
  · rw [h, genProduceReg_mark_clearSpill]

theorem emitted_gcMarkRegPtrVal (reg : regNumber) (t : var_types) (s : CodeGen) :
    (gcMarkRegPtrVal reg t s).emitted = s.emitted := (gcMarkRegPtrVal_frame reg t s).2.2.2

theorem genProduceReg_mark_isSome (c : Compiler) (tree : GenTree) (s : CodeGen)
    (h : tree.IsCopyOrReload = false) :
    ∃ s2, genProduceReg_mark c tree s = some s2 ∧ s2.emitted = s.emitted := by
  have hc : tree.IsCopyOrReloadOfMultiRegCall = false := by
    unfold GenTree.IsCopyOrReloadOfMultiRegCall; simp [h]
  unfold genProduceReg_mark
  simp only [hc, Bool.false_eq_true, if_false]
  split_ifs
  · refine ⟨_, rfl, ?_⟩
    exact foldl_preserves (fun t : CodeGen => t.emitted = s.emitted) _
      (fun a b ha => (emitted_gcMarkRegPtrVal _ _ a).trans ha) _ _ rfl
  · refine ⟨_, rfl, ?_⟩
    apply foldl_preserves (fun t : CodeGen => t.emitted = s.emitted) _ _ _ _ rfl
    intro a b ha
    unfold genProduceReg_markField
    simp only []
    split_ifs
    · exact (emitted_gcMarkRegPtrVal _ _ a).trans ha
    · exact ha
    · exact ha
  · exact ⟨_, rfl, emitted_gcMarkRegPtrVal _ _ s⟩
  · exact ⟨_, rfl, rfl⟩
  · exact ⟨_, rfl, rfl⟩

theorem genProduceReg_mark_scalarLocal (c : Compiler) (tree : GenTree) (s : CodeGen)
    (hl : tree.OperIsScalarLocal = true) (hm : tree.IsMultiRegLclVar = false) (q : Nat)
    (hq : tree.GetRegNum = .REG q) (hd : tree.GTF_VAR_DEATH = false) :
    genProduceReg_mark c tree s = some (gcMarkRegPtrVal (.REG q) tree.gtType s) := by
  have hcall : tree.gtOper ≠ .GT_CALL := by
    intro hr; simp [GenTree.OperIsScalarLocal, hr] at hl
  have hcopy : tree.gtOper ≠ .GT_COPY := by
    intro hr; simp [GenTree.OperIsScalarLocal, hr] at hl
  have hrel : tree.gtOper ≠ .GT_RELOAD := by
    intro hr; simp [GenTree.OperIsScalarLocal, hr] at hl
  unfold genProduceReg_mark GenTree.gtHasReg
  simp [GenTree.IsMultiRegCall, GenTree.IsCopyOrReloadOfMultiRegCall, GenTree.IsCopyOrReload,
    hcall, hcopy, hrel, hm, hq, hd]

theorem emitted_genUpdateLife_var (c : Compiler) (v : Nat) (b d n : Bool) (r : regNumber)
    (s : CodeGen) : (genUpdateLife_var c v b d n r s).emitted = s.emitted := by
  unfold genUpdateLife_var genUpdateRegLife
  simp only []
  split_ifs <;> rfl

theorem emitted_genUpdateLife (c : Compiler) (tree : GenTree) (s : CodeGen)
    (h : tree.GTF_VAR_DEF = true ∨ tree.IsMultiRegLclVar = true) :
    (genUpdateLife c tree s).2.emitted = s.emitted := by
  have hsv : ∀ t, tree.GTF_VAR_DEF = true → (genSpillVar c tree t).2.emitted = t.emitted := by
    intro t hdef
    unfold genSpillVar
    simp only [hdef, Bool.not_true, Bool.false_and, Bool.false_eq_true, if_false]
    split_ifs <;> rfl
  unfold genUpdateLife
  simp only []
  split
  · rename_i hsc
    have hm : tree.IsMultiRegLclVar = false := by
      simp only [Bool.and_eq_true, Bool.not_eq_true'] at hsc
      exact hsc.2
    have hdef : tree.GTF_VAR_DEF = true := by
      rcases h with h | h
      · exact h
      · rw [hm] at h; cases h
    split
    · rfl
    · split
      · rw [hsv _ hdef]
        split
        · exact emitted_genUpdateLife_var _ _ _ _ _ _ _
        · rfl
      · split
        · exact emitted_genUpdateLife_var _ _ _ _ _ _ _
        · rfl
  · split
    · apply foldl_preserves (fun t : CodeGen => t.emitted = s.emitted) _ _ _ _ rfl
      intro a b ha
      unfold genUpdateLife_field
      simp only []
      split
      · exact (emitted_genUpdateLife_var _ _ _ _ _ _ _).trans ha
      · exact ha
    · rfl

theorem genProduceReg_spillField_fold (c : Compiler) (tree : GenTree) (l : List Nat)
    (s : CodeGen) :
    (∀ x ∈ s.emitted, x ∈ (l.foldl (genProduceReg_spillField c tree) s).emitted) ∧
    (∀ i ∈ l, (tree.GetRegSpillFlagByIdx i).GTF_SPILL = true →
      (tree.GTF_VAR_DEF = true ∨
        (c.lvaGetDesc ((c.lvaGetDesc tree.gtLclNum).lvFieldLclStart + i)).IsAlwaysAliveInMemory
          = false) →
      instr.storeLcl ((c.lvaGetDesc tree.gtLclNum).lvFieldLclStart + i) (tree.GetRegNumByIdx i) ∈
        (l.foldl (genProduceReg_spillField c tree) s).emitted) := by
  have hstep : ∀ (t : CodeGen) (i : Nat), ∀ x ∈ t.emitted,
      x ∈ (genProduceReg_spillField c tree t i).emitted := by
    intro t i x hx
    unfold genProduceReg_spillField genSpillLocal
    simp only []
    split_ifs
    · exact List.mem_append_left _ hx
    · exact hx
    · exact hx
  induction l generalizing s with
  | nil => exact ⟨fun _ h => h, fun i hi => by cases hi⟩
  | cons y ys ih =>
    obtain ⟨k1, k2⟩ := ih (genProduceReg_spillField c tree s y)
    refine ⟨fun x hx => k1 x (hstep s y x hx), ?_⟩
    intro i hi hf hc
    rcases List.mem_cons.mp hi with rfl | hi2
    · apply k1
      unfold genProduceReg_spillField genSpillLocal
      have hc2 : (tree.GTF_VAR_DEF ||
          !(c.lvaGetDesc ((c.lvaGetDesc tree.gtLclNum).lvFieldLclStart + i)).IsAlwaysAliveInMemory)
          = true := by
        rcases hc with hc | hc <;> simp [hc]
      simp only [hf, if_true, hc2]
      exact List.mem_append_right _ (List.mem_singleton_self _)
    · exact k2 i hi2 hf hc

theorem genProduceReg_markField_other (c : Compiler) (tree : GenTree) (q n : Nat) (t : CodeGen)
    (hne : tree.IsLastUse n = false → tree.GetRegNumByIdx n ≠ .REG q) :
    (q ∈ (genProduceReg_markField c tree t n).gcRegGCrefSetCur ↔ q ∈ t.gcRegGCrefSetCur) ∧
    (q ∈ (genProduceReg_markField c tree t n).gcRegByrefSetCur ↔ q ∈ t.gcRegByrefSetCur) := by
  unfold genProduceReg_markField
  cases hl : tree.IsLastUse n
  · simp only [Bool.not_false, if_true]
    cases hr : tree.GetRegNumByIdx n with
    | REG r =>
      have hqr : q ≠ r := by
        intro h; apply hne hl; rw [hr, h]
      simp only [ne_eq, reduceCtorEq, not_false_eq_true, if_true]
      exact gcMarkRegPtrVal_other r q hqr _ t
    | REG_STK =>
      simp only [ne_eq, reduceCtorEq, not_false_eq_true, if_true]
      cases (c.lvaGetDesc ((c.lvaGetDesc tree.gtLclNum).lvFieldLclStart + n)).lvType <;>
        simp [gcMarkRegPtrVal, gcMarkRegSetGCref, gcMarkRegSetByref,
          gcMarkRegSetNpt, genRegMask, RBM_NONE]
    | REG_NA =>
      simp
  · simp

theorem genProduceReg_markField_self (c : Compiler) (tree : GenTree) (i q : Nat) (t : CodeGen)
    (hlast : tree.IsLastUse i = false) (hreg : tree.GetRegNumByIdx i = .REG q) :
    (q ∈ (genProduceReg_markField c tree t i).gcRegGCrefSetCur ↔
      (c.lvaGetDesc ((c.lvaGetDesc tree.gtLclNum).lvFieldLclStart + i)).lvType = .TYP_REF) ∧
    (q ∈ (genProduceReg_markField c tree t i).gcRegByrefSetCur ↔
      (c.lvaGetDesc ((c.lvaGetDesc tree.gtLclNum).lvFieldLclStart + i)).lvType = .TYP_BYREF) := by
  unfold genProduceReg_markField
  simp only [hlast, Bool.not_false, if_true, hreg, ne_eq, reduceCtorEq, not_false_eq_true]
  exact gcMarkRegPtrVal_kind q _ _

theorem genProduceReg_markField_fold (c : Compiler) (tree : GenTree) (i q : Nat)
    (hlast : tree.IsLastUse i = false) (hreg : tree.GetRegNumByIdx i = .REG q) :
    ∀ (n : Nat) (s : CodeGen), i < n →
      (∀ j, i < j → j < n → tree.IsLastUse j = false → tree.GetRegNumByIdx j ≠ .REG q) →
      (q ∈ ((List.range n).foldl (genProduceReg_markField c tree) s).gcRegGCrefSetCur ↔
        (c.lvaGetDesc ((c.lvaGetDesc tree.gtLclNum).lvFieldLclStart + i)).lvType = .TYP_REF) ∧
      (q ∈ ((List.range n).foldl (genProduceReg_markField c tree) s).gcRegByrefSetCur ↔
        (c.lvaGetDesc ((c.lvaGetDesc tree.gtLclNum).lvFieldLclStart + i)).lvType = .TYP_BYREF) := by
  intro n
  induction n with
  | zero => intro s hi; cases hi
  | succ n ih =>
    intro s hi hd
    rw [List.range_succ, List.foldl_append, List.foldl_cons, List.foldl_nil]
    rcases Nat.lt_succ_iff_lt_or_eq.mp hi with hlt | heq
    · have hprev := ih s hlt (fun j h1 h2 => hd j h1 (Nat.lt_succ_of_lt h2))
      obtain ⟨g1, g2⟩ := genProduceReg_markField_other c tree q n
        ((List.range n).foldl (genProduceReg_markField c tree) s)
        (fun hl => hd n hlt (Nat.lt_succ_self n) hl)
      exact ⟨g1.trans hprev.1, g2.trans hprev.2⟩
    · subst heq
      exact genProduceReg_markField_self c tree i q _ hlast hreg

theorem genProduceReg_mark_multiRegLcl (c : Compiler) (tree : GenTree) (s : CodeGen)
    (hc : genIsRegCandidateLocal c tree = false) (hm : tree.IsMultiRegLclVar = true)
    (i q : Nat) (hi : i < (c.lvaGetDesc tree.gtLclNum).lvFieldCnt)
    (hreg : tree.GetRegNumByIdx i = .REG q) :
    genProduceReg_mark c tree s =
      some ((List.range (c.lvaGetDesc tree.gtLclNum).lvFieldCnt).foldl
        (genProduceReg_markField c tree) s) := by
  have hl : tree.OperIsScalarLocal = true := by
    unfold GenTree.IsMultiRegLclVar at hm
    simp only [Bool.and_eq_true] at hm
    exact hm.1
  have hcall : tree.gtOper ≠ .GT_CALL := by
    intro hr; simp [GenTree.OperIsScalarLocal, hr] at hl
  have hcopy : tree.gtOper ≠ .GT_COPY := by
    intro hr; simp [GenTree.OperIsScalarLocal, hr] at hl
  have hrel : tree.gtOper ≠ .GT_RELOAD := by
    intro hr; simp [GenTree.OperIsScalarLocal, hr] at hl
  have hhas : tree.gtHasReg c = true := by
    unfold GenTree.gtHasReg
    simp only [GenTree.IsMultiRegCall, GenTree.IsCopyOrReloadOfMultiRegCall,
      GenTree.IsCopyOrReload, hcall, hcopy, hrel, hm, decide_False, Bool.false_and,
      Bool.or_self, Bool.false_eq_true, if_false, if_true, List.any_eq_true]
    exact ⟨i, List.mem_range.mpr hi, by simp [hreg]⟩
  unfold genProduceReg_mark
  simp only [hhas, hc, if_true, Bool.not_false, Bool.true_or, GenTree.IsMultiRegCall,
    GenTree.IsCopyOrReloadOfMultiRegCall, GenTree.IsCopyOrReload, hcall, hcopy, hrel, hm,
    decide_False, Bool.false_and, Bool.or_self, Bool.false_eq_true, if_false]

theorem genUpdateLife_multiRegLcl_tree (c : Compiler) (tree : GenTree) (s : CodeGen)
    (hm : tree.IsMultiRegLclVar = true) : (genUpdateLife c tree s).1 = tree := by
  unfold genUpdateLife
  simp only [hm, Bool.not_true, Bool.and_false, Bool.false_eq_true, if_false, if_true]

/-! C3: `genProduceReg` on a node flagged `GTF_SPILL` -/

/-- C3, as stated, fails for the definition of a register-candidate local.
Write-thru definition: local 0 is an always-alive `TYP_REF` register candidate and
the node is its definition in register 3 flagged
`GTF_VAR_DEF | GTF_SPILL | GTF_SPILLED`; `genProduceReg` stores the register to
the home slot and then marks register 3 as holding an exact reference, so the
register flagged for spill is in the ref set after the call.  The same holds for
the spilled definition of an ordinary local (`GTF_VAR_DEF | GTF_SPILL`): the local
moves to the stack, and register 3 is marked all the same. -/
theorem C3_genProduceReg_spill_counterexample :
    (genProduceReg (exCompiler (fun _ => exLcl .TYP_REF 0 true))
        { exNode 1 .GT_STORE_LCL_VAR .TYP_REF (.REG 3) 0 with
          GTF_SPILL := true, GTF_SPILLED := true, GTF_VAR_DEF := true }
        (exState ∅ ∅ ∅ (fun _ => .REG_STK))).map
      (fun r => (r.2.emitted, r.2.gcRegGCrefSetCur, r.2.lvRegNum 0)) =
      some ([instr.storeLcl 0 (.REG 3)], {3}, .REG 3) ∧
    (genProduceReg (exCompiler (fun _ => exLcl .TYP_REF 0 false))
        { exNode 1 .GT_STORE_LCL_VAR .TYP_REF (.REG 3) 0 with
          GTF_SPILL := true, GTF_VAR_DEF := true }
        (exState ∅ ∅ ∅ (fun _ => .REG_STK))).map
      (fun r => (r.2.emitted, r.2.gcRegGCrefSetCur, r.2.lvRegNum 0)) =
      some ([instr.storeLcl 0 (.REG 3)], {3}, .REG_STK) := by
  constructor <;> decide

/-- C3 (amended): for a node flagged `GTF_SPILL` that is not a copy/reload,
`genProduceReg` returns, and
(1) for a non-local temporary the node ends with `GTF_SPILLED` set and `GTF_SPILL`
clear, and every result register flagged for spill (the node register of a
single-register node) has been stored to a leased spill temp and is in neither GC
register set;
(2) for the definition of a single-register register-candidate local exactly one
store of the register to the home slot is emitted, and unless the node carries
`GTF_VAR_DEATH` its register is afterwards marked under the kind of the node's
type (write-thru definition or not), so the register of a GC-typed definition
stays in its GC register set;
(3) for a multi-register local every field flagged for spill is stored to its home
slot when the node is a definition or the field is not always-alive, and the
register of every field that is not at its last use is afterwards marked under the
kind of the field's type, flagged for spill or not (no later such field sharing
the register). -/
theorem C3_genProduceReg_spill (c : Compiler) (tree : GenTree) (s : CodeGen)
    (hSpill : tree.GTF_SPILL = true) (hWrap : tree.IsCopyOrReload = false) :
    ∃ r, genProduceReg c tree s = some r ∧
      (genIsRegCandidateLocal c tree = false → tree.IsMultiRegLclVar = false →
        r.1.GTF_SPILLED = true ∧ r.1.GTF_SPILL = false ∧
        (tree.IsMultiRegNode = false → SpilledToTemp tree 0 r.2) ∧
        (tree.IsMultiRegNode = true → ∀ i, i < tree.GetMultiRegCount c →
          (tree.GetRegSpillFlagByIdx i).GTF_SPILL = true → SpilledToTemp tree i r.2)) ∧
      (genIsRegCandidateLocal c tree = true → tree.IsMultiRegLclVar = false →
        tree.GTF_VAR_DEF = true →
        r.2.emitted = s.emitted ++ [instr.storeLcl tree.gtLclNum tree.GetRegNum] ∧
        (tree.GTF_VAR_DEATH = false →
          ∀ q, tree.GetRegNum = .REG q →
            (q ∈ r.2.gcRegGCrefSetCur ↔ tree.gtType = .TYP_REF) ∧
            (q ∈ r.2.gcRegByrefSetCur ↔ tree.gtType = .TYP_BYREF))) ∧
      (genIsRegCandidateLocal c tree = false → tree.IsMultiRegLclVar = true →
        ∀ i, i < (c.lvaGetDesc tree.gtLclNum).lvFieldCnt →
          (tree.GetRegSpillFlagByIdx i).GTF_SPILL = true →
          (tree.GTF_VAR_DEF = true ∨
            (c.lvaGetDesc ((c.lvaGetDesc tree.gtLclNum).lvFieldLclStart + i)).IsAlwaysAliveInMemory
              = false) →
          instr.storeLcl ((c.lvaGetDesc tree.gtLclNum).lvFieldLclStart + i)
            (tree.GetRegNumByIdx i) ∈ r.2.emitted) ∧
      (genIsRegCandidateLocal c tree = false → tree.IsMultiRegLclVar = true →
        ∀ i q, i < (c.lvaGetDesc tree.gtLclNum).lvFieldCnt →
          tree.IsLastUse i = false → tree.GetRegNumByIdx i = .REG q →
          (∀ j, i < j → j < (c.lvaGetDesc tree.gtLclNum).lvFieldCnt →
            tree.IsLastUse j = false → tree.GetRegNumByIdx j ≠ .REG q) →
          (q ∈ r.2.gcRegGCrefSetCur ↔
            (c.lvaGetDesc ((c.lvaGetDesc tree.gtLclNum).lvFieldLclStart + i)).lvType
              = .TYP_REF) ∧
          (q ∈ r.2.gcRegByrefSetCur ↔
            (c.lvaGetDesc ((c.lvaGetDesc tree.gtLclNum).lvFieldLclStart + i)).lvType
              = .TYP_BYREF)) := by
  by_cases hc : genIsRegCandidateLocal c tree = true
  · -- register-candidate local
    obtain ⟨s2, hs2, hem⟩ := genProduceReg_mark_isSome c tree
      (genUpdateLife c tree (genSpillLocal c tree.gtLclNum (c.lvaGetDesc tree.gtLclNum).lvType
        tree tree.GetRegNum s)).2 hWrap
    have hres : genProduceReg c tree s = some
        ((genUpdateLife c tree (genSpillLocal c tree.gtLclNum (c.lvaGetDesc tree.gtLclNum).lvType
          tree tree.GetRegNum s)).1, s2) := by
      unfold genProduceReg
      simp only [hSpill, hWrap, hc, if_true, Bool.false_eq_true, if_false]
      rw [genProduceReg_tail_eq, hs2]
      rfl
    refine ⟨_, hres, ?_, ?_, ?_, ?_⟩
    · intro h; rw [hc] at h; cases h
    · intro _ hm hdef
      have hl : tree.OperIsScalarLocal = true := by
        unfold genIsRegCandidateLocal at hc
        simp only [Bool.and_eq_true] at hc
        exact hc.1
      constructor
      · show s2.emitted = _
        rw [hem, emitted_genUpdateLife c tree _ (Or.inl hdef)]
        unfold genSpillLocal
        simp [hdef, CodeGen.emit]
      · intro hd q hq
        rw [genProduceReg_mark_scalarLocal c tree _ hl hm q hq hd] at hs2
        cases hs2
        exact gcMarkRegPtrVal_kind q tree.gtType _
    · intro h; rw [hc] at h; cases h
    · intro h; rw [hc] at h; cases h
  · have hc' : genIsRegCandidateLocal c tree = false := by
      cases h : genIsRegCandidateLocal c tree
      · rfl
      · exact absurd h hc
    by_cases hm : tree.IsMultiRegLclVar = true
    · -- multi-register local
      obtain ⟨s2, hs2, hem⟩ := genProduceReg_mark_isSome c tree
        (genUpdateLife c tree ((List.range (c.lvaGetDesc tree.gtLclNum).lvFieldCnt).foldl
          (genProduceReg_spillField c tree) s)).2 hWrap
      have hres : genProduceReg c tree s = some
          ((genUpdateLife c tree ((List.range (c.lvaGetDesc tree.gtLclNum).lvFieldCnt).foldl
            (genProduceReg_spillField c tree) s)).1, s2) := by
        unfold genProduceReg
        simp only [hSpill, hWrap, hc', hm, if_true, Bool.false_eq_true, if_false]
        rw [genProduceReg_tail_eq, hs2]
        rfl
      refine ⟨_, hres, ?_, ?_, ?_, ?_⟩
      · intro _ h; rw [hm] at h; cases h
      · intro h; rw [hc'] at h; cases h
      · intro _ _ i hi hf hcond
        show _ ∈ s2.emitted
        rw [hem, emitted_genUpdateLife c tree _ (Or.inr hm)]
        exact (genProduceReg_spillField_fold c tree _ s).2 i (List.mem_range.mpr hi) hf hcond
      · intro _ _ i q hi hlast hreg hdist
        rw [genProduceReg_mark_multiRegLcl c tree _ hc' hm i q hi hreg] at hs2
        cases hs2
        exact genProduceReg_markField_fold c tree i q hlast hreg _ _ hi hdist
    · -- non-local temporary
      have hm' : tree.IsMultiRegLclVar = false := by
        cases h : tree.IsMultiRegLclVar
        · rfl
        · exact absurd h hm
      have hres : genProduceReg c tree s = some
          ({ (genProduceReg_spillTemp c tree s).1 with GTF_SPILLED := true, GTF_SPILL := false },
            (genProduceReg_spillTemp c tree s).2) := by
        unfold genProduceReg
        simp only [hSpill, hWrap, hc', hm', if_true, Bool.false_eq_true, if_false]
      refine ⟨_, hres, ?_, ?_, ?_, ?_⟩
      · intro _ _
        refine ⟨rfl, rfl, ?_, ?_⟩
        · intro hn
          show SpilledToTemp tree 0 (genProduceReg_spillTemp c tree s).2
          unfold genProduceReg_spillTemp
          simp only [hn, Bool.false_eq_true, if_false]
          exact spilledToTemp_spill c tree tree 0 s rfl
        · intro hn i hi hf
          show SpilledToTemp tree i (genProduceReg_spillTemp c tree s).2
          unfold genProduceReg_spillTemp
          simp only [hn, if_true]
          exact genProduceReg_spillReg_fold c tree _ (List.nodup_range _) (tree, s) rfl i
            (List.mem_range.mpr hi) hf
      · intro h; rw [hc'] at h; cases h
      · intro _ h; rw [hm'] at h; cases h
      · intro _ h; rw [hm'] at h; cases h

/-- C3 (amended) at a concrete input: a single-register `TYP_REF` temporary in
register 4 (rooted) flagged `GTF_SPILL` is stored to a leased temp and register 4
leaves the ref set. -/
theorem C3_genProduceReg_spill_witness :
    4 ∈ (exState {4} ∅ ∅ (fun _ => .REG_STK)).gcRegGCrefSetCur ∧
    ∃ r, genProduceReg (exCompiler (fun _ => exLcl .TYP_REF 0 false))
        { exNode 9 .GT_ADD .TYP_REF (.REG 4) 0 with GTF_SPILL := true }
        (exState {4} ∅ ∅ (fun _ => .REG_STK)) = some r ∧
      r.1.GTF_SPILLED = true ∧ 4 ∉ r.2.gcRegGCrefSetCur := by
  refine ⟨by decide, ?_⟩
  obtain ⟨r, hr, h1, _, _, _⟩ := C3_genProduceReg_spill (exCompiler (fun _ => exLcl .TYP_REF 0 false))
    { exNode 9 .GT_ADD .TYP_REF (.REG 4) 0 with GTF_SPILL := true }
    (exState {4} ∅ ∅ (fun _ => .REG_STK)) rfl rfl
  exact ⟨r, hr, (h1 rfl rfl).1, (((h1 rfl rfl).2.2.1 rfl).1 4 (by decide)).1⟩

/-! Block entry: what the seeding computes -/

theorem mem_VarSetOps_Iter (S : VARSET_TP) (i : Nat) : i ∈ VarSetOps_Iter S ↔ i ∈ S := by
  unfold VarSetOps_Iter
  simp only [List.mem_filter, List.mem_range, decide_eq_true_eq]
  constructor
  · exact fun h => h.2
  · intro h
    refine ⟨?_, h⟩
    have : id i ≤ S.sup id := Finset.le_sup h
    exact Nat.lt_succ_of_le this

theorem nodup_VarSetOps_Iter (S : VARSET_TP) : (VarSetOps_Iter S).Nodup :=
  (List.nodup_range _).filter _

/-- A property kept by every step taken on an element of the list is kept by the
left fold. -/
theorem foldl_preserves_mem {α β : Type} (P : α → Prop) (f : α → β → α) (l : List β)
    (hf : ∀ a b, b ∈ l → P a → P (f a b)) (a : α) (ha : P a) : P (l.foldl f a) := by
  induction l generalizing a with
  | nil => exact ha
  | cons x xs ih =>
    exact ih (fun a b hb => hf a b (List.mem_cons_of_mem _ hb)) (f a x)
      (hf a x (List.mem_cons_self _ _) ha)

theorem lvRegMask_eq_maskOf (s : CodeGen) (v : Nat) : s.lvRegMask v = maskOf s.lvRegNum v := rfl

theorem mem_maskOf_inReg {L : Nat → regNumber} {v r : Nat} (h : r ∈ maskOf L v) :
    L v ≠ regNumber.REG_STK := by
  unfold maskOf at h
  split at h
  · assumption
  · simp [RBM_NONE] at h

theorem lvRegNum_genUpdateLifeSet_dead (c : Compiler) (t : CodeGen) (i : Nat) :
    (genUpdateLifeSet_dead c t i).lvRegNum = t.lvRegNum := by
  unfold genUpdateLifeSet_dead genUpdateRegLife
  simp only []
  split_ifs <;> rfl

theorem lvRegNum_genUpdateLifeSet_born (c : Compiler) (t : CodeGen) (i : Nat) :
    (genUpdateLifeSet_born c t i).lvRegNum = t.lvRegNum := by
  unfold genUpdateLifeSet_born genUpdateRegLife
  simp only []
  split
  · split <;> split_ifs <;> rfl
  · split_ifs <;> rfl

theorem lvRegNum_genUpdateLifeSet (c : Compiler) (newLife : VARSET_TP) (t : CodeGen) :
    (genUpdateLifeSet c newLife t).lvRegNum = t.lvRegNum := by
  unfold genUpdateLifeSet
  simp only []
  have h1 := foldl_preserves (fun x : CodeGen => x.lvRegNum = t.lvRegNum) (genUpdateLifeSet_dead c)
    (fun a b ha => (lvRegNum_genUpdateLifeSet_dead c a b).trans ha)
    (VarSetOps_Iter (t.compCurLife \ newLife)) { t with compCurLife := newLife } rfl
  exact foldl_preserves (fun x : CodeGen => x.lvRegNum = t.lvRegNum) (genUpdateLifeSet_born c)
    (fun a b ha => (lvRegNum_genUpdateLifeSet_born c a b).trans ha) _ _ h1

theorem lvRegNum_genCodeForBBlist_resetState (c : Compiler) (block : BasicBlock) (s : CodeGen) :
    (genCodeForBBlist_resetState c block s).lvRegNum =
      c.recordVarLocationsAtStartOfBB block.bbNum s.lvRegNum := by
  unfold genCodeForBBlist_resetState
  simp only []
  rw [lvRegNum_genUpdateLifeSet]
  rfl

theorem lvRegNum_genCodeForBBlist_seedStep (c : Compiler) (a : SeedState) (i : Nat) :
    (genCodeForBBlist_seedStep c a i).cg.lvRegNum = a.cg.lvRegNum := by
  unfold genCodeForBBlist_seedStep
  simp only []
  split_ifs <;> rfl

theorem lvRegNum_seedFold (c : Compiler) (l : List Nat) (a : SeedState) :
    (l.foldl (genCodeForBBlist_seedStep c) a).cg.lvRegNum = a.cg.lvRegNum :=
  foldl_preserves (fun x : SeedState => x.cg.lvRegNum = a.cg.lvRegNum) _
    (fun x i hx => (lvRegNum_genCodeForBBlist_seedStep c x i).trans hx) l a rfl

theorem lvRegNum_genCodeForBBlist_blockEntry (c : Compiler) (block : BasicBlock) (s : CodeGen) :
    (genCodeForBBlist_blockEntry c block s).lvRegNum =
      c.recordVarLocationsAtStartOfBB block.bbNum s.lvRegNum := by
  have h : (genCodeForBBlist_installMasks
      (genCodeForBBlist_seedLoop c block (genCodeForBBlist_resetState c block s))).lvRegNum =
      c.recordVarLocationsAtStartOfBB block.bbNum s.lvRegNum := by
    show (genCodeForBBlist_seedLoop c block (genCodeForBBlist_resetState c block s)).cg.lvRegNum = _
    unfold genCodeForBBlist_seedLoop
    rw [lvRegNum_seedFold, lvRegNum_genCodeForBBlist_resetState]
  unfold genCodeForBBlist_blockEntry
  simp only []
  split_ifs <;> exact h

theorem seedStep_masks (c : Compiler) (a : SeedState) (i : Nat) (r : Nat) :
    (r ∈ (genCodeForBBlist_seedStep c a i).newLiveRegSet ↔
      r ∈ a.newLiveRegSet ∨ r ∈ maskOf a.cg.lvRegNum (c.lvaTrackedToVarNum i)) ∧
    (r ∈ (genCodeForBBlist_seedStep c a i).newRegGCrefSet ↔
      r ∈ a.newRegGCrefSet ∨
        ((c.lvaGetDescByTrackedIndex i).lvType = .TYP_REF ∧
          r ∈ maskOf a.cg.lvRegNum (c.lvaTrackedToVarNum i))) ∧
    (r ∈ (genCodeForBBlist_seedStep c a i).newRegByrefSet ↔
      r ∈ a.newRegByrefSet ∨
        ((c.lvaGetDescByTrackedIndex i).lvType = .TYP_BYREF ∧
          r ∈ maskOf a.cg.lvRegNum (c.lvaTrackedToVarNum i))) := by
  by_cases hreg : a.cg.lvRegNum (c.lvaTrackedToVarNum i) = regNumber.REG_STK
  · have hm : maskOf a.cg.lvRegNum (c.lvaTrackedToVarNum i) = ∅ := by
      unfold maskOf; simp [hreg, RBM_NONE]
    have hin : a.cg.lvIsInReg (c.lvaTrackedToVarNum i) = false := by
      simp [CodeGen.lvIsInReg, hreg]
    unfold genCodeForBBlist_seedStep
    simp only [hin, hm, Bool.false_eq_true, if_false]
    split_ifs <;> simp
  · have hm : a.cg.lvRegMask (c.lvaTrackedToVarNum i) =
        maskOf a.cg.lvRegNum (c.lvaTrackedToVarNum i) := rfl
    have hin : a.cg.lvIsInReg (c.lvaTrackedToVarNum i) = true := by
      simp [CodeGen.lvIsInReg, hreg]
    unfold genCodeForBBlist_seedStep
    simp only [hin, hm, if_true]
    by_cases h1 : (c.lvaGetDescByTrackedIndex i).lvType = .TYP_REF
    · split_ifs <;> simp [h1]
    · by_cases h2 : (c.lvaGetDescByTrackedIndex i).lvType = .TYP_BYREF
      · split_ifs <;> simp [h1, h2]
      · split_ifs <;> simp [h1, h2]

theorem seedFold_masks (c : Compiler) (l : List Nat) (a : SeedState) (r : Nat) :
    (r ∈ (l.foldl (genCodeForBBlist_seedStep c) a).newLiveRegSet ↔
      r ∈ a.newLiveRegSet ∨ ∃ i ∈ l, r ∈ maskOf a.cg.lvRegNum (c.lvaTrackedToVarNum i)) ∧
    (r ∈ (l.foldl (genCodeForBBlist_seedStep c) a).newRegGCrefSet ↔
      r ∈ a.newRegGCrefSet ∨ ∃ i ∈ l, (c.lvaGetDescByTrackedIndex i).lvType = .TYP_REF ∧
          r ∈ maskOf a.cg.lvRegNum (c.lvaTrackedToVarNum i)) ∧
    (r ∈ (l.foldl (genCodeForBBlist_seedStep c) a).newRegByrefSet ↔
      r ∈ a.newRegByrefSet ∨ ∃ i ∈ l, (c.lvaGetDescByTrackedIndex i).lvType = .TYP_BYREF ∧
          r ∈ maskOf a.cg.lvRegNum (c.lvaTrackedToVarNum i)) := by
  induction l generalizing a with
  | nil => simp
  | cons x xs ih =>
    obtain ⟨h1, h2, h3⟩ := ih (genCodeForBBlist_seedStep c a x)
    obtain ⟨k1, k2, k3⟩ := seedStep_masks c a x r
    rw [lvRegNum_genCodeForBBlist_seedStep] at h1 h2 h3
    simp only [List.foldl_cons, List.mem_cons, exists_eq_or_imp]
    refine ⟨h1.trans ?_, h2.trans ?_, h3.trans ?_⟩
    · rw [k1, or_assoc]
    · rw [k2, or_assoc]
    · rw [k3, or_assoc]

theorem GCOwned.of_subset {c : Compiler} {L : Nat → regNumber} {live : VARSET_TP}
    {t u : CodeGen} (h : GCOwned c L live t) (h1 : u.gcRegGCrefSetCur ⊆ t.gcRegGCrefSetCur)
    (h2 : u.gcRegByrefSetCur ⊆ t.gcRegByrefSetCur) : GCOwned c L live u :=
  ⟨fun r hr => h.1 r (h1 hr), fun r hr => h.2 r (h2 hr)⟩

theorem gcOwned_genUpdateLifeSet_dead (c : Compiler) (L : Nat → regNumber) (live : VARSET_TP)
    (t : CodeGen) (i : Nat) (h : GCOwned c L live t) :
    GCOwned c L live (genUpdateLifeSet_dead c t i) := by
  apply h.of_subset
  · unfold genUpdateLifeSet_dead genUpdateRegLife gcMarkRegSetNpt
    simp only []
    split_ifs <;> first | exact Finset.Subset.refl _ | exact Finset.sdiff_subset
  · unfold genUpdateLifeSet_dead genUpdateRegLife gcMarkRegSetNpt
    simp only []
    split_ifs <;> first | exact Finset.Subset.refl _ | exact Finset.sdiff_subset

theorem gcOwned_genUpdateLifeSet_born (c : Compiler) (live : VARSET_TP)
    (t : CodeGen) (i : Nat) (hi : i ∈ live) (h : GCOwned c t.lvRegNum live t) :
    GCOwned c t.lvRegNum live (genUpdateLifeSet_born c t i) := by
  unfold genUpdateLifeSet_born
  simp only []
  split
  · have hframe : ∀ x : CodeGen, x.lvRegNum = t.lvRegNum →
        x.gcRegGCrefSetCur = t.gcRegGCrefSetCur → x.gcRegByrefSetCur = t.gcRegByrefSetCur →
        GCOwned c t.lvRegNum live
          (match (c.lvaGetDesc (c.lvaTrackedToVarNum i)).lvType with
           | .TYP_REF => gcMarkRegSetGCref (x.lvRegMask (c.lvaTrackedToVarNum i)) x
           | .TYP_BYREF => gcMarkRegSetByref (x.lvRegMask (c.lvaTrackedToVarNum i)) x
           | _ => x) := by
      intro x hx hg hb
      have hmask : x.lvRegMask (c.lvaTrackedToVarNum i) =
          maskOf t.lvRegNum (c.lvaTrackedToVarNum i) := by
        rw [lvRegMask_eq_maskOf, hx]
      split
      · rename_i hty
        refine ⟨?_, ?_⟩
        · intro r hr
          simp only [gcMarkRegSetGCref, Finset.mem_union, hg, hmask] at hr
          rcases hr with hr | hr
          · exact h.1 r hr
          · exact ⟨i, hi, hty, hr⟩
        · intro r hr
          simp only [gcMarkRegSetGCref, Finset.mem_sdiff, hb] at hr
          exact h.2 r hr.1
      · rename_i hty
        refine ⟨?_, ?_⟩
        · intro r hr
          simp only [gcMarkRegSetByref, Finset.mem_sdiff, hg] at hr
          exact h.1 r hr.1
        · intro r hr
          simp only [gcMarkRegSetByref, Finset.mem_union, hb, hmask] at hr
          rcases hr with hr | hr
          · exact h.2 r hr
          · exact ⟨i, hi, hty, hr⟩
      · exact ⟨fun r hr => h.1 r (hg ▸ hr), fun r hr => h.2 r (hb ▸ hr)⟩
    apply hframe
    · unfold genUpdateRegLife; split_ifs <;> rfl
    · unfold genUpdateRegLife; split_ifs <;> rfl
    · unfold genUpdateRegLife; split_ifs <;> rfl
  · split
    · exact h.of_subset (Finset.Subset.refl _) (Finset.Subset.refl _)
    · exact h

theorem gcOwned_genCodeForBBlist_resetState (c : Compiler) (block : BasicBlock) (s : CodeGen) :
    GCOwned c (c.recordVarLocationsAtStartOfBB block.bbNum s.lvRegNum) block.bbLiveIn
      (genCodeForBBlist_resetState c block s) := by
  have key : ∀ (t : CodeGen) (newLife : VARSET_TP), GCOwned c t.lvRegNum newLife t →
      GCOwned c t.lvRegNum newLife (genUpdateLifeSet c newLife t) := by
    intro t newLife ht
    unfold genUpdateLifeSet
    simp only []
    have h1 : (fun x : CodeGen => x.lvRegNum = t.lvRegNum ∧ GCOwned c t.lvRegNum newLife x)
        ((VarSetOps_Iter (t.compCurLife \ newLife)).foldl (genUpdateLifeSet_dead c)
          { t with compCurLife := newLife }) := by
      apply foldl_preserves
        (fun x : CodeGen => x.lvRegNum = t.lvRegNum ∧ GCOwned c t.lvRegNum newLife x)
      · intro a b ha
        exact ⟨(lvRegNum_genUpdateLifeSet_dead c a b).trans ha.1,
          gcOwned_genUpdateLifeSet_dead c _ _ a b ha.2⟩
      · exact ⟨rfl, ht⟩
    have h2 := foldl_preserves_mem
      (fun x : CodeGen => x.lvRegNum = t.lvRegNum ∧ GCOwned c t.lvRegNum newLife x)
      (genUpdateLifeSet_born c) (VarSetOps_Iter (newLife \ t.compCurLife))
      (fun a b hb ha => by
        refine ⟨(lvRegNum_genUpdateLifeSet_born c a b).trans ha.1, ?_⟩
        have hb2 : b ∈ newLife := (Finset.mem_sdiff.mp ((mem_VarSetOps_Iter _ _).mp hb)).1
        have := gcOwned_genUpdateLifeSet_born c newLife a b hb2 (ha.1 ▸ ha.2)
        rw [ha.1] at this
        exact this) _ h1
    exact h2.2
  unfold genCodeForBBlist_resetState
  simp only []
  apply key
  exact ⟨fun r hr => by simp [RBM_NONE] at hr, fun r hr => by simp [RBM_NONE] at hr⟩

theorem varPtr_genUpdateLifeSet_dead (c : Compiler) (t : CodeGen) (i : Nat) :
    (genUpdateLifeSet_dead c t i).gcVarPtrSetCur ⊆ t.gcVarPtrSetCur := by
  unfold genUpdateLifeSet_dead genUpdateRegLife
  simp only []
  split_ifs <;> first | exact Finset.Subset.refl _ | exact Finset.erase_subset _ _

theorem varPtr_genUpdateLifeSet_born (c : Compiler) (t : CodeGen) (i : Nat) :
    (genUpdateLifeSet_born c t i).gcVarPtrSetCur ⊆ insert i t.gcVarPtrSetCur := by
  have he : t.gcVarPtrSetCur.erase i ⊆ insert i t.gcVarPtrSetCur :=
    (Finset.erase_subset _ _).trans (Finset.subset_insert _ _)
  unfold genUpdateLifeSet_born genUpdateRegLife
  simp only []
  split
  · split <;> split_ifs <;> first | exact Finset.subset_insert _ _ | exact he
  · split_ifs <;> first | exact Finset.subset_insert _ _ | exact Finset.Subset.refl _

theorem varPtr_seedStep_other (c : Compiler) (a : SeedState) (i k : Nat) (hk : k ≠ i) :
    k ∈ (genCodeForBBlist_seedStep c a i).cg.gcVarPtrSetCur ↔ k ∈ a.cg.gcVarPtrSetCur := by
  unfold genCodeForBBlist_seedStep
  simp only []
  split_ifs <;> simp [hk]

theorem varPtr_seedStep_self (c : Compiler) (a : SeedState) (i : Nat) :
    (a.cg.lvIsInReg (c.lvaTrackedToVarNum i) = true →
      (c.lvaGetDescByTrackedIndex i).IsAlwaysAliveInMemory = false →
      i ∉ (genCodeForBBlist_seedStep c a i).cg.gcVarPtrSetCur) ∧
    (c.lvaIsGCTracked (c.lvaGetDescByTrackedIndex i) = true →
      (a.cg.lvIsInReg (c.lvaTrackedToVarNum i) = false ∨
        (c.lvaGetDescByTrackedIndex i).IsAlwaysAliveInMemory = true) →
      i ∈ (genCodeForBBlist_seedStep c a i).cg.gcVarPtrSetCur) := by
  constructor
  · intro h1 h2
    unfold genCodeForBBlist_seedStep
    simp only [CodeGen.lvIsInReg, decide_eq_true_eq] at h1
    simp [CodeGen.lvIsInReg, h1, h2]
  · intro h1 h2
    unfold genCodeForBBlist_seedStep
    rcases h2 with h2 | h2
    · simp only [CodeGen.lvIsInReg, decide_eq_false_iff_not, not_not] at h2
      simp [CodeGen.lvIsInReg, h1, h2]
    · by_cases h3 : a.cg.lvRegNum (c.lvaTrackedToVarNum i) = regNumber.REG_STK <;>
        simp [CodeGen.lvIsInReg, h1, h2, h3]

theorem varPtr_seedFold_other (c : Compiler) (l : List Nat) (a : SeedState) (k : Nat)
    (hk : k ∉ l) :
    k ∈ (l.foldl (genCodeForBBlist_seedStep c) a).cg.gcVarPtrSetCur ↔ k ∈ a.cg.gcVarPtrSetCur := by
  induction l generalizing a with
  | nil => rfl
  | cons x xs ih =>
    simp only [List.mem_cons, not_or] at hk
    rw [List.foldl_cons, ih _ hk.2, varPtr_seedStep_other c a x k hk.1]

theorem lvIsInReg_congr {t u : CodeGen} (h : t.lvRegNum = u.lvRegNum) (v : Nat) :
    t.lvIsInReg v = u.lvIsInReg v := by
  unfold CodeGen.lvIsInReg; rw [h]

theorem varPtr_seedFold_self (c : Compiler) (l : List Nat) (hl : l.Nodup) (a : SeedState)
    (i : Nat) (hi : i ∈ l) :
    (a.cg.lvIsInReg (c.lvaTrackedToVarNum i) = true →
      (c.lvaGetDescByTrackedIndex i).IsAlwaysAliveInMemory = false →
      i ∉ (l.foldl (genCodeForBBlist_seedStep c) a).cg.gcVarPtrSetCur) ∧
    (c.lvaIsGCTracked (c.lvaGetDescByTrackedIndex i) = true →
      (a.cg.lvIsInReg (c.lvaTrackedToVarNum i) = false ∨
        (c.lvaGetDescByTrackedIndex i).IsAlwaysAliveInMemory = true) →
      i ∈ (l.foldl (genCodeForBBlist_seedStep c) a).cg.gcVarPtrSetCur) := by
  induction l generalizing a with
  | nil => cases hi
  | cons x xs ih =>
    rw [List.nodup_cons] at hl
    rw [List.foldl_cons]
    rcases List.mem_cons.mp hi with rfl | hi2
    · rw [varPtr_seedFold_other c xs _ i hl.1]
      exact varPtr_seedStep_self c a i
    · have := ih hl.2 (genCodeForBBlist_seedStep c a x) hi2
      rw [lvIsInReg_congr (lvRegNum_genCodeForBBlist_seedStep c a x)] at this
      exact this

theorem varPtr_seedFold_subset (c : Compiler) (l : List Nat) (a : SeedState) (k : Nat)
    (hk : k ∈ (l.foldl (genCodeForBBlist_seedStep c) a).cg.gcVarPtrSetCur) :
    k ∈ a.cg.gcVarPtrSetCur ∨ k ∈ l := by
  by_cases h : k ∈ l
  · exact Or.inr h
  · exact Or.inl ((varPtr_seedFold_other c l a k h).mp hk)

theorem varPtr_genCodeForBBlist_resetState (c : Compiler) (block : BasicBlock) (s : CodeGen)
    (k : Nat) (hk : k ∈ (genCodeForBBlist_resetState c block s).gcVarPtrSetCur) :
    k ∈ s.gcVarPtrSetCur ∨ k ∈ block.bbLiveIn := by
  unfold genCodeForBBlist_resetState genUpdateLifeSet at hk
  simp only [] at hk
  have h1 := foldl_preserves
    (fun x : CodeGen => ∀ k ∈ x.gcVarPtrSetCur, k ∈ s.gcVarPtrSetCur ∨ k ∈ block.bbLiveIn)
    (genUpdateLifeSet_dead c)
    (fun a b ha k hk => ha k (varPtr_genUpdateLifeSet_dead c a b hk))
  have h2 := foldl_preserves_mem
    (fun x : CodeGen => ∀ k ∈ x.gcVarPtrSetCur, k ∈ s.gcVarPtrSetCur ∨ k ∈ block.bbLiveIn)
    (genUpdateLifeSet_born c)
  refine h2 _ ?_ _ (h1 _ _ ?_) k hk
  · intro a b hb ha k hk
    have hb2 : b ∈ block.bbLiveIn := (Finset.mem_sdiff.mp ((mem_VarSetOps_Iter _ _).mp hb)).1
    rcases Finset.mem_insert.mp (varPtr_genUpdateLifeSet_born c a b hk) with rfl | h
    · exact Or.inr hb2
    · exact ha k h
  · intro k hk
    exact Or.inl hk

theorem genCodeForBBlist_blockEntry_noCatch (c : Compiler) (block : BasicBlock) (s : CodeGen)
    (h : block.nodes.any (fun node => node.gtOper = .GT_CATCH_ARG) = false) :
    genCodeForBBlist_blockEntry c block s =
      genCodeForBBlist_installMasks
        (genCodeForBBlist_seedLoop c block (genCodeForBBlist_resetState c block s)) := by
  unfold genCodeForBBlist_blockEntry
  simp only [h, Bool.false_eq_true, if_false]
  split_ifs <;> rfl

/-- The three masks computed by the live-in loop, in terms of the live-in locals
and the recorded registers. -/
theorem seedLoop_masks (c : Compiler) (block : BasicBlock) (t : CodeGen) (r : Nat) :
    (r ∈ (genCodeForBBlist_seedLoop c block t).newLiveRegSet ↔
      ∃ i ∈ block.bbLiveIn, r ∈ maskOf t.lvRegNum (c.lvaTrackedToVarNum i)) ∧
    (r ∈ (genCodeForBBlist_seedLoop c block t).newRegGCrefSet ↔
      ∃ i ∈ block.bbLiveIn, (c.lvaGetDescByTrackedIndex i).lvType = .TYP_REF ∧
        r ∈ maskOf t.lvRegNum (c.lvaTrackedToVarNum i)) ∧
    (r ∈ (genCodeForBBlist_seedLoop c block t).newRegByrefSet ↔
      ∃ i ∈ block.bbLiveIn, (c.lvaGetDescByTrackedIndex i).lvType = .TYP_BYREF ∧
        r ∈ maskOf t.lvRegNum (c.lvaTrackedToVarNum i)) := by
  unfold genCodeForBBlist_seedLoop
  obtain ⟨h1, h2, h3⟩ := seedFold_masks c (VarSetOps_Iter block.bbLiveIn)
    { newLiveRegSet := RBM_NONE, newRegGCrefSet := RBM_NONE, newRegByrefSet := RBM_NONE, cg := t } r
  simp only [RBM_NONE, Finset.not_mem_empty, false_or, mem_VarSetOps_Iter] at h1 h2 h3
  exact ⟨h1, h2, h3⟩

/-- Membership in the sets installed at block entry, in terms of the state `t`
reached after the reset and of the masks of the live-in loop. -/
theorem installMasks_mem (a : SeedState) (r : Nat) :
    (r ∈ (genCodeForBBlist_installMasks a).gcRegGCrefSetCur ↔
      (r ∈ a.cg.gcRegGCrefSetCur ∨ r ∈ a.newRegGCrefSet) ∧ r ∉ a.newRegByrefSet) ∧
    (r ∈ (genCodeForBBlist_installMasks a).gcRegByrefSetCur ↔
      (r ∈ a.cg.gcRegByrefSetCur ∧ r ∉ a.newRegGCrefSet) ∨ r ∈ a.newRegByrefSet) ∧
    (genCodeForBBlist_installMasks a).rsMaskVars = a.newLiveRegSet ∧
    (genCodeForBBlist_installMasks a).gcVarPtrSetCur = a.cg.gcVarPtrSetCur ∧
    (genCodeForBBlist_installMasks a).lvRegNum = a.cg.lvRegNum := by
  unfold genCodeForBBlist_installMasks gcMarkRegSetByref gcMarkRegSetGCref CodeGen.SetMaskVars
  simp [Finset.mem_sdiff, Finset.mem_union]

/-- The GC register sets at block entry when distinct live-in locals occupy
disjoint registers: exactly the registers of the live-in locals of the matching
type. -/
theorem blockEntry_gc_sets (c : Compiler) (block : BasicBlock) (s : CodeGen)
    (hNoCatch : block.nodes.any (fun node => node.gtOper = .GT_CATCH_ARG) = false)
    (hDisj : ∀ i ∈ block.bbLiveIn, ∀ j ∈ block.bbLiveIn, i ≠ j →
      Disjoint ((genCodeForBBlist_blockEntry c block s).lvRegMask (c.lvaTrackedToVarNum i))
        ((genCodeForBBlist_blockEntry c block s).lvRegMask (c.lvaTrackedToVarNum j)))
    (r : Nat) :
    (r ∈ (genCodeForBBlist_blockEntry c block s).gcRegGCrefSetCur ↔
      ∃ i ∈ block.bbLiveIn, (c.lvaGetDescByTrackedIndex i).lvType = .TYP_REF ∧
        r ∈ (genCodeForBBlist_blockEntry c block s).lvRegMask (c.lvaTrackedToVarNum i)) ∧
    (r ∈ (genCodeForBBlist_blockEntry c block s).gcRegByrefSetCur ↔
      ∃ i ∈ block.bbLiveIn, (c.lvaGetDescByTrackedIndex i).lvType = .TYP_BYREF ∧
        r ∈ (genCodeForBBlist_blockEntry c block s).lvRegMask (c.lvaTrackedToVarNum i)) ∧
    (r ∈ (genCodeForBBlist_blockEntry c block s).rsMaskVars ↔
      ∃ i ∈ block.bbLiveIn,
        r ∈ (genCodeForBBlist_blockEntry c block s).lvRegMask (c.lvaTrackedToVarNum i)) := by
  have hL := lvRegNum_genCodeForBBlist_blockEntry c block s
  have hL4 := lvRegNum_genCodeForBBlist_resetState c block s
  simp only [lvRegMask_eq_maskOf, hL] at hDisj ⊢
  obtain ⟨m1, m2, m3⟩ := seedLoop_masks c block (genCodeForBBlist_resetState c block s) r
  rw [hL4] at m1 m2 m3
  have hown := gcOwned_genCodeForBBlist_resetState c block s
  have hsame := sameGC_genCodeForBBlist_seedLoop c block (genCodeForBBlist_resetState c block s)
  obtain ⟨i1, i2, i3, _, _⟩ := installMasks_mem
    (genCodeForBBlist_seedLoop c block (genCodeForBBlist_resetState c block s)) r
  rw [genCodeForBBlist_blockEntry_noCatch c block s hNoCatch]
  have hAB : ∀ i ∈ block.bbLiveIn, ∀ j ∈ block.bbLiveIn,
      (c.lvaGetDescByTrackedIndex i).lvType = .TYP_REF →
      (c.lvaGetDescByTrackedIndex j).lvType = .TYP_BYREF →
      r ∈ maskOf (c.recordVarLocationsAtStartOfBB block.bbNum s.lvRegNum) (c.lvaTrackedToVarNum i) →
      r ∈ maskOf (c.recordVarLocationsAtStartOfBB block.bbNum s.lvRegNum) (c.lvaTrackedToVarNum j) →
      False := by
    intro i hi j hj ti tj ri rj
    have hne : i ≠ j := by
      rintro rfl
      rw [ti] at tj; cases tj
    exact Finset.disjoint_left.mp (hDisj i hi j hj hne) ri rj
  refine ⟨?_, ?_, ?_⟩
  · rw [i1, hsame.1, m2, m3]
    constructor
    · rintro ⟨h | h, _⟩
      · exact hown.1 r h
      · exact h
    · rintro ⟨i, hi, ti, ri⟩
      exact ⟨Or.inr ⟨i, hi, ti, ri⟩, fun ⟨j, hj, tj, rj⟩ => hAB i hi j hj ti tj ri rj⟩
  · rw [i2, hsame.2, m2, m3]
    constructor
    · rintro (⟨h, _⟩ | h)
      · exact hown.2 r h
      · exact h
    · exact fun h => Or.inr h
  · rw [i3, m1]

/-! C4: block-entry seeding -/

/-- C4: after the block-entry seeding of a block with no `GT_CATCH_ARG` node, when
distinct live-in locals occupy disjoint registers, the ref set is exactly the
union of the register masks of the live-in locals in a register of type
`TYP_REF`, the byref set exactly that union for `TYP_BYREF`, and the live-variable
register mask the union over all live-in locals in a register, whatever the three
sets held before; every rooted register belongs to a live-in local; and every
local in the stack-slot set after the seeding was in it before or is live-in. -/
theorem C4_block_entry_seeding (c : Compiler) (block : BasicBlock) (s : CodeGen)
    (hNoCatch : block.nodes.any (fun node => node.gtOper = .GT_CATCH_ARG) = false)
    (hDisj : ∀ i ∈ block.bbLiveIn, ∀ j ∈ block.bbLiveIn, i ≠ j →
      Disjoint ((genCodeForBBlist_blockEntry c block s).lvRegMask (c.lvaTrackedToVarNum i))
        ((genCodeForBBlist_blockEntry c block s).lvRegMask (c.lvaTrackedToVarNum j))) :
    (∀ r, r ∈ (genCodeForBBlist_blockEntry c block s).gcRegGCrefSetCur ↔
      ∃ i ∈ block.bbLiveIn,
        (genCodeForBBlist_blockEntry c block s).lvIsInReg (c.lvaTrackedToVarNum i) = true ∧
        (c.lvaGetDescByTrackedIndex i).lvType = .TYP_REF ∧
        r ∈ (genCodeForBBlist_blockEntry c block s).lvRegMask (c.lvaTrackedToVarNum i)) ∧
    (∀ r, r ∈ (genCodeForBBlist_blockEntry c block s).gcRegByrefSetCur ↔
      ∃ i ∈ block.bbLiveIn,
        (genCodeForBBlist_blockEntry c block s).lvIsInReg (c.lvaTrackedToVarNum i) = true ∧
        (c.lvaGetDescByTrackedIndex i).lvType = .TYP_BYREF ∧
        r ∈ (genCodeForBBlist_blockEntry c block s).lvRegMask (c.lvaTrackedToVarNum i)) ∧
    (∀ r, r ∈ (genCodeForBBlist_blockEntry c block s).GetMaskVars ↔
      ∃ i ∈ block.bbLiveIn,
        (genCodeForBBlist_blockEntry c block s).lvIsInReg (c.lvaTrackedToVarNum i) = true ∧
        r ∈ (genCodeForBBlist_blockEntry c block s).lvRegMask (c.lvaTrackedToVarNum i)) ∧
    (∀ r, Rooted r (genCodeForBBlist_blockEntry c block s) →
      ∃ i ∈ block.bbLiveIn,
        r ∈ (genCodeForBBlist_blockEntry c block s).lvRegMask (c.lvaTrackedToVarNum i)) ∧
    (∀ i ∈ (genCodeForBBlist_blockEntry c block s).gcVarPtrSetCur,
      i ∈ s.gcVarPtrSetCur ∨ i ∈ block.bbLiveIn) := by
  have hin : ∀ (t : CodeGen) (v r : Nat), r ∈ t.lvRegMask v → t.lvIsInReg v = true := by
    intro t v r hr
    have := mem_maskOf_inReg (lvRegMask_eq_maskOf t v ▸ hr)
    simp [CodeGen.lvIsInReg, this]
  refine ⟨?_, ?_, ?_, ?_, ?_⟩
  · intro r
    rw [(blockEntry_gc_sets c block s hNoCatch hDisj r).1]
    constructor
    · rintro ⟨i, hi, ti, ri⟩; exact ⟨i, hi, hin _ _ _ ri, ti, ri⟩
    · rintro ⟨i, hi, _, ti, ri⟩; exact ⟨i, hi, ti, ri⟩
  · intro r
    rw [(blockEntry_gc_sets c block s hNoCatch hDisj r).2.1]
    constructor
    · rintro ⟨i, hi, ti, ri⟩; exact ⟨i, hi, hin _ _ _ ri, ti, ri⟩
    · rintro ⟨i, hi, _, ti, ri⟩; exact ⟨i, hi, ti, ri⟩
  · intro r
    show r ∈ (genCodeForBBlist_blockEntry c block s).rsMaskVars ↔ _
    rw [(blockEntry_gc_sets c block s hNoCatch hDisj r).2.2]
    constructor
    · rintro ⟨i, hi, ri⟩; exact ⟨i, hi, hin _ _ _ ri, ri⟩
    · rintro ⟨i, hi, _, ri⟩; exact ⟨i, hi, ri⟩
  · rintro r (hr | hr)
    · obtain ⟨i, hi, _, ri⟩ := (blockEntry_gc_sets c block s hNoCatch hDisj r).1.mp hr
      exact ⟨i, hi, ri⟩
    · obtain ⟨i, hi, _, ri⟩ := (blockEntry_gc_sets c block s hNoCatch hDisj r).2.1.mp hr
      exact ⟨i, hi, ri⟩
  · intro i hi
    rw [genCodeForBBlist_blockEntry_noCatch c block s hNoCatch,
      (installMasks_mem _ 0).2.2.2.1] at hi
    unfold genCodeForBBlist_seedLoop at hi
    rcases varPtr_seedFold_subset c _ _ i hi with h | h
    · exact varPtr_genCodeForBBlist_resetState c block s i h
    · exact Or.inr ((mem_VarSetOps_Iter _ _).mp h)

/-- C4 at a concrete input: locals 0 (`TYP_REF`, register 3), 1 (`TYP_BYREF`,
register 5) and 2 (`TYP_INT`, register 6) are live-in, and the previous block left
register 9 in the ref set, register 3 in the byref set and register 8 in the
live-variable mask.  After the seeding the ref set is register 3, the byref set
register 5 and the live-variable mask registers 3, 5 and 6. -/
theorem C4_block_entry_seeding_witness :
    (genCodeForBBlist_blockEntry (exCompiler (exTable3 false)) exBlock3
        (exState {9} {3} {8} exRegs3)).gcRegGCrefSetCur = {3} ∧
    (genCodeForBBlist_blockEntry (exCompiler (exTable3 false)) exBlock3
        (exState {9} {3} {8} exRegs3)).gcRegByrefSetCur = {5} ∧
    (genCodeForBBlist_blockEntry (exCompiler (exTable3 false)) exBlock3
        (exState {9} {3} {8} exRegs3)).GetMaskVars = {3, 5, 6} ∧
    (∀ r, Rooted r (genCodeForBBlist_blockEntry (exCompiler (exTable3 false)) exBlock3
        (exState {9} {3} {8} exRegs3)) →
      ∃ i ∈ exBlock3.bbLiveIn,
        r ∈ (genCodeForBBlist_blockEntry (exCompiler (exTable3 false)) exBlock3
          (exState {9} {3} {8} exRegs3)).lvRegMask
            ((exCompiler (exTable3 false)).lvaTrackedToVarNum i)) :=
  ⟨by decide, by decide, by decide,
   (C4_block_entry_seeding (exCompiler (exTable3 false)) exBlock3 (exState {9} {3} {8} exRegs3)
      rfl (by decide)).2.2.2.1⟩

/-! C6: stack-slot set after block-entry seeding -/

theorem blockEntry_varPtr (c : Compiler) (block : BasicBlock) (s : CodeGen) :
    (genCodeForBBlist_blockEntry c block s).gcVarPtrSetCur =
      (genCodeForBBlist_seedLoop c block
        (genCodeForBBlist_resetState c block s)).cg.gcVarPtrSetCur := by
  unfold genCodeForBBlist_blockEntry
  simp only []
  split_ifs <;> rfl

theorem blockEntry_gcref_superset (c : Compiler) (block : BasicBlock) (s : CodeGen) (r : Nat)
    (h : r ∈ (genCodeForBBlist_installMasks (genCodeForBBlist_seedLoop c block
      (genCodeForBBlist_resetState c block s))).gcRegGCrefSetCur) :
    r ∈ (genCodeForBBlist_blockEntry c block s).gcRegGCrefSetCur := by
  unfold genCodeForBBlist_blockEntry
  simp only []
  split_ifs
  · simp only [gcMarkRegSetGCref, Finset.mem_union]
    exact Or.inl h
  · exact h
  · exact h

/-- C6: after the block-entry seeding, a live-in tracked local that is in a
register and not always-alive-in-memory is not in the stack-slot set; a GC-tracked
live-in local that is not in a register or is always-alive-in-memory is in it.
Hence (distinct live-in locals occupying disjoint registers) the register of an
enregistered live-in `TYP_REF` local is in the ref set, and the local is also in
the stack-slot set when it is always-alive and GC-tracked, and not in it when it
is an ordinary enregistered local. -/
theorem C6_block_entry_stack_slots (c : Compiler) (block : BasicBlock) (s : CodeGen) :
    (∀ i ∈ block.bbLiveIn,
      (genCodeForBBlist_blockEntry c block s).lvIsInReg (c.lvaTrackedToVarNum i) = true →
      (c.lvaGetDescByTrackedIndex i).IsAlwaysAliveInMemory = false →
      i ∉ (genCodeForBBlist_blockEntry c block s).gcVarPtrSetCur) ∧
    (∀ i ∈ block.bbLiveIn, c.lvaIsGCTracked (c.lvaGetDescByTrackedIndex i) = true →
      ((genCodeForBBlist_blockEntry c block s).lvIsInReg (c.lvaTrackedToVarNum i) = false ∨
        (c.lvaGetDescByTrackedIndex i).IsAlwaysAliveInMemory = true) →
      i ∈ (genCodeForBBlist_blockEntry c block s).gcVarPtrSetCur) ∧
    ((∀ i ∈ block.bbLiveIn, ∀ j ∈ block.bbLiveIn, i ≠ j →
        Disjoint ((genCodeForBBlist_blockEntry c block s).lvRegMask (c.lvaTrackedToVarNum i))
          ((genCodeForBBlist_blockEntry c block s).lvRegMask (c.lvaTrackedToVarNum j))) →
      ∀ i ∈ block.bbLiveIn, ∀ r,
        (genCodeForBBlist_blockEntry c block s).lvRegNum (c.lvaTrackedToVarNum i) = .REG r →
        (c.lvaGetDescByTrackedIndex i).lvType = .TYP_REF →
        r ∈ (genCodeForBBlist_blockEntry c block s).gcRegGCrefSetCur ∧
        ((c.lvaGetDescByTrackedIndex i).IsAlwaysAliveInMemory = true →
          c.lvaIsGCTracked (c.lvaGetDescByTrackedIndex i) = true →
          i ∈ (genCodeForBBlist_blockEntry c block s).gcVarPtrSetCur) ∧
        ((c.lvaGetDescByTrackedIndex i).IsAlwaysAliveInMemory = false →
          i ∉ (genCodeForBBlist_blockEntry c block s).gcVarPtrSetCur)) := by
  have hL := lvRegNum_genCodeForBBlist_blockEntry c block s
  have hL4 := lvRegNum_genCodeForBBlist_resetState c block s
  have hreg : ∀ v, (genCodeForBBlist_blockEntry c block s).lvIsInReg v =
      (genCodeForBBlist_resetState c block s).lvIsInReg v :=
    fun v => lvIsInReg_congr (hL.trans hL4.symm) v
  have hself : ∀ i ∈ block.bbLiveIn, _ :=
    fun i hi => varPtr_seedFold_self c (VarSetOps_Iter block.bbLiveIn)
      (nodup_VarSetOps_Iter _)
      { newLiveRegSet := RBM_NONE, newRegGCrefSet := RBM_NONE, newRegByrefSet := RBM_NONE,
        cg := genCodeForBBlist_resetState c block s } i ((mem_VarSetOps_Iter _ _).mpr hi)
  have p1 : ∀ i ∈ block.bbLiveIn,
      (genCodeForBBlist_blockEntry c block s).lvIsInReg (c.lvaTrackedToVarNum i) = true →
      (c.lvaGetDescByTrackedIndex i).IsAlwaysAliveInMemory = false →
      i ∉ (genCodeForBBlist_blockEntry c block s).gcVarPtrSetCur := by
    intro i hi h1 h2
    rw [blockEntry_varPtr]
    rw [hreg] at h1
    exact (hself i hi).1 h1 h2
  have p2 : ∀ i ∈ block.bbLiveIn, c.lvaIsGCTracked (c.lvaGetDescByTrackedIndex i) = true →
      ((genCodeForBBlist_blockEntry c block s).lvIsInReg (c.lvaTrackedToVarNum i) = false ∨
        (c.lvaGetDescByTrackedIndex i).IsAlwaysAliveInMemory = true) →
      i ∈ (genCodeForBBlist_blockEntry c block s).gcVarPtrSetCur := by
    intro i hi h1 h2
    rw [blockEntry_varPtr]
    rw [hreg] at h2
    exact (hself i hi).2 h1 h2
  refine ⟨p1, p2, ?_⟩
  intro hDisj i hi r hr hty
  have hinreg : (genCodeForBBlist_blockEntry c block s).lvIsInReg (c.lvaTrackedToVarNum i)
      = true := by
    simp [CodeGen.lvIsInReg, hr]
  refine ⟨?_, fun ha hg => p2 i hi hg (Or.inr ha), fun ha => p1 i hi hinreg ha⟩
  apply blockEntry_gcref_superset
  -- the same seeding on the block without its nodes has no catch argument
  have hmaskEq : ∀ v, (genCodeForBBlist_blockEntry c { block with nodes := [] } s).lvRegMask v =
      (genCodeForBBlist_blockEntry c block s).lvRegMask v := by
    intro v
    rw [lvRegMask_eq_maskOf, lvRegMask_eq_maskOf, lvRegNum_genCodeForBBlist_blockEntry, hL]
  have hDisj2 : ∀ i ∈ block.bbLiveIn, ∀ j ∈ block.bbLiveIn, i ≠ j →
      Disjoint ((genCodeForBBlist_blockEntry c { block with nodes := [] } s).lvRegMask
          (c.lvaTrackedToVarNum i))
        ((genCodeForBBlist_blockEntry c { block with nodes := [] } s).lvRegMask
          (c.lvaTrackedToVarNum j)) := by
    intro i hi j hj hij
    rw [hmaskEq, hmaskEq]
    exact hDisj i hi j hj hij
  have hb := (blockEntry_gc_sets c { block with nodes := [] } s rfl hDisj2 r).1
  rw [genCodeForBBlist_blockEntry_noCatch c { block with nodes := [] } s rfl] at hb
  have hmask : r ∈ (genCodeForBBlist_installMasks (genCodeForBBlist_seedLoop c
      { block with nodes := [] } (genCodeForBBlist_resetState c { block with nodes := [] } s))).lvRegMask
      (c.lvaTrackedToVarNum i) := by
    have hl2 : (genCodeForBBlist_installMasks (genCodeForBBlist_seedLoop c
        { block with nodes := [] }
        (genCodeForBBlist_resetState c { block with nodes := [] } s))).lvRegNum =
        (genCodeForBBlist_blockEntry c block s).lvRegNum := by
      rw [← genCodeForBBlist_blockEntry_noCatch c { block with nodes := [] } s rfl,
        lvRegNum_genCodeForBBlist_blockEntry, hL]
    rw [lvRegMask_eq_maskOf, hl2]
    unfold maskOf
    simp [hr, genRegMask]
  exact hb.mpr ⟨i, hi, hty, hmask⟩

/-- C6 at a concrete input: local 0 is an always-alive GC-tracked `TYP_REF` local
in register 3 and local 1 an ordinary `TYP_BYREF` local in register 5, both
live-in.  After the seeding register 3 is in the ref set and local 0 also in the
stack-slot set, while local 1 is not in the stack-slot set. -/
theorem C6_block_entry_stack_slots_witness :
    (3 ∈ (genCodeForBBlist_blockEntry (exCompiler (exTable3 true)) exBlock3
        (exState ∅ ∅ ∅ exRegs3)).gcRegGCrefSetCur ∧
      0 ∈ (genCodeForBBlist_blockEntry (exCompiler (exTable3 true)) exBlock3
        (exState ∅ ∅ ∅ exRegs3)).gcVarPtrSetCur) ∧
    1 ∉ (genCodeForBBlist_blockEntry (exCompiler (exTable3 true)) exBlock3
        (exState ∅ ∅ ∅ exRegs3)).gcVarPtrSetCur :=
  ⟨⟨((C6_block_entry_stack_slots (exCompiler (exTable3 true)) exBlock3
        (exState ∅ ∅ ∅ exRegs3)).2.2 (by decide) 0 (by decide) 3 rfl rfl).1,
    ((C6_block_entry_stack_slots (exCompiler (exTable3 true)) exBlock3
        (exState ∅ ∅ ∅ exRegs3)).2.2 (by decide) 0 (by decide) 3 rfl rfl).2.1 rfl rfl⟩,
   (C6_block_entry_stack_slots (exCompiler (exTable3 true)) exBlock3
        (exState ∅ ∅ ∅ exRegs3)).1 1 (by decide) rfl rfl⟩

/-! C11: release of the spill temp on reload -/

theorem gcMarkRegPtrVal_tmp (reg : regNumber) (t : var_types) (s : CodeGen) :
    (gcMarkRegPtrVal reg t s).tmpReleased = s.tmpReleased ∧
    (gcMarkRegPtrVal reg t s).tmpUsed = s.tmpUsed ∧
    (gcMarkRegPtrVal reg t s).tmpFree = s.tmpFree ∧
    (gcMarkRegPtrVal reg t s).rsSpillDesc = s.rsSpillDesc := by
  cases t <;> exact ⟨rfl, rfl, rfl, rfl⟩

theorem rsUnspillInPlace_frame (tree : GenTree) (i : Nat) (s : CodeGen) :
    (rsUnspillInPlace tree i s).2.tmpReleased = s.tmpReleased ∧
    (rsUnspillInPlace tree i s).2.tmpUsed = s.tmpUsed ∧
    (rsUnspillInPlace tree i s).2.tmpFree = s.tmpFree ∧
    (rsUnspillInPlace tree i s).2.emitted = s.emitted := by
  unfold rsUnspillInPlace
  split <;> exact ⟨rfl, rfl, rfl, rfl⟩

theorem genUnspillLocal_tmpReleased (c : Compiler) (v : Nat) (t : var_types) (r : regNumber)
    (b l : Bool) (s : CodeGen) :
    (genUnspillLocal c v t r b l s).tmpReleased = s.tmpReleased := by
  unfold genUnspillLocal
  rw [(gcMarkRegPtrVal_tmp _ _ _).1]
  simp only []
  split_ifs <;> rfl

/-- One step of the reload loop of a multi-register temporary: a result register
whose spill bits carry `GTF_SPILLED` has its temp released once, whatever its
`GTF_SPILL` bit; any other result register releases nothing. -/
theorem genUnspillRegIfNeededIdx_tmpReleased (c : Compiler) (tree : GenTree) (i : Nat)
    (s : CodeGen) (hSpilled : tree.unspillTree.GTF_SPILLED = true)
    (hLcl : tree.IsMultiRegLclVar = false) :
    (genUnspillRegIfNeededIdx c tree i s).tmpReleased =
      (if (tree.unspillTree.GetRegSpillFlagByIdx i).GTF_SPILLED then
        s.tmpReleased ++ [(rsUnspillInPlace tree.unspillTree i s).1]
       else s.tmpReleased) := by
  unfold genUnspillRegIfNeededIdx
  simp only [hSpilled, Bool.not_true, Bool.false_eq_true, if_false, hLcl]
  cases hf : (tree.unspillTree.GetRegSpillFlagByIdx i).GTF_SPILLED
  · simp
  · simp only [Bool.not_true, Bool.false_eq_true, if_false, if_true]
    rw [(gcMarkRegPtrVal_tmp _ _ _).1]
    simp only [tmpRlsTemp, CodeGen.emit, (rsUnspillInPlace_frame _ _ _).1]

theorem genUnspillRegIfNeededIdx_fold_length (c : Compiler) (tree : GenTree)
    (hSpilled : tree.unspillTree.GTF_SPILLED = true) (hLcl : tree.IsMultiRegLclVar = false)
    (l : List Nat) (s : CodeGen) :
    (l.foldl (fun st i => genUnspillRegIfNeededIdx c tree i st) s).tmpReleased.length =
      s.tmpReleased.length +
        (l.filter (fun i => (tree.unspillTree.GetRegSpillFlagByIdx i).GTF_SPILLED)).length := by
  induction l generalizing s with
  | nil => simp
  | cons x xs ih =>
    rw [List.foldl_cons, ih, genUnspillRegIfNeededIdx_tmpReleased c tree x s hSpilled hLcl]
    cases hf : (tree.unspillTree.GetRegSpillFlagByIdx x).GTF_SPILLED
    · simp [hf]
    · simp [hf]
      omega

theorem isMultiRegLclVar_of_unspillTree (tree : GenTree)
    (h : tree.unspillTree.IsMultiRegLclVar = false) : tree.IsMultiRegLclVar = false := by
  unfold GenTree.unspillTree at h
  by_cases hr : tree.gtOper = .GT_RELOAD
  · simp [GenTree.IsMultiRegLclVar, GenTree.OperIsScalarLocal, hr]
  · simpa [hr] using h

/-- C11, as stated, fails in its second half: a `TYP_REF` temporary in register 4
is spilled by `genProduceReg` (temp 0 is leased), and the spilled node is then
flagged `GTF_SPILL` again for an immediate re-spill.  `genUnspillRegIfNeeded`
reloads it and releases temp 0 all the same: the temp leaves the leased list, is
back in the free list and is logged as released; it is not retained. -/
theorem C11_unspill_releases_temp_counterexample :
    (genProduceReg (exCompiler (fun _ => exLcl .TYP_REF 0 false))
        { exNode 9 .GT_ADD .TYP_REF (.REG 4) 0 with GTF_SPILL := true }
        (exState {4} ∅ ∅ (fun _ => .REG_STK))).map
      (fun r => (r.1.GTF_SPILLED, r.2.tmpUsed, r.2.tmpReleased)) =
      some (true, [{ tdNum := 0, tdType := .TYP_REF }], []) ∧
    (genProduceReg (exCompiler (fun _ => exLcl .TYP_REF 0 false))
        { exNode 9 .GT_ADD .TYP_REF (.REG 4) 0 with GTF_SPILL := true }
        (exState {4} ∅ ∅ (fun _ => .REG_STK))).map
      (fun r =>
        ((genUnspillRegIfNeeded (exCompiler (fun _ => exLcl .TYP_REF 0 false))
            { r.1 with GTF_SPILL := true } r.2).1.GTF_SPILL,
         (genUnspillRegIfNeeded (exCompiler (fun _ => exLcl .TYP_REF 0 false))
            { r.1 with GTF_SPILL := true } r.2).2.emitted,
         (genUnspillRegIfNeeded (exCompiler (fun _ => exLcl .TYP_REF 0 false))
            { r.1 with GTF_SPILL := true } r.2).2.tmpUsed,
         (genUnspillRegIfNeeded (exCompiler (fun _ => exLcl .TYP_REF 0 false))
            { r.1 with GTF_SPILL := true } r.2).2.tmpFree,
         (genUnspillRegIfNeeded (exCompiler (fun _ => exLcl .TYP_REF 0 false))
            { r.1 with GTF_SPILL := true } r.2).2.tmpReleased)) =
      some (true, [instr.storeTmp 0 (.REG 4), instr.loadTmp (.REG 4) 0], [],
        [{ tdNum := 0, tdType := .TYP_REF }], [{ tdNum := 0, tdType := .TYP_REF }]) := by
  constructor <;> decide

/-- C11 (amended): when `genUnspillRegIfNeeded` reloads a spilled non-local value
from its spill temp, the temp is released back to the pool exactly once, whether
or not the node is flagged `GTF_SPILL`: for a single-register value the load from
the temp is emitted, the temp is logged as released once, leaves the leased list
and joins the free list, and `GTF_SPILLED` is cleared; for a multi-register value
one temp is released for each result register whose spill bits carry
`GTF_SPILLED`, whatever their `GTF_SPILL` bit. -/
theorem C11_unspill_releases_temp (c : Compiler) (tree : GenTree) (s : CodeGen)
    (hSpilled : tree.unspillTree.GTF_SPILLED = true)
    (hCand : genIsRegCandidateLocal c tree.unspillTree = false)
    (hLcl : tree.unspillTree.IsMultiRegLclVar = false) :
    (tree.unspillTree.IsMultiRegNode = false →
      (genUnspillRegIfNeeded c tree s).2.tmpReleased =
        s.tmpReleased ++ [(rsUnspillInPlace tree.unspillTree 0 s).1] ∧
      (genUnspillRegIfNeeded c tree s).2.tmpUsed =
        s.tmpUsed.erase (rsUnspillInPlace tree.unspillTree 0 s).1 ∧
      (genUnspillRegIfNeeded c tree s).2.tmpFree =
        (rsUnspillInPlace tree.unspillTree 0 s).1 :: s.tmpFree ∧
      (genUnspillRegIfNeeded c tree s).2.emitted =
        s.emitted ++ [instr.loadTmp tree.GetRegNum (rsUnspillInPlace tree.unspillTree 0 s).1.tdNum] ∧
      (genUnspillRegIfNeeded c tree s).1.unspillTree.GTF_SPILLED = false) ∧
    (tree.unspillTree.IsMultiRegNode = true →
      (genUnspillRegIfNeeded c tree s).2.tmpReleased.length =
        s.tmpReleased.length +
          ((List.range (tree.unspillTree.GetMultiRegCount c)).filter
            (fun i => (tree.unspillTree.GetRegSpillFlagByIdx i).GTF_SPILLED)).length) ∧
    (∀ i, (tree.unspillTree.GetRegSpillFlagByIdx i).GTF_SPILLED = true →
      (genUnspillRegIfNeededIdx c tree i s).tmpReleased =
        s.tmpReleased ++ [(rsUnspillInPlace tree.unspillTree i s).1]) := by
  have hLcl2 := isMultiRegLclVar_of_unspillTree tree hLcl
  refine ⟨?_, ?_, ?_⟩
  · intro hMulti
    unfold genUnspillRegIfNeeded
    simp only [hSpilled, hCand, hLcl, hMulti, if_true, Bool.false_eq_true, if_false]
    obtain ⟨g1, g2, g3, _⟩ := gcMarkRegPtrVal_tmp tree.GetRegNum tree.unspillTree.gtType
      (tmpRlsTemp (rsUnspillInPlace tree.unspillTree 0 s).1
        ((rsUnspillInPlace tree.unspillTree 0 s).2.emit
          (instr.loadTmp tree.GetRegNum (rsUnspillInPlace tree.unspillTree 0 s).1.tdNum)))
    obtain ⟨f1, f2, f3, f4⟩ := rsUnspillInPlace_frame tree.unspillTree 0 s
    refine ⟨?_, ?_, ?_, ?_, ?_⟩
    · rw [g1]; simp only [tmpRlsTemp, CodeGen.emit, f1]
    · rw [g2]; simp only [tmpRlsTemp, CodeGen.emit, f2]
    · rw [g3]; simp only [tmpRlsTemp, CodeGen.emit, f3]
    · rw [(gcMarkRegPtrVal_frame _ _ _).2.2.2]; simp only [tmpRlsTemp, CodeGen.emit, f4]
    · unfold GenTree.withUnspillTree GenTree.unspillTree GenTree.setOp1 GenTree.gtGetOp1
      rcases tree with ⟨n, _ | m⟩ <;> simp only [] <;> split_ifs <;> rfl
  · intro hMulti
    unfold genUnspillRegIfNeeded
    simp only [hSpilled, hCand, hLcl, hMulti, if_true, Bool.false_eq_true, if_false]
    exact genUnspillRegIfNeededIdx_fold_length c tree hSpilled hLcl2 _ s
  · intro i hi
    rw [genUnspillRegIfNeededIdx_tmpReleased c tree i s hSpilled hLcl2, hi]
    rfl

/-- C11 (amended) at a concrete input: a spilled `TYP_REF` temporary whose value
sits in temp 0 is reloaded and temp 0 is released once. -/
theorem C11_unspill_releases_temp_witness :
    (genUnspillRegIfNeeded (exCompiler (fun _ => exLcl .TYP_REF 0 false))
        { exNode 9 .GT_ADD .TYP_REF (.REG 4) 0 with GTF_SPILLED := true }
        { exState ∅ ∅ ∅ (fun _ => .REG_STK) with
          tmpUsed := [{ tdNum := 0, tdType := .TYP_REF }], tmpCount := 1,
          rsSpillDesc := [{ spillTree := 9, spillIdx := 0,
                            spillTemp := { tdNum := 0, tdType := .TYP_REF } }] }).2.tmpReleased
      = [{ tdNum := 0, tdType := .TYP_REF }] :=
  ((C11_unspill_releases_temp (exCompiler (fun _ => exLcl .TYP_REF 0 false))
      { exNode 9 .GT_ADD .TYP_REF (.REG 4) 0 with GTF_SPILLED := true }
      { exState ∅ ∅ ∅ (fun _ => .REG_STK) with
        tmpUsed := [{ tdNum := 0, tdType := .TYP_REF }], tmpCount := 1,
        rsSpillDesc := [{ spillTree := 9, spillIdx := 0,
                          spillTemp := { tdNum := 0, tdType := .TYP_REF } }] }
      rfl rfl rfl).1 rfl).1

/-! C12: spill at a use, then reload -/

theorem genSpillVar_use_eq (c : Compiler) (tree : GenTree) (s : CodeGen) (r : Nat)
    (hAlive : (c.lvaGetDesc tree.gtLclNum).IsAlwaysAliveInMemory = false)
    (hUse : tree.GTF_VAR_DEF = false) (hNotSpilled : tree.GTF_SPILLED = false)
    (hReg : tree.GetRegNum = .REG r) (hIn : s.lvRegNum tree.gtLclNum = .REG r) :
    (genSpillVar c tree s).2 =
      { s with
        emitted := s.emitted ++ [instr.storeLcl tree.gtLclNum (.REG r)],
        rsMaskVars := s.rsMaskVars \ {r},
        gcRegGCrefSetCur := s.gcRegGCrefSetCur \ {r},
        gcRegByrefSetCur := s.gcRegByrefSetCur \ {r},
        gcVarPtrSetCur :=
          (if (c.lvaGetDesc tree.gtLclNum).lvVarIndex ∈ c.gcTrkStkPtrLcls then
            insert (c.lvaGetDesc tree.gtLclNum).lvVarIndex s.gcVarPtrSetCur
           else s.gcVarPtrSetCur),
        lvRegNum := fun n => if n = tree.gtLclNum then .REG_STK else s.lvRegNum n } := by
  have hin : s.lvIsInReg tree.gtLclNum = true := by
    simp [CodeGen.lvIsInReg, hIn]
  unfold genSpillVar
  simp only [hUse, hin, hAlive, hNotSpilled, hReg, Bool.not_false, Bool.and_self, if_true]
  unfold genUpdateRegLife
  simp only [if_true, CodeGen.emit, CodeGen.RemoveMaskVars, CodeGen.genGetRegMask,
    CodeGen.lvRegMask, gcMarkRegSetNpt, CodeGen.SetRegNum, hIn, genRegMask, ne_eq,
    reduceCtorEq, not_false_eq_true]
  split_ifs <;> rfl

theorem genUnspillRegIfNeeded_local_eq (c : Compiler) (tree : GenTree) (t : CodeGen) (r : Nat)
    (hAlive : (c.lvaGetDesc tree.gtLclNum).IsAlwaysAliveInMemory = false)
    (hCand : genIsRegCandidateLocal c tree = true)
    (hSpilled : tree.GTF_SPILLED = true) (hNoReSpill : tree.GTF_SPILL = false)
    (hReg : tree.GetRegNum = .REG r) :
    (genUnspillRegIfNeeded c tree t).2 =
      gcMarkRegPtrVal (.REG r) (genUnspillRegIfNeeded_unspillType c tree)
        { t with
          emitted := t.emitted ++ [instr.loadLcl (.REG r) tree.gtLclNum],
          lvRegNum := fun n => if n = tree.gtLclNum then .REG r else t.lvRegNum n,
          gcVarPtrSetCur := t.gcVarPtrSetCur.erase (c.lvaGetDesc tree.gtLclNum).lvVarIndex,
          rsMaskVars := t.rsMaskVars ∪ {r} } := by
  have hl : tree.OperIsScalarLocal = true := by
    unfold genIsRegCandidateLocal at hCand
    simp only [Bool.and_eq_true] at hCand
    exact hCand.1
  have hrel : tree.gtOper ≠ .GT_RELOAD := by
    intro hr; simp [GenTree.OperIsScalarLocal, hr] at hl
  have hu : tree.unspillTree = tree := by
    unfold GenTree.unspillTree
    simp [hrel]
  have hty : genUnspillRegIfNeeded_unspillType c { tree with GTF_SPILLED := false } =
      genUnspillRegIfNeeded_unspillType c tree := rfl
  unfold genUnspillRegIfNeeded
  simp only [hu, hSpilled, hCand, if_true, hNoReSpill, hReg, hty]
  unfold genUnspillLocal
  simp only [Bool.not_false, if_true, hAlive, CodeGen.emit, CodeGen.SetRegNum,
    CodeGen.AddMaskVars, CodeGen.genGetRegMask, genRegMask]
  rfl

/-- C12, as stated, fails when the reloading use has another GC type than the
local: local 0 is an ordinary `TYP_REF` register candidate in register 3 (rooted
in the ref set, live, not in the stack-slot set).  It is spilled at a use and then
reloaded into register 3 by a `GTF_SPILLED` use typed `TYP_BYREF`.  The reload
marks register 3 under the type of the node: register 3 ends in the byref set and
not in the ref set, the set of the local's kind. -/
theorem C12_spill_reload_round_trip_counterexample :
    ((exCompiler (fun _ => exLcl .TYP_REF 0 false)).lvaGetDesc 0).lvType = .TYP_REF ∧
    genSpillVar_asserts (exCompiler (fun _ => exLcl .TYP_REF 0 false))
      { exNode 1 .GT_LCL_VAR .TYP_REF (.REG 3) 0 with GTF_SPILL := true }
      (exState {3} ∅ {3} (fun _ => .REG 3)) = true ∧
    3 ∈ (exState {3} ∅ {3} (fun _ => .REG 3)).gcRegGCrefSetCur ∧
    (genUnspillRegIfNeeded (exCompiler (fun _ => exLcl .TYP_REF 0 false))
      { exNode 2 .GT_LCL_VAR .TYP_BYREF (.REG 3) 0 with GTF_SPILLED := true }
      (genSpillVar (exCompiler (fun _ => exLcl .TYP_REF 0 false))
        { exNode 1 .GT_LCL_VAR .TYP_REF (.REG 3) 0 with GTF_SPILL := true }
        (exState {3} ∅ {3} (fun _ => .REG 3))).2).2.lvRegNum 0 = .REG 3 ∧
    3 ∉ (genUnspillRegIfNeeded (exCompiler (fun _ => exLcl .TYP_REF 0 false))
      { exNode 2 .GT_LCL_VAR .TYP_BYREF (.REG 3) 0 with GTF_SPILLED := true }
      (genSpillVar (exCompiler (fun _ => exLcl .TYP_REF 0 false))
        { exNode 1 .GT_LCL_VAR .TYP_REF (.REG 3) 0 with GTF_SPILL := true }
        (exState {3} ∅ {3} (fun _ => .REG 3))).2).2.gcRegGCrefSetCur ∧
    3 ∈ (genUnspillRegIfNeeded (exCompiler (fun _ => exLcl .TYP_REF 0 false))
      { exNode 2 .GT_LCL_VAR .TYP_BYREF (.REG 3) 0 with GTF_SPILLED := true }
      (genSpillVar (exCompiler (fun _ => exLcl .TYP_REF 0 false))
        { exNode 1 .GT_LCL_VAR .TYP_REF (.REG 3) 0 with GTF_SPILL := true }
        (exState {3} ∅ {3} (fun _ => .REG 3))).2).2.gcRegByrefSetCur := by
  refine ⟨rfl, rfl, ?_, rfl, ?_, ?_⟩ <;> decide

/-- C12 (amended): for every ordinary (not always-alive-in-memory) register-candidate
local resident in register `r`, `genSpillVar` at a use followed by the reload of a
later `GTF_SPILLED` use into `r` through `genUnspillRegIfNeeded` (no re-spill)
leaves the local recorded in `r` (all recorded registers are as before the spill),
`r` in the live-variable register mask and the local outside the stack-slot set;
`r` is marked under the kind of the reload type, which is the type of the
reloading node when that is a GC type, so for a GC-typed local reloaded by a node
of the local's type `r` is in the GC register set of the local's kind; the store
and the load are the only instructions emitted.  When moreover the state before
the spill was consistent (`r` live, the local outside the stack-slot set, `r`
rooted under the local's kind only), the whole tracked state is restored and the
emitted store and load are the only difference. -/
theorem C12_spill_reload_round_trip (c : Compiler) (use1 use2 : GenTree) (s : CodeGen) (r : Nat)
    (hAlive : (c.lvaGetDesc use1.gtLclNum).IsAlwaysAliveInMemory = false)
    (hUse : use1.GTF_VAR_DEF = false) (hNotSpilled : use1.GTF_SPILLED = false)
    (hReg1 : use1.GetRegNum = .REG r) (hIn : s.lvRegNum use1.gtLclNum = .REG r)
    (hLcl : use2.gtLclNum = use1.gtLclNum) (hCand : genIsRegCandidateLocal c use2 = true)
    (hSpilled : use2.GTF_SPILLED = true) (hNoReSpill : use2.GTF_SPILL = false)
    (hReg2 : use2.GetRegNum = .REG r) :
    (genUnspillRegIfNeeded c use2 (genSpillVar c use1 s).2).2.lvRegNum = s.lvRegNum ∧
    r ∈ (genUnspillRegIfNeeded c use2 (genSpillVar c use1 s).2).2.rsMaskVars ∧
    (c.lvaGetDesc use1.gtLclNum).lvVarIndex ∉
      (genUnspillRegIfNeeded c use2 (genSpillVar c use1 s).2).2.gcVarPtrSetCur ∧
    ((r ∈ (genUnspillRegIfNeeded c use2 (genSpillVar c use1 s).2).2.gcRegGCrefSetCur ↔
        genUnspillRegIfNeeded_unspillType c use2 = .TYP_REF) ∧
      (r ∈ (genUnspillRegIfNeeded c use2 (genSpillVar c use1 s).2).2.gcRegByrefSetCur ↔
        genUnspillRegIfNeeded_unspillType c use2 = .TYP_BYREF)) ∧
    (varTypeIsGC use2.gtType = true →
      genUnspillRegIfNeeded_unspillType c use2 = use2.gtType) ∧
    (genUnspillRegIfNeeded c use2 (genSpillVar c use1 s).2).2.emitted =
      s.emitted ++ [instr.storeLcl use1.gtLclNum (.REG r), instr.loadLcl (.REG r) use1.gtLclNum] ∧
    (varTypeIsGC (c.lvaGetDesc use1.gtLclNum).lvType = true →
      use2.gtType = (c.lvaGetDesc use1.gtLclNum).lvType →
      r ∈ s.rsMaskVars → (c.lvaGetDesc use1.gtLclNum).lvVarIndex ∉ s.gcVarPtrSetCur →
      ((c.lvaGetDesc use1.gtLclNum).lvType = .TYP_REF →
        r ∈ s.gcRegGCrefSetCur ∧ r ∉ s.gcRegByrefSetCur) →
      ((c.lvaGetDesc use1.gtLclNum).lvType = .TYP_BYREF →
        r ∈ s.gcRegByrefSetCur ∧ r ∉ s.gcRegGCrefSetCur) →
      (genUnspillRegIfNeeded c use2 (genSpillVar c use1 s).2).2 =
        { s with emitted := s.emitted ++
            [instr.storeLcl use1.gtLclNum (.REG r), instr.loadLcl (.REG r) use1.gtLclNum] }) := by
  have hAlive2 : (c.lvaGetDesc use2.gtLclNum).IsAlwaysAliveInMemory = false := by
    rw [hLcl]; exact hAlive
  have hregs : (fun n => if n = use1.gtLclNum then regNumber.REG r
      else if n = use1.gtLclNum then regNumber.REG_STK else s.lvRegNum n) = s.lvRegNum := by
    funext n
    by_cases hn : n = use1.gtLclNum
    · simp [hn, hIn]
    · simp [hn]
  have hty : varTypeIsGC use2.gtType = true →
      genUnspillRegIfNeeded_unspillType c use2 = use2.gtType := by
    intro h
    unfold genUnspillRegIfNeeded_unspillType
    simp [h]
  rw [genUnspillRegIfNeeded_local_eq c use2 _ r hAlive2 hCand hSpilled hNoReSpill hReg2,
    genSpillVar_use_eq c use1 s r hAlive hUse hNotSpilled hReg1 hIn, hLcl]
  obtain ⟨f1, f2, f3, f4⟩ := gcMarkRegPtrVal_frame (.REG r)
    (genUnspillRegIfNeeded_unspillType c use2)
    { s with
      emitted := s.emitted ++ [instr.storeLcl use1.gtLclNum (.REG r)] ++
        [instr.loadLcl (.REG r) use1.gtLclNum],
      lvRegNum := fun n => if n = use1.gtLclNum then .REG r
        else if n = use1.gtLclNum then .REG_STK else s.lvRegNum n,
      gcVarPtrSetCur :=
        (if (c.lvaGetDesc use1.gtLclNum).lvVarIndex ∈ c.gcTrkStkPtrLcls then
          insert (c.lvaGetDesc use1.gtLclNum).lvVarIndex s.gcVarPtrSetCur
         else s.gcVarPtrSetCur).erase (c.lvaGetDesc use1.gtLclNum).lvVarIndex,
      rsMaskVars := s.rsMaskVars \ {r} ∪ {r},
      gcRegGCrefSetCur := s.gcRegGCrefSetCur \ {r},
      gcRegByrefSetCur := s.gcRegByrefSetCur \ {r} }
  refine ⟨?_, ?_, ?_, ?_, hty, ?_, ?_⟩
  · exact f1.trans hregs
  · rw [f3]; simp
  · rw [f2]; simp
  · exact gcMarkRegPtrVal_kind r _ _
  · rw [f4]; simp
  · intro hgc hsame hlive hstk href hbyref
    have hV : (if (c.lvaGetDesc use1.gtLclNum).lvVarIndex ∈ c.gcTrkStkPtrLcls then
          insert (c.lvaGetDesc use1.gtLclNum).lvVarIndex s.gcVarPtrSetCur
         else s.gcVarPtrSetCur).erase (c.lvaGetDesc use1.gtLclNum).lvVarIndex =
        s.gcVarPtrSetCur := by
      split_ifs
      · rw [Finset.erase_insert hstk]
      · exact Finset.erase_eq_of_not_mem hstk
    have hM : s.rsMaskVars \ {r} ∪ {r} = s.rsMaskVars := by
      ext x
      simp only [Finset.mem_union, Finset.mem_sdiff, Finset.mem_singleton]
      constructor
      · rintro (⟨h, _⟩ | h)
        · exact h
        · rw [h]; exact hlive
      · intro h
        by_cases hx : x = r
        · exact Or.inr hx
        · exact Or.inl ⟨h, hx⟩
    have hUT : genUnspillRegIfNeeded_unspillType c use2 = (c.lvaGetDesc use1.gtLclNum).lvType := by
      rw [hty (hsame ▸ hgc), hsame]
    rw [hUT, hV, hM, hregs]
    have hcases : (c.lvaGetDesc use1.gtLclNum).lvType = .TYP_REF ∨
        (c.lvaGetDesc use1.gtLclNum).lvType = .TYP_BYREF := by
      unfold varTypeIsGC at hgc
      simpa using hgc
    rcases s with ⟨G, B, V, M, L, R, E, tu, tf, tc, sd, tr⟩
    rcases hcases with h | h
    · obtain ⟨h1, h2⟩ := href h
      simp only at h1 h2
      rw [h]
      simp only [gcMarkRegPtrVal, gcMarkRegSetGCref, genRegMask, List.append_assoc,
        List.singleton_append, CodeGen.mk.injEq, and_true, true_and]
      constructor
      · ext x
        simp only [Finset.mem_union, Finset.mem_sdiff, Finset.mem_singleton]
        constructor
        · rintro (⟨hx, _⟩ | hx)
          · exact hx
          · rw [hx]; exact h1
        · intro hx
          by_cases hxr : x = r
          · exact Or.inr hxr
          · exact Or.inl ⟨hx, hxr⟩
      · ext x
        simp only [Finset.mem_sdiff, Finset.mem_singleton]
        constructor
        · rintro ⟨⟨hx, _⟩, _⟩; exact hx
        · intro hx
          have : x ≠ r := fun hxr => h2 (hxr ▸ hx)
          exact ⟨⟨hx, this⟩, this⟩
    · obtain ⟨h1, h2⟩ := hbyref h
      simp only at h1 h2
      rw [h]
      simp only [gcMarkRegPtrVal, gcMarkRegSetByref, genRegMask, List.append_assoc,
        List.singleton_append, CodeGen.mk.injEq, and_true, true_and]
      constructor
      · ext x
        simp only [Finset.mem_sdiff, Finset.mem_singleton]
        constructor
        · rintro ⟨⟨hx, _⟩, _⟩; exact hx
        · intro hx
          have : x ≠ r := fun hxr => h2 (hxr ▸ hx)
          exact ⟨⟨hx, this⟩, this⟩
      · ext x
        simp only [Finset.mem_union, Finset.mem_sdiff, Finset.mem_singleton]
        constructor
        · rintro (⟨hx, _⟩ | hx)
          · exact hx
          · rw [hx]; exact h1
        · intro hx
          by_cases hxr : x = r
          · exact Or.inr hxr
          · exact Or.inl ⟨hx, hxr⟩

/-- C12 (amended) at a concrete input: local 0 (`TYP_REF`, register 3, rooted, live)
is spilled at a use and reloaded by a `TYP_REF` use; the state is the one before
the spill plus the store and the load. -/
theorem C12_spill_reload_round_trip_witness :
    (genUnspillRegIfNeeded (exCompiler (fun _ => exLcl .TYP_REF 0 false))
      { exNode 2 .GT_LCL_VAR .TYP_REF (.REG 3) 0 with GTF_SPILLED := true }
      (genSpillVar (exCompiler (fun _ => exLcl .TYP_REF 0 false))
        { exNode 1 .GT_LCL_VAR .TYP_REF (.REG 3) 0 with GTF_SPILL := true }
        (exState {3} ∅ {3} (fun _ => .REG 3))).2).2 =
      { exState {3} ∅ {3} (fun _ => .REG 3) with
        emitted := [instr.storeLcl 0 (.REG 3), instr.loadLcl (.REG 3) 0] } :=
  (C12_spill_reload_round_trip (exCompiler (fun _ => exLcl .TYP_REF 0 false))
    { exNode 1 .GT_LCL_VAR .TYP_REF (.REG 3) 0 with GTF_SPILL := true }
    { exNode 2 .GT_LCL_VAR .TYP_REF (.REG 3) 0 with GTF_SPILLED := true }
    (exState {3} ∅ {3} (fun _ => .REG 3)) 3 rfl rfl rfl rfl rfl rfl rfl rfl rfl rfl).2.2.2.2.2.2
    rfl rfl (by decide) (by decide) (fun _ => ⟨by decide, by decide⟩)
    (fun h => by cases h)

/-! Integer-cast planning -/

theorem GenIntCastDesc_reg (tgt : Target) (cast : GenTreeCast)
    (hReg : cast.CastOp_isUsedFromReg = true) :
    GenIntCastDesc.GenIntCastDesc tgt cast = some (GenIntCastDesc.plan tgt cast) := by
  unfold GenIntCastDesc.GenIntCastDesc
  simp [hReg]

theorem foldLoad_checkKind (tgt : Target) (cast : GenTreeCast) (d e : GenIntCastDesc)
    (h : GenIntCastDesc.foldLoad tgt cast d = some e) :
    e.m_checkKind = d.m_checkKind ∧ e.m_checkSrcSize = d.m_checkSrcSize ∧
    e.m_checkSmallIntMin = d.m_checkSmallIntMin ∧ e.m_checkSmallIntMax = d.m_checkSmallIntMax := by
  unfold GenIntCastDesc.foldLoad at h
  simp only [] at h
  split at h
  · cases h; exact ⟨rfl, rfl, rfl, rfl⟩
  · cases h; exact ⟨rfl, rfl, rfl, rfl⟩
  · split at h
    · cases h; exact ⟨rfl, rfl, rfl, rfl⟩
    · cases h
  · split at h
    · cases h; exact ⟨rfl, rfl, rfl, rfl⟩
    · cases h
  · cases h; exact ⟨rfl, rfl, rfl, rfl⟩
  · cases h

theorem plan_extendKind (tgt : Target) (cast : GenTreeCast) :
    (GenIntCastDesc.plan tgt cast).m_extendKind = .COPY ∨
    (GenIntCastDesc.plan tgt cast).m_extendKind = .ZERO_EXTEND_SMALL_INT ∨
    (GenIntCastDesc.plan tgt cast).m_extendKind = .SIGN_EXTEND_SMALL_INT ∨
    (tgt.TARGET_64BIT = true ∧
      ((GenIntCastDesc.plan tgt cast).m_extendKind = .ZERO_EXTEND_INT ∨
       (GenIntCastDesc.plan tgt cast).m_extendKind = .SIGN_EXTEND_INT)) := by
  unfold GenIntCastDesc.plan
  simp only []
  split_ifs <;> simp_all

theorem foldLoad_isSome (tgt : Target) (cast : GenTreeCast) (d : GenIntCastDesc)
    (h : d.m_extendKind = .COPY ∨ d.m_extendKind = .ZERO_EXTEND_SMALL_INT ∨
      d.m_extendKind = .SIGN_EXTEND_SMALL_INT ∨
      (tgt.TARGET_64BIT = true ∧
        (d.m_extendKind = .ZERO_EXTEND_INT ∨ d.m_extendKind = .SIGN_EXTEND_INT))) :
    ∃ e, GenIntCastDesc.foldLoad tgt cast d = some e := by
  unfold GenIntCastDesc.foldLoad
  rcases h with h | h | h | ⟨h64, h | h⟩ <;> simp [h, *]

/-- The constructor never reaches `unreached()`: the extension planned from the
sizes is one the load switch of the target handles; folding the extension into a
load does not change the planned check. -/
theorem GenIntCastDesc_isSome (tgt : Target) (cast : GenTreeCast) :
    ∃ d, GenIntCastDesc.GenIntCastDesc tgt cast = some d ∧
      d.m_checkKind = (GenIntCastDesc.plan tgt cast).m_checkKind ∧
      d.m_checkSrcSize = (GenIntCastDesc.plan tgt cast).m_checkSrcSize ∧
      d.m_checkSmallIntMin = (GenIntCastDesc.plan tgt cast).m_checkSmallIntMin ∧
      d.m_checkSmallIntMax = (GenIntCastDesc.plan tgt cast).m_checkSmallIntMax := by
  cases hReg : cast.CastOp_isUsedFromReg
  · obtain ⟨e, he⟩ := foldLoad_isSome tgt cast _ (plan_extendKind tgt cast)
    refine ⟨e, ?_, foldLoad_checkKind tgt cast _ e he⟩
    unfold GenIntCastDesc.GenIntCastDesc
    simp [hReg, he]
  · exact ⟨_, GenIntCastDesc_reg tgt cast hReg, rfl, rfl, rfl, rfl⟩

theorem plan_small_checked (tgt : Target) (cast : GenTreeCast)
    (hSmall : genTypeSize cast.gtCastType < 4) (hOvf : cast.gtOverflow = true) :
    GenIntCastDesc.plan tgt cast =
      { m_checkKind := .CHECK_SMALL_INT_RANGE,
        m_checkSrcSize := genTypeSize (genActualType cast.CastOp_TypeGet),
        m_checkSmallIntMax := GenIntCastDesc_checkSmallIntMax
          (GenIntCastDesc_castNumBits (genTypeSize cast.gtCastType)
            (varTypeIsUnsigned cast.gtCastType)),
        m_checkSmallIntMin := GenIntCastDesc_checkSmallIntMin
          (varTypeIsUnsigned cast.gtCastType) cast.IsUnsigned
          (GenIntCastDesc_checkSmallIntMax
            (GenIntCastDesc_castNumBits (genTypeSize cast.gtCastType)
              (varTypeIsUnsigned cast.gtCastType))),
        m_extendKind := .COPY,
        m_extendSrcSize := genTypeSize (genActualType cast.gtType) } := by
  unfold GenIntCastDesc.plan
  simp only [hSmall, hOvf, if_true]

theorem plan_small_unchecked (tgt : Target) (cast : GenTreeCast)
    (hSmall : genTypeSize cast.gtCastType < 4) (hOvf : cast.gtOverflow = false) :
    GenIntCastDesc.plan tgt cast =
      { m_checkKind := .CHECK_NONE, m_checkSrcSize := 0, m_checkSmallIntMax := 0,
        m_checkSmallIntMin := 0,
        m_extendKind := if varTypeIsUnsigned cast.gtCastType then .ZERO_EXTEND_SMALL_INT
                        else .SIGN_EXTEND_SMALL_INT,
        m_extendSrcSize := genTypeSize cast.gtCastType } := by
  unfold GenIntCastDesc.plan
  simp only [hSmall, hOvf, if_true, Bool.false_eq_true, if_false]

theorem plan_widen (tgt : Target) (cast : GenTreeCast) (h64 : tgt.TARGET_64BIT = true)
    (hSrc : genTypeSize (genActualType cast.CastOp_TypeGet) = 4)
    (hCast : genTypeSize cast.gtCastType = 8) :
    GenIntCastDesc.plan tgt cast =
      (if cast.gtOverflow && !cast.IsUnsigned && varTypeIsUnsigned cast.gtCastType then
        { m_checkKind := .CHECK_POSITIVE, m_checkSrcSize := 4, m_checkSmallIntMax := 0,
          m_checkSmallIntMin := 0, m_extendKind := .ZERO_EXTEND_INT, m_extendSrcSize := 4 }
      else
        { m_checkKind := .CHECK_NONE, m_checkSrcSize := 0, m_checkSmallIntMax := 0,
          m_checkSmallIntMin := 0,
          m_extendKind := if cast.IsUnsigned then .ZERO_EXTEND_INT else .SIGN_EXTEND_INT,
          m_extendSrcSize := 4 }) := by
  unfold GenIntCastDesc.plan
  simp [hSrc, hCast, h64]

theorem plan_narrow (tgt : Target) (cast : GenTreeCast) (h64 : tgt.TARGET_64BIT = true)
    (hSrc : genTypeSize (genActualType cast.CastOp_TypeGet) = 8)
    (hCast : genTypeSize cast.gtCastType = 4) :
    GenIntCastDesc.plan tgt cast =
      { m_checkKind :=
          (if cast.gtOverflow then
            if varTypeIsUnsigned cast.gtCastType then .CHECK_UINT_RANGE
            else if cast.IsUnsigned then .CHECK_POSITIVE_INT_RANGE
            else .CHECK_INT_RANGE
          else .CHECK_NONE),
        m_checkSrcSize := if cast.gtOverflow then 8 else 0,
        m_checkSmallIntMax := 0, m_checkSmallIntMin := 0,
        m_extendKind := if tgt.TARGET_LOONGARCH64_OR_RISCV64 then .SIGN_EXTEND_INT else .COPY,
        m_extendSrcSize := 4 } := by
  unfold GenIntCastDesc.plan
  simp [hSrc, hCast, h64]

theorem plan_same (tgt : Target) (cast : GenTreeCast)
    (hEq : genTypeSize cast.gtCastType = genTypeSize (genActualType cast.CastOp_TypeGet))
    (hBig : 4 ≤ genTypeSize cast.gtCastType) :
    GenIntCastDesc.plan tgt cast =
      { m_checkKind :=
          (if cast.gtOverflow && (cast.IsUnsigned != varTypeIsUnsigned cast.gtCastType) then
            .CHECK_POSITIVE else .CHECK_NONE),
        m_checkSrcSize :=
          (if cast.gtOverflow && (cast.IsUnsigned != varTypeIsUnsigned cast.gtCastType) then
            genTypeSize (genActualType cast.CastOp_TypeGet) else 0),
        m_checkSmallIntMax := 0, m_checkSmallIntMin := 0,
        m_extendKind := .COPY,
        m_extendSrcSize := genTypeSize (genActualType cast.CastOp_TypeGet) } := by
  have h1 : ¬ genTypeSize cast.gtCastType < 4 := Nat.not_lt.mpr hBig
  unfold GenIntCastDesc.plan
  simp only [h1, if_false, ← hEq, gt_iff_lt, lt_self_iff_false, decide_False, Bool.and_false,
    Bool.false_eq_true]
  split_ifs <;> rfl

/-- C13: for every integer cast whose cast-to type is narrower than 32 bits, the
descriptor has check kind `CHECK_NONE` if and only if the cast does not request
overflow checking; when overflow checking is requested the check kind is
`CHECK_SMALL_INT_RANGE` with check source size equal to the source size. -/
theorem C13_small_int_check_kind (tgt : Target) (cast : GenTreeCast)
    (hSmall : genTypeSize cast.gtCastType < 4) :
    ∃ d, GenIntCastDesc.GenIntCastDesc tgt cast = some d ∧
      (d.m_checkKind = .CHECK_NONE ↔ cast.gtOverflow = false) ∧
      (cast.gtOverflow = true →
        d.m_checkKind = .CHECK_SMALL_INT_RANGE ∧
        d.m_checkSrcSize = genTypeSize (genActualType cast.CastOp_TypeGet)) := by
  obtain ⟨d, hd, hk, hs, _, _⟩ := GenIntCastDesc_isSome tgt cast
  refine ⟨d, hd, ?_, ?_⟩
  · rw [hk]
    cases hOvf : cast.gtOverflow
    · rw [plan_small_unchecked tgt cast hSmall hOvf]
      simp
    · rw [plan_small_checked tgt cast hSmall hOvf]
      simp
  · intro hOvf
    rw [hk, hs, plan_small_checked tgt cast hSmall hOvf]
    exact ⟨rfl, rfl⟩

/-- C13 at a concrete input: the overflow-checked cast of an `int` in a register to
`byte` gets the small-range check on a 4-byte source. -/
theorem C13_small_int_check_kind_witness :
    ∃ d, GenIntCastDesc.GenIntCastDesc exTarget64 (exCastToByte false true) = some d ∧
      d.m_checkKind = .CHECK_SMALL_INT_RANGE ∧ d.m_checkSrcSize = 4 := by
  obtain ⟨d, hd, _, h⟩ := C13_small_int_check_kind exTarget64 (exCastToByte false true)
    (by decide)
  exact ⟨d, hd, (h rfl).1, (h rfl).2⟩

/-- C14, as stated, fails for an unsigned source and a signed destination: the
overflow-checked cast of an unsigned `int` to `byte` (signed, 8 bits) gets the
bounds `[0, 127]`, not the representable range `[-128, 127]` of the destination. -/
theorem C14_small_int_bounds_counterexample :
    varTypeIsUnsigned (exCastToByte true true).gtCastType = false ∧
    genTypeSize (exCastToByte true true).gtCastType = 1 ∧
    GenIntCastDesc.asserts exTarget64 (exCastToByte true true) = true ∧
    (GenIntCastDesc.GenIntCastDesc exTarget64 (exCastToByte true true)).map
      (fun d => (d.m_checkKind, d.m_checkSmallIntMin, d.m_checkSmallIntMax)) =
      some (.CHECK_SMALL_INT_RANGE, 0, 127) ∧
    (0 : Int) ≠ -2 ^ (8 - 1) := by
  refine ⟨rfl, rfl, ?_, ?_, ?_⟩ <;> decide

/-- C14 (amended): for every overflow-checked cast to a small integer type (1 or 2
bytes, `n` bits), the upper bound is the largest value of the destination type,
`2^(n-1) - 1` for a signed and `2^n - 1` for an unsigned destination; the lower
bound is `-2^(n-1)` when source and destination are both signed and `0` when the
destination or the source is unsigned; and the 32-bit `int` computation does not
overflow: the bit count, the shift `1 << castNumBits`, the decrement and the
negation all have their exact mathematical values. -/
theorem C14_small_int_bounds (tgt : Target) (cast : GenTreeCast)
    (hOvf : cast.gtOverflow = true)
    (hSize : genTypeSize cast.gtCastType = 1 ∨ genTypeSize cast.gtCastType = 2) :
    ∃ d, GenIntCastDesc.GenIntCastDesc tgt cast = some d ∧
      d.m_checkSmallIntMax =
        (if varTypeIsUnsigned cast.gtCastType then 2 ^ (8 * genTypeSize cast.gtCastType) - 1
         else 2 ^ (8 * genTypeSize cast.gtCastType - 1) - 1) ∧
      d.m_checkSmallIntMin =
        (if varTypeIsUnsigned cast.gtCastType || cast.IsUnsigned then 0
         else -2 ^ (8 * genTypeSize cast.gtCastType - 1)) ∧
      GenIntCastDesc_castNumBits (genTypeSize cast.gtCastType)
          (varTypeIsUnsigned cast.gtCastType) =
        (8 * genTypeSize cast.gtCastType : Int) -
          (if varTypeIsUnsigned cast.gtCastType then 0 else 1) ∧
      toInt32 (2 ^ (GenIntCastDesc_castNumBits (genTypeSize cast.gtCastType)
          (varTypeIsUnsigned cast.gtCastType)).toNat) =
        2 ^ (GenIntCastDesc_castNumBits (genTypeSize cast.gtCastType)
          (varTypeIsUnsigned cast.gtCastType)).toNat ∧
      toInt32 (-d.m_checkSmallIntMax) = -d.m_checkSmallIntMax ∧
      toInt32 (-d.m_checkSmallIntMax - 1) = -d.m_checkSmallIntMax - 1 := by
  have hSmall : genTypeSize cast.gtCastType < 4 := by
    rcases hSize with h | h <;> omega
  obtain ⟨d, hd, _, _, hmin, hmax⟩ := GenIntCastDesc_isSome tgt cast
  refine ⟨d, hd, ?_⟩
  rw [hmin, hmax, plan_small_checked tgt cast hSmall hOvf]
  simp only []
  rcases hSize with h | h <;> rw [h] <;>
    cases varTypeIsUnsigned cast.gtCastType <;> cases cast.IsUnsigned <;> decide

/-- C14 (amended) at a concrete input: the overflow-checked cast of a signed `int`
to `byte` gets the bounds `[-128, 127]`. -/
theorem C14_small_int_bounds_witness :
    ∃ d, GenIntCastDesc.GenIntCastDesc exTarget64 (exCastToByte false true) = some d ∧
      d.m_checkSmallIntMax = 127 ∧ d.m_checkSmallIntMin = -128 := by
  obtain ⟨d, hd, h1, h2, _⟩ := C14_small_int_bounds exTarget64 (exCastToByte false true) rfl
    (Or.inl rfl)
  exact ⟨d, hd, h1, h2⟩

/-- C15, as stated, fails: for the cast of an `int` in a register to `byte` the
plan with overflow checking extends by `COPY` with extend source size 4, while
the plan without overflow checking extends by `SIGN_EXTEND_SMALL_INT` with extend
source size 1; the two plans differ in more than the check kind. -/
theorem C15_small_int_extension_counterexample :
    GenIntCastDesc.asserts exTarget64 (exCastToByte false true) = true ∧
    GenIntCastDesc.asserts exTarget64 (exCastToByte false false) = true ∧
    (GenIntCastDesc.GenIntCastDesc exTarget64 (exCastToByte false true)).map
      (fun d => (d.m_checkKind, d.m_extendKind, d.m_extendSrcSize)) =
      some (.CHECK_SMALL_INT_RANGE, .COPY, 4) ∧
    (GenIntCastDesc.GenIntCastDesc exTarget64 (exCastToByte false false)).map
      (fun d => (d.m_checkKind, d.m_extendKind, d.m_extendSrcSize)) =
      some (.CHECK_NONE, .SIGN_EXTEND_SMALL_INT, 1) := by
  refine ⟨?_, ?_, ?_, ?_⟩ <;> decide

/-- C15 (amended): for every cast to a small integer type with a register source,
the plan with overflow checking has check kind `CHECK_SMALL_INT_RANGE` and extends
by a plain `COPY` with extend source size equal to the size of the actual type of
the cast node (the value that passed the range check is copied as is), whatever
the destination signedness; the plan without overflow checking has check kind
`CHECK_NONE` and sign- or zero-extends per the destination signedness with extend
source size equal to the size of the destination type.  The two plans differ in
the check kind and in the extend kind. -/
theorem C15_small_int_extension (tgt : Target) (cast : GenTreeCast)
    (hSmall : genTypeSize cast.gtCastType < 4) (hReg : cast.CastOp_isUsedFromReg = true) :
    ∃ dc du,
      GenIntCastDesc.GenIntCastDesc tgt { cast with gtOverflow := true } = some dc ∧
      GenIntCastDesc.GenIntCastDesc tgt { cast with gtOverflow := false } = some du ∧
      dc.m_checkKind = .CHECK_SMALL_INT_RANGE ∧ dc.m_extendKind = .COPY ∧
      dc.m_extendSrcSize = genTypeSize (genActualType cast.gtType) ∧
      du.m_checkKind = .CHECK_NONE ∧
      du.m_extendKind = (if varTypeIsUnsigned cast.gtCastType then .ZERO_EXTEND_SMALL_INT
                         else .SIGN_EXTEND_SMALL_INT) ∧
      du.m_extendSrcSize = genTypeSize cast.gtCastType ∧
      dc.m_extendKind ≠ du.m_extendKind := by
  refine ⟨_, _, GenIntCastDesc_reg tgt _ hReg, GenIntCastDesc_reg tgt _ hReg, ?_⟩
  rw [plan_small_checked tgt { cast with gtOverflow := true } hSmall rfl,
    plan_small_unchecked tgt { cast with gtOverflow := false } hSmall rfl]
  refine ⟨rfl, rfl, rfl, rfl, rfl, rfl, ?_⟩
  simp only []
  split_ifs <;> simp

/-- C15 (amended) at a concrete input: the cast of an `int` in a register to `byte`. -/
theorem C15_small_int_extension_witness :
    ∃ dc du,
      GenIntCastDesc.GenIntCastDesc exTarget64 (exCastToByte false true) = some dc ∧
      GenIntCastDesc.GenIntCastDesc exTarget64 (exCastToByte false false) = some du ∧
      dc.m_extendKind = .COPY ∧ du.m_extendKind = .SIGN_EXTEND_SMALL_INT := by
  obtain ⟨dc, du, h1, h2, _, h3, _, _, h4, _⟩ :=
    C15_small_int_extension exTarget64 (exCastToByte false false) (by decide) rfl
  exact ⟨dc, du, h1, h2, h3, h4⟩

/-- C16: for every unchecked cast to a small integer type with a register source,
the descriptor plans `ZERO_EXTEND_SMALL_INT` when the destination type is unsigned
and `SIGN_EXTEND_SMALL_INT` when it is signed, whatever the source signedness and
source size, with extend source size equal to the size of the destination type. -/
theorem C16_small_int_unchecked (tgt : Target) (cast : GenTreeCast)
    (hSmall : genTypeSize cast.gtCastType < 4) (hOvf : cast.gtOverflow = false)
    (hReg : cast.CastOp_isUsedFromReg = true) :
    ∃ d, GenIntCastDesc.GenIntCastDesc tgt cast = some d ∧
      (varTypeIsUnsigned cast.gtCastType = true → d.m_extendKind = .ZERO_EXTEND_SMALL_INT) ∧
      (varTypeIsUnsigned cast.gtCastType = false → d.m_extendKind = .SIGN_EXTEND_SMALL_INT) ∧
      d.m_extendSrcSize = genTypeSize cast.gtCastType := by
  refine ⟨_, GenIntCastDesc_reg tgt cast hReg, ?_⟩
  rw [plan_small_unchecked tgt cast hSmall hOvf]
  refine ⟨?_, ?_, rfl⟩
  · intro h; simp [h]
  · intro h; simp [h]

/-- C16 at a concrete input: the unchecked cast of an unsigned `int` in a register
to `byte` sign-extends from one byte. -/
theorem C16_small_int_unchecked_witness :
    ∃ d, GenIntCastDesc.GenIntCastDesc exTarget64 (exCastToByte true false) = some d ∧
      d.m_extendKind = .SIGN_EXTEND_SMALL_INT ∧ d.m_extendSrcSize = 1 := by
  obtain ⟨d, hd, _, h2, h3⟩ :=
    C16_small_int_unchecked exTarget64 (exCastToByte true false) (by decide) rfl rfl
  exact ⟨d, hd, h2 rfl, h3⟩

/-- C17: on a 64-bit target, for every cast from a 4-byte source to an 8-byte type
with a register source, the check kind is `CHECK_POSITIVE` (on a 4-byte source)
exactly when overflow checking is requested, the source is signed and the
destination is unsigned, and then the extension is `ZERO_EXTEND_INT`; in every
other combination the check kind is `CHECK_NONE` and the extension is
`ZERO_EXTEND_INT` for an unsigned and `SIGN_EXTEND_INT` for a signed source; the
extend source size is 4. -/
theorem C17_widening (tgt : Target) (cast : GenTreeCast) (h64 : tgt.TARGET_64BIT = true)
    (hSrc : genTypeSize (genActualType cast.CastOp_TypeGet) = 4)
    (hCast : genTypeSize cast.gtCastType = 8) (hReg : cast.CastOp_isUsedFromReg = true) :
    ∃ d, GenIntCastDesc.GenIntCastDesc tgt cast = some d ∧
      (d.m_checkKind = .CHECK_POSITIVE ↔
        (cast.gtOverflow = true ∧ cast.IsUnsigned = false ∧
          varTypeIsUnsigned cast.gtCastType = true)) ∧
      (d.m_checkKind = .CHECK_POSITIVE →
        d.m_checkSrcSize = 4 ∧ d.m_extendKind = .ZERO_EXTEND_INT) ∧
      (d.m_checkKind ≠ .CHECK_POSITIVE →
        d.m_checkKind = .CHECK_NONE ∧
        d.m_extendKind = (if cast.IsUnsigned then .ZERO_EXTEND_INT else .SIGN_EXTEND_INT)) ∧
      d.m_extendSrcSize = 4 := by
  refine ⟨_, GenIntCastDesc_reg tgt cast hReg, ?_⟩
  rw [plan_widen tgt cast h64 hSrc hCast]
  cases cast.gtOverflow <;> cases cast.IsUnsigned <;>
    cases varTypeIsUnsigned cast.gtCastType <;> simp

/-- C17 at a concrete input: the overflow-checked cast of a signed `int` to `ulong`
checks that the value is positive and zero-extends. -/
theorem C17_widening_witness :
    (∃ d, GenIntCastDesc.GenIntCastDesc exTarget64 (exCastWide .TYP_INT .TYP_ULONG false true)
        = some d ∧ d.m_checkKind = .CHECK_POSITIVE ∧ d.m_extendKind = .ZERO_EXTEND_INT) := by
  obtain ⟨d, hd, h1, h2, _⟩ := C17_widening exTarget64
    (exCastWide .TYP_INT .TYP_ULONG false true) rfl rfl rfl rfl
  exact ⟨d, hd, h1.mpr ⟨rfl, rfl, rfl⟩, (h2 (h1.mpr ⟨rfl, rfl, rfl⟩)).2⟩

/-- C18: on a 64-bit target, for every cast from an 8-byte source to a 4-byte type,
the check kind is `CHECK_NONE` without overflow checking; with overflow checking
it is `CHECK_UINT_RANGE` when the destination is unsigned,
`CHECK_POSITIVE_INT_RANGE` when the source is unsigned and the destination signed,
and `CHECK_INT_RANGE` when both are signed, with check source size 8.  With a
register source on a target other than LoongArch64 and RISC-V64 the extension is a
plain `COPY` with extend source size 4. -/
theorem C18_narrowing (tgt : Target) (cast : GenTreeCast) (h64 : tgt.TARGET_64BIT = true)
    (hSrc : genTypeSize (genActualType cast.CastOp_TypeGet) = 8)
    (hCast : genTypeSize cast.gtCastType = 4) :
    ∃ d, GenIntCastDesc.GenIntCastDesc tgt cast = some d ∧
      (cast.gtOverflow = false → d.m_checkKind = .CHECK_NONE) ∧
      (cast.gtOverflow = true →
        d.m_checkSrcSize = 8 ∧
        (varTypeIsUnsigned cast.gtCastType = true → d.m_checkKind = .CHECK_UINT_RANGE) ∧
        (varTypeIsUnsigned cast.gtCastType = false → cast.IsUnsigned = true →
          d.m_checkKind = .CHECK_POSITIVE_INT_RANGE) ∧
        (varTypeIsUnsigned cast.gtCastType = false → cast.IsUnsigned = false →
          d.m_checkKind = .CHECK_INT_RANGE)) ∧
      (cast.CastOp_isUsedFromReg = true → tgt.TARGET_LOONGARCH64_OR_RISCV64 = false →
        d.m_extendKind = .COPY ∧ d.m_extendSrcSize = 4) := by
  obtain ⟨d, hd, hk, hs, _, _⟩ := GenIntCastDesc_isSome tgt cast
  refine ⟨d, hd, ?_, ?_, ?_⟩
  · intro hOvf
    rw [hk, plan_narrow tgt cast h64 hSrc hCast]
    simp [hOvf]
  · intro hOvf
    rw [hk, hs, plan_narrow tgt cast h64 hSrc hCast]
    simp only [hOvf, if_true]
    refine ⟨trivial, ?_, ?_, ?_⟩
    · intro h; simp [h]
    · intro h1 h2; simp [h1, h2]
    · intro h1 h2; simp [h1, h2]
  · intro hReg hArch
    rw [GenIntCastDesc_reg tgt cast hReg] at hd
    cases hd
    rw [plan_narrow tgt cast h64 hSrc hCast]
    simp [hArch]

/-- C18 at a concrete input: the overflow-checked cast of an unsigned `long` in a
register to `int` gets the positive-int-range check on an 8-byte source and a
plain copy. -/
theorem C18_narrowing_witness :
    ∃ d, GenIntCastDesc.GenIntCastDesc exTarget64 (exCastWide .TYP_LONG .TYP_INT true true)
        = some d ∧
      d.m_checkKind = .CHECK_POSITIVE_INT_RANGE ∧ d.m_checkSrcSize = 8 ∧
      d.m_extendKind = .COPY ∧ d.m_extendSrcSize = 4 := by
  obtain ⟨d, hd, _, h2, h3⟩ := C18_narrowing exTarget64
    (exCastWide .TYP_LONG .TYP_INT true true) rfl rfl rfl
  exact ⟨d, hd, (h2 rfl).2.2.1 rfl rfl, (h2 rfl).1, (h3 rfl rfl).1, (h3 rfl rfl).2⟩

/-- C19: for every cast whose cast-to size equals the source size (4 or 8 bytes)
with a register source, the check kind is `CHECK_POSITIVE` if and only if overflow
checking is requested and source and destination signedness differ, otherwise
`CHECK_NONE`; the extension is always `COPY` with extend source size equal to the
source size. -/
theorem C19_same_size (tgt : Target) (cast : GenTreeCast)
    (hEq : genTypeSize cast.gtCastType = genTypeSize (genActualType cast.CastOp_TypeGet))
    (hSize : genTypeSize cast.gtCastType = 4 ∨ genTypeSize cast.gtCastType = 8)
    (hReg : cast.CastOp_isUsedFromReg = true) :
    ∃ d, GenIntCastDesc.GenIntCastDesc tgt cast = some d ∧
      (d.m_checkKind = .CHECK_POSITIVE ↔
        (cast.gtOverflow = true ∧ cast.IsUnsigned ≠ varTypeIsUnsigned cast.gtCastType)) ∧
      (d.m_checkKind ≠ .CHECK_POSITIVE → d.m_checkKind = .CHECK_NONE) ∧
      d.m_extendKind = .COPY ∧
      d.m_extendSrcSize = genTypeSize (genActualType cast.CastOp_TypeGet) := by
  have hBig : 4 ≤ genTypeSize cast.gtCastType := by
    rcases hSize with h | h <;> omega
  refine ⟨_, GenIntCastDesc_reg tgt cast hReg, ?_⟩
  rw [plan_same tgt cast hEq hBig]
  cases cast.gtOverflow <;> cases cast.IsUnsigned <;>
    cases varTypeIsUnsigned cast.gtCastType <;> simp

/-- C19 at a concrete input: the overflow-checked cast of a signed `long` in a
register to `ulong` checks that the value is positive and copies 8 bytes. -/
theorem C19_same_size_witness :
    ∃ d, GenIntCastDesc.GenIntCastDesc exTarget64 (exCastWide .TYP_LONG .TYP_ULONG false true)
        = some d ∧
      d.m_checkKind = .CHECK_POSITIVE ∧ d.m_extendKind = .COPY ∧ d.m_extendSrcSize = 8 := by
  obtain ⟨d, hd, h1, _, h3, h4⟩ := C19_same_size exTarget64
    (exCastWide .TYP_LONG .TYP_ULONG false true) rfl (Or.inr rfl) rfl
  exact ⟨d, hd, h1.mpr ⟨rfl, by decide⟩, h3, h4⟩

/-- C20, as stated, fails: the overflow-checked cast of a 64-bit `long` in a
register to the unsigned 32-bit type `uint` gets the full range check
`CHECK_UINT_RANGE` on an 8-byte source, not the non-negative-only check
`CHECK_POSITIVE`.  (The descriptor is computed from the types and flags of the
cast alone; nothing it reads describes a statically known range of the value.) -/
theorem C20_long_to_uint_counterexample :
    GenIntCastDesc.asserts exTarget64 (exCastWide .TYP_LONG .TYP_UINT false true) = true ∧
    (GenIntCastDesc.GenIntCastDesc exTarget64 (exCastWide .TYP_LONG .TYP_UINT false true)).map
      (fun d => (d.m_checkKind, d.m_checkSrcSize, d.m_extendKind, d.m_extendSrcSize)) =
      some (.CHECK_UINT_RANGE, 8, .COPY, 4) ∧
    CheckKind.CHECK_UINT_RANGE ≠ CheckKind.CHECK_POSITIVE := by
  refine ⟨?_, ?_, ?_⟩ <;> decide

/-- C20 (amended): on a 64-bit target, for every cast of a 64-bit source value to
an unsigned 32-bit type with overflow checking requested, the plan uses the full
range check `CHECK_UINT_RANGE` on an 8-byte source, for a signed and for an
unsigned source alike, and never the non-negative-only check `CHECK_POSITIVE`. -/
theorem C20_long_to_uint (tgt : Target) (cast : GenTreeCast) (h64 : tgt.TARGET_64BIT = true)
    (hSrc : genTypeSize (genActualType cast.CastOp_TypeGet) = 8)
    (hCast : genTypeSize cast.gtCastType = 4)
    (hUns : varTypeIsUnsigned cast.gtCastType = true) (hOvf : cast.gtOverflow = true) :
    ∃ d, GenIntCastDesc.GenIntCastDesc tgt cast = some d ∧
      d.m_checkKind = .CHECK_UINT_RANGE ∧ d.m_checkSrcSize = 8 ∧
      d.m_checkKind ≠ .CHECK_POSITIVE := by
  obtain ⟨d, hd, hk, hs, _, _⟩ := GenIntCastDesc_isSome tgt cast
  refine ⟨d, hd, ?_⟩
  rw [hk, hs, plan_narrow tgt cast h64 hSrc hCast]
  simp [hOvf, hUns]

/-- C20 (amended) at a concrete input: the overflow-checked cast of an unsigned
`long` to `uint`. -/
theorem C20_long_to_uint_witness :
    ∃ d, GenIntCastDesc.GenIntCastDesc exTarget64 (exCastWide .TYP_LONG .TYP_UINT true true)
        = some d ∧ d.m_checkKind = .CHECK_UINT_RANGE ∧ d.m_checkSrcSize = 8 := by
  obtain ⟨d, hd, h1, h2, _⟩ := C20_long_to_uint exTarget64
    (exCastWide .TYP_LONG .TYP_UINT true true) rfl rfl rfl rfl rfl
  exact ⟨d, hd, h1, h2⟩

/-! C21 and C29: folding the extension into a load -/

theorem plan_isUsedFromReg (tgt : Target) (cast : GenTreeCast) (b m : Bool) :
    GenIntCastDesc.plan tgt
      { cast with CastOp_isUsedFromReg := b, CastOp_isUsedFromMemory := m } =
    GenIntCastDesc.plan tgt cast := rfl

theorem plan_extendKind_not_load (tgt : Target) (cast : GenTreeCast) :
    (GenIntCastDesc.plan tgt cast).m_extendKind.IsLoadKind = false := by
  rcases plan_extendKind tgt cast with h | h | h | ⟨_, h | h⟩ <;> rw [h] <;> rfl

theorem GenIntCastDesc_mem (tgt : Target) (cast : GenTreeCast)
    (hMem : cast.CastOp_isUsedFromReg = false) :
    GenIntCastDesc.GenIntCastDesc tgt cast =
      GenIntCastDesc.foldLoad tgt cast (GenIntCastDesc.plan tgt cast) := by
  unfold GenIntCastDesc.GenIntCastDesc
  simp [hMem]

/-- C21: for every cast whose operand is used from memory the constructor folds the
extension into the load: the final extend kind is one of the `LOAD_*` kinds (a
small-int zero/sign extension becomes `LOAD_ZERO/SIGN_EXTEND_SMALL_INT` with size
the smaller of the load type size and the cast type size; an int extension becomes
`LOAD_ZERO/SIGN_EXTEND_SMALL_INT` when the load type is small and
`LOAD_ZERO/SIGN_EXTEND_INT` otherwise, with the size of the load type; a `COPY`
becomes `LOAD_SOURCE`), while for a register operand the extend kind is never a
`LOAD_*` kind; the check kind, the check source size and the small-int bounds are
the same whether the operand is in memory or in a register. -/
theorem C21_load_folding (tgt : Target) (cast : GenTreeCast) :
    (cast.CastOp_isUsedFromReg = false →
      ∃ d, GenIntCastDesc.GenIntCastDesc tgt cast = some d ∧
        d.m_extendKind.IsLoadKind = true ∧
        ((GenIntCastDesc.plan tgt cast).m_extendKind = .ZERO_EXTEND_SMALL_INT →
          d.m_extendKind = .LOAD_ZERO_EXTEND_SMALL_INT ∧
          d.m_extendSrcSize =
            min (genTypeSize cast.CastOp_TypeGet) (genTypeSize cast.gtCastType)) ∧
        ((GenIntCastDesc.plan tgt cast).m_extendKind = .SIGN_EXTEND_SMALL_INT →
          d.m_extendKind = .LOAD_SIGN_EXTEND_SMALL_INT ∧
          d.m_extendSrcSize =
            min (genTypeSize cast.CastOp_TypeGet) (genTypeSize cast.gtCastType)) ∧
        ((GenIntCastDesc.plan tgt cast).m_extendKind = .ZERO_EXTEND_INT →
          d.m_extendKind = (if varTypeIsSmall cast.CastOp_TypeGet
            then .LOAD_ZERO_EXTEND_SMALL_INT else .LOAD_ZERO_EXTEND_INT) ∧
          d.m_extendSrcSize = genTypeSize cast.CastOp_TypeGet) ∧
        ((GenIntCastDesc.plan tgt cast).m_extendKind = .SIGN_EXTEND_INT →
          d.m_extendKind = (if varTypeIsSmall cast.CastOp_TypeGet
            then .LOAD_SIGN_EXTEND_SMALL_INT else .LOAD_SIGN_EXTEND_INT) ∧
          d.m_extendSrcSize = genTypeSize cast.CastOp_TypeGet) ∧
        ((GenIntCastDesc.plan tgt cast).m_extendKind = .COPY →
          d.m_extendKind = .LOAD_SOURCE ∧ d.m_extendSrcSize = 0)) ∧
    (cast.CastOp_isUsedFromReg = true →
      ∃ d, GenIntCastDesc.GenIntCastDesc tgt cast = some d ∧
        d.m_extendKind = (GenIntCastDesc.plan tgt cast).m_extendKind ∧
        d.m_extendKind.IsLoadKind = false) ∧
    (∃ dm dr,
      GenIntCastDesc.GenIntCastDesc tgt
        { cast with CastOp_isUsedFromReg := false, CastOp_isUsedFromMemory := true } = some dm ∧
      GenIntCastDesc.GenIntCastDesc tgt
        { cast with CastOp_isUsedFromReg := true, CastOp_isUsedFromMemory := false } = some dr ∧
      dm.m_checkKind = dr.m_checkKind ∧ dm.m_checkSrcSize = dr.m_checkSrcSize ∧
      dm.m_checkSmallIntMin = dr.m_checkSmallIntMin ∧
      dm.m_checkSmallIntMax = dr.m_checkSmallIntMax) := by
  refine ⟨?_, ?_, ?_⟩
  · intro hMem
    rw [GenIntCastDesc_mem tgt cast hMem]
    rcases plan_extendKind tgt cast with h | h | h | ⟨h64, h | h⟩
    · refine ⟨{ GenIntCastDesc.plan tgt cast with
        m_extendKind := .LOAD_SOURCE, m_extendSrcSize := 0 }, ?_, rfl, ?_⟩
      · unfold GenIntCastDesc.foldLoad
        simp only [h]
      · simp [h]
    · refine ⟨{ GenIntCastDesc.plan tgt cast with
        m_extendKind := .LOAD_ZERO_EXTEND_SMALL_INT,
        m_extendSrcSize := min (genTypeSize cast.CastOp_TypeGet) (genTypeSize cast.gtCastType) },
        ?_, rfl, ?_⟩
      · unfold GenIntCastDesc.foldLoad
        simp only [h]
      · simp [h]
    · refine ⟨{ GenIntCastDesc.plan tgt cast with
        m_extendKind := .LOAD_SIGN_EXTEND_SMALL_INT,
        m_extendSrcSize := min (genTypeSize cast.CastOp_TypeGet) (genTypeSize cast.gtCastType) },
        ?_, rfl, ?_⟩
      · unfold GenIntCastDesc.foldLoad
        simp only [h]
      · simp [h]
    · refine ⟨{ GenIntCastDesc.plan tgt cast with
        m_extendKind := (if varTypeIsSmall cast.CastOp_TypeGet
          then .LOAD_ZERO_EXTEND_SMALL_INT else .LOAD_ZERO_EXTEND_INT),
        m_extendSrcSize := genTypeSize cast.CastOp_TypeGet }, ?_, ?_, ?_⟩
      · unfold GenIntCastDesc.foldLoad
        simp only [h, h64, if_true]
      · simp only []
        split_ifs <;> rfl
      · simp [h]
    · refine ⟨{ GenIntCastDesc.plan tgt cast with
        m_extendKind := (if varTypeIsSmall cast.CastOp_TypeGet
          then .LOAD_SIGN_EXTEND_SMALL_INT else .LOAD_SIGN_EXTEND_INT),
        m_extendSrcSize := genTypeSize cast.CastOp_TypeGet }, ?_, ?_, ?_⟩
      · unfold GenIntCastDesc.foldLoad
        simp only [h, h64, if_true]
      · simp only []
        split_ifs <;> rfl
      · simp [h]
  · intro hReg
    exact ⟨_, GenIntCastDesc_reg tgt cast hReg, rfl, plan_extendKind_not_load tgt cast⟩
  · obtain ⟨dm, hdm, h1, h2, h3, h4⟩ := GenIntCastDesc_isSome tgt
      { cast with CastOp_isUsedFromReg := false, CastOp_isUsedFromMemory := true }
    refine ⟨dm, _, hdm, GenIntCastDesc_reg tgt _ rfl, ?_, ?_, ?_, ?_⟩
    · rw [h1]; rfl
    · rw [h2]; rfl
    · rw [h3]; rfl
    · rw [h4]; rfl

/-- C21 at a concrete input: the unchecked cast to `byte` of an `int` loaded from
memory becomes a sign-extending load of one byte. -/
theorem C21_load_folding_witness :
    ∃ d, GenIntCastDesc.GenIntCastDesc exTarget64 (exCastMem .TYP_INT .TYP_BYTE false false)
        = some d ∧
      d.m_extendKind = .LOAD_SIGN_EXTEND_SMALL_INT ∧ d.m_extendSrcSize = 1 := by
  obtain ⟨d, hd, _, _, h, _⟩ :=
    (C21_load_folding exTarget64 (exCastMem .TYP_INT .TYP_BYTE false false)).1 rfl
  exact ⟨d, hd, (h rfl).1, (h rfl).2⟩

/-- C29: the `default` branch (`unreached()`) of the load-folding switch is never
taken, on a 64-bit target and on any other: for every cast (every source size,
cast size, signedness, overflow flag and operand location) the extend kind chosen
before the switch is one of `ZERO_EXTEND_SMALL_INT`, `SIGN_EXTEND_SMALL_INT`,
`ZERO_EXTEND_INT`, `SIGN_EXTEND_INT` and `COPY`, the switch of the target handles
it, and the constructor returns a descriptor. -/
theorem C29_constructor_total (tgt : Target) (cast : GenTreeCast) :
    ((GenIntCastDesc.plan tgt cast).m_extendKind = .ZERO_EXTEND_SMALL_INT ∨
      (GenIntCastDesc.plan tgt cast).m_extendKind = .SIGN_EXTEND_SMALL_INT ∨
      (GenIntCastDesc.plan tgt cast).m_extendKind = .ZERO_EXTEND_INT ∨
      (GenIntCastDesc.plan tgt cast).m_extendKind = .SIGN_EXTEND_INT ∨
      (GenIntCastDesc.plan tgt cast).m_extendKind = .COPY) ∧
    (GenIntCastDesc.foldLoad tgt cast (GenIntCastDesc.plan tgt cast)).isSome = true ∧
    (GenIntCastDesc.GenIntCastDesc tgt cast).isSome = true := by
  have hk := plan_extendKind tgt cast
  refine ⟨?_, ?_, ?_⟩
  · rcases hk with h | h | h | ⟨_, h | h⟩ <;> simp [h]
  · obtain ⟨e, he⟩ := foldLoad_isSome tgt cast _ hk
    rw [he]; rfl
  · obtain ⟨d, hd, _⟩ := GenIntCastDesc_isSome tgt cast
    rw [hd]; rfl

/-- C29 at a concrete input: the widening cast of an `int` loaded from memory to
`long` on a 64-bit target. -/
theorem C29_constructor_total_witness :
    (GenIntCastDesc.GenIntCastDesc exTarget64 (exCastMem .TYP_INT .TYP_LONG false false)).isSome
      = true :=
  (C29_constructor_total exTarget64 (exCastMem .TYP_INT .TYP_LONG false false)).2.2

/-! C22: the label at the start of a block -/

theorem genCodeForBBlist_needLabel_eq (cfg : BlockLoopConfig) (block : BasicBlock)
    (lay : BlockLayout) (emitEndsWithAlignInstr : Bool)
    (hOk : ¬(lay.IsFirstColdBlock = true ∧ lay.isBBCallFinallyPairTail = true)) :
    genCodeForBBlist_needLabel cfg block lay emitEndsWithAlignInstr =
      some (block.BBF_HAS_LABEL || lay.IsFirstColdBlock ||
        (!lay.IsFirst && decide (lay.Prev_bbKind = .BBJ_COND) &&
          decide (lay.bbWeight ≠ lay.Prev_bbWeight)) ||
        (cfg.FEATURE_LOOP_ALIGN && emitEndsWithAlignInstr)) := by
  unfold genCodeForBBlist_needLabel
  have h : (lay.IsFirstColdBlock && lay.isBBCallFinallyPairTail) = false := by
    cases h1 : lay.IsFirstColdBlock <;> cases h2 : lay.isBBCallFinallyPairTail <;> simp_all
  simp only [h, Bool.false_eq_true, if_false]
  cases block.BBF_HAS_LABEL <;> cases lay.IsFirstColdBlock <;>
    cases (!lay.IsFirst && decide (lay.Prev_bbKind = .BBJ_COND) &&
          decide (lay.bbWeight ≠ lay.Prev_bbWeight)) <;>
    cases (cfg.FEATURE_LOOP_ALIGN && emitEndsWithAlignInstr) <;> rfl

/-- C22: for every block, the start of the block returns unless the block is the
first cold block and the tail of a call-finally pair (a fatal `noway_assert`);
when it returns, it emits an address label, with the current triple
`gcVarPtrSetCur`, `gcRegGCrefSetCur`, `gcRegByrefSetCur` as its snapshot, if and
only if the block has `BBF_HAS_LABEL`, or is the first cold block, or is not the
first block and follows a `BBJ_COND` block of a different weight, or the current
instruction group of the emitter ends with an align instruction; otherwise
`bbEmitCookie` of the block stays null and the emitter is unchanged.  (An
instruction group can only end with an align instruction when loop alignment is
compiled in.) -/
theorem C22_block_label (cfg : BlockLoopConfig) (block : BasicBlock) (lay : BlockLayout)
    (emitEndsWithAlignInstr : Bool) (s : CodeGen) (e : emitter)
    (hAlign : cfg.FEATURE_LOOP_ALIGN = false → emitEndsWithAlignInstr = false) :
    ((genCodeForBBlist_blockLabel cfg block lay emitEndsWithAlignInstr s e).isSome = true ↔
      ¬(lay.IsFirstColdBlock = true ∧ lay.isBBCallFinallyPairTail = true)) ∧
    (∀ bbEmitCookie e1,
      genCodeForBBlist_blockLabel cfg block lay emitEndsWithAlignInstr s e =
        some (bbEmitCookie, e1) →
      (bbEmitCookie ≠ none ↔
        (block.BBF_HAS_LABEL = true ∨ lay.IsFirstColdBlock = true ∨
          (lay.IsFirst = false ∧ lay.Prev_bbKind = .BBJ_COND ∧
            lay.bbWeight ≠ lay.Prev_bbWeight) ∨
          emitEndsWithAlignInstr = true)) ∧
      (bbEmitCookie ≠ none →
        bbEmitCookie = some e.labels.length ∧
        e1.labels = e.labels ++
          [{ igGCvars := s.gcVarPtrSetCur, igGCrefRegs := s.gcRegGCrefSetCur,
             igByrefRegs := s.gcRegByrefSetCur,
             igPrevBB := if lay.IsFirst then none else some lay.Prev_bbNum }]) ∧
      (bbEmitCookie = none → e1 = e)) := by
  by_cases hOk : lay.IsFirstColdBlock = true ∧ lay.isBBCallFinallyPairTail = true
  · have hnone : genCodeForBBlist_blockLabel cfg block lay emitEndsWithAlignInstr s e = none := by
      unfold genCodeForBBlist_blockLabel genCodeForBBlist_needLabel
      simp [hOk.1, hOk.2]
    rw [hnone]
    refine ⟨?_, ?_⟩
    · simp [hOk]
    · intro _ _ h; cases h
  · have hfeat : (cfg.FEATURE_LOOP_ALIGN && emitEndsWithAlignInstr) = emitEndsWithAlignInstr := by
      cases hf : cfg.FEATURE_LOOP_ALIGN
      · rw [hAlign hf]; rfl
      · rfl
    have hneed := genCodeForBBlist_needLabel_eq cfg block lay emitEndsWithAlignInstr hOk
    rw [hfeat] at hneed
    unfold genCodeForBBlist_blockLabel
    rw [hneed]
    simp only [emitAddLabel]
    have hpt : lay.IsFirstColdBlock = true → lay.isBBCallFinallyPairTail = false := by
      intro h1
      cases h2 : lay.isBBCallFinallyPairTail
      · rfl
      · exact absurd ⟨h1, h2⟩ hOk
    cases hl : block.BBF_HAS_LABEL <;> cases hc : lay.IsFirstColdBlock <;>
      cases hf : lay.IsFirst <;> cases ha : emitEndsWithAlignInstr <;>
      by_cases hk : lay.Prev_bbKind = .BBJ_COND <;>
      by_cases hw : lay.bbWeight = lay.Prev_bbWeight <;>
      simp [hk, hw, hpt, hc]

/-- C22 at a concrete input: a block after a `BBJ_COND` block of another weight gets
a label carrying the current GC snapshot. -/
theorem C22_block_label_witness :
    genCodeForBBlist_blockLabel exConfigAmd64 exBlock3
        { exLayout .BBJ_ALWAYS false with Prev_bbKind := .BBJ_COND, Prev_bbWeight := 50 }
        false (exState {3} {5} ∅ exRegs3) exEmitter =
      some (some 0,
        { labels := [{ igGCvars := ∅, igGCrefRegs := {3}, igByrefRegs := {5},
                       igPrevBB := some 1 }],
          firstColdIGCookie := none }) ∧
    (genCodeForBBlist_blockLabel exConfigAmd64 exBlock3
        { exLayout .BBJ_ALWAYS false with Prev_bbKind := .BBJ_COND, Prev_bbWeight := 50 }
        false (exState {3} {5} ∅ exRegs3) exEmitter).isSome = true :=
  ⟨by decide,
   (C22_block_label exConfigAmd64 exBlock3
      { exLayout .BBJ_ALWAYS false with Prev_bbKind := .BBJ_COND, Prev_bbWeight := 50 }
      false (exState {3} {5} ∅ exRegs3) exEmitter (fun h => by cases h)).1.mpr (by decide)⟩

/-! C23 and C25: the end of a block -/

/-- C23: for every `BBJ_ALWAYS` block the block end returns and emits no jump when
`CanRemoveJumpToNext` holds, and exactly one unconditional jump to the target of
the block otherwise; on AMD64 a single NOP is emitted in place of the elided jump
exactly when the last emitted instruction is a call and the block is last or its
next block is in a different EH region; off AMD64 nothing is emitted for an elided
jump. -/
theorem C23_always_terminal (cfg : BlockLoopConfig) (lay : BlockLayout)
    (emitIsLastInsCall : Bool) (emitSetLoopBackEdge : Nat → Bool)
    (hKind : lay.bbKind = .BBJ_ALWAYS) :
    ∃ r, genCodeForBBlist_blockEnd cfg lay emitIsLastInsCall emitSetLoopBackEdge = some r ∧
      (lay.CanRemoveJumpToNext = true →
        r.removedJmp = true ∧ (∀ t b, blockEndInstr.inst_JMP t b ∉ r.emitted) ∧
        (cfg.TARGET_AMD64 = true →
          r.emitted =
            (if emitIsLastInsCall = true ∧ (lay.IsLast = true ∨ lay.sameEHRegion_Next = false)
             then [.INS_nop] else [])) ∧
        (cfg.TARGET_AMD64 = false → r.emitted = [])) ∧
      (lay.CanRemoveJumpToNext = false →
        r.removedJmp = false ∧
        r.emitted = [.inst_JMP lay.Target_bbNum
          (if cfg.TARGET_XARCH then !lay.fgInDifferentRegions_Target else false)]) := by
  unfold genCodeForBBlist_blockEnd genCodeForBBlist_emitNopBeforeEHRegion
    genCodeForBBlist_terminal
  simp only [hKind]
  cases cfg.TARGET_AMD64 <;> cases emitIsLastInsCall <;> cases lay.IsLast <;>
    cases lay.sameEHRegion_Next <;> cases lay.CanRemoveJumpToNext <;> simp

/-- C23 at a concrete input: on AMD64 a `BBJ_ALWAYS` block that ends with a call,
jumps to the next block and is followed by a block of another EH region gets a
single NOP and no jump. -/
theorem C23_always_terminal_witness :
    ∃ r, genCodeForBBlist_blockEnd exConfigAmd64
        { exLayout .BBJ_ALWAYS true with sameEHRegion_Next := false } true (fun _ => false)
        = some r ∧
      r.emitted = [.INS_nop] ∧ r.removedJmp = true := by
  obtain ⟨r, hr, h1, _⟩ := C23_always_terminal exConfigAmd64
    { exLayout .BBJ_ALWAYS true with sameEHRegion_Next := false } true (fun _ => false) rfl
  exact ⟨r, hr, (h1 rfl).2.2.1 rfl, (h1 rfl).1⟩

/-- C25: the terminal dispatch raises the fatal "Unexpected bbKind" assertion if and
only if the kind of the block is not one of `BBJ_RETURN`, `BBJ_THROW`,
`BBJ_CALLFINALLY`, `BBJ_EHCATCHRET`, `BBJ_EHFINALLYRET`, `BBJ_EHFAULTRET`,
`BBJ_EHFILTERRET`, `BBJ_SWITCH`, `BBJ_ALWAYS`, `BBJ_COND`; for each of the listed
kinds the dispatch returns. -/
theorem C25_terminal_dispatch (cfg : BlockLoopConfig) (lay : BlockLayout)
    (emitNopBeforeEHRegion : Bool) (emitSetLoopBackEdge : Nat → Bool) :
    (genCodeForBBlist_terminal cfg lay emitNopBeforeEHRegion emitSetLoopBackEdge = none ↔
      lay.bbKind ∉ [BBKinds.BBJ_RETURN, .BBJ_THROW, .BBJ_CALLFINALLY, .BBJ_EHCATCHRET,
        .BBJ_EHFINALLYRET, .BBJ_EHFAULTRET, .BBJ_EHFILTERRET, .BBJ_SWITCH, .BBJ_ALWAYS,
        .BBJ_COND]) ∧
    (lay.bbKind ∈ [BBKinds.BBJ_RETURN, .BBJ_THROW, .BBJ_CALLFINALLY, .BBJ_EHCATCHRET,
        .BBJ_EHFINALLYRET, .BBJ_EHFAULTRET, .BBJ_EHFILTERRET, .BBJ_SWITCH, .BBJ_ALWAYS,
        .BBJ_COND] →
      (genCodeForBBlist_terminal cfg lay emitNopBeforeEHRegion emitSetLoopBackEdge).isSome
        = true) := by
  unfold genCodeForBBlist_terminal
  cases hk : lay.bbKind <;> simp <;> split_ifs <;> simp

/-- C25 at concrete inputs: a `BBJ_LEAVE` block reaching the dispatch raises, a
`BBJ_RETURN` block does not. -/
theorem C25_terminal_dispatch_witness :
    genCodeForBBlist_terminal exConfigAmd64 (exLayout .BBJ_LEAVE false) false (fun _ => false)
      = none ∧
    (genCodeForBBlist_terminal exConfigAmd64 (exLayout .BBJ_RETURN false) false
      (fun _ => false)).isSome = true :=
  ⟨(C25_terminal_dispatch exConfigAmd64 (exLayout .BBJ_LEAVE false) false
      (fun _ => false)).1.mpr (by decide),
   (C25_terminal_dispatch exConfigAmd64 (exLayout .BBJ_RETURN false) false
      (fun _ => false)).2 (by decide)⟩

/-! C24: the end-of-block liveness assertion -/

theorem foldl_found_iff {α : Type} (P : α → Bool) (l : List α) (b : Bool) :
    l.foldl (fun found i => if P i then true else found) b = true ↔
      b = true ∨ ∃ i ∈ l, P i = true := by
  induction l generalizing b with
  | nil => simp
  | cons x xs ih =>
    rw [List.foldl_cons, ih]
    cases hx : P x
    · simp [hx]
    · simp [hx]

/-- C24: the end-of-block liveness assertion fails if and only if there is a tracked
local that is a register candidate and belongs to exactly one of the live-out set
of the block and `compCurLife`; a mismatch confined to locals that are not
register candidates never makes it fail. -/
theorem C24_liveness_assertion (c : Compiler) (block : BasicBlock) (s : CodeGen) :
    (genCodeForBBlist_foundMismatchedRegVar c block s = true ↔
      ∃ i, ((i ∈ block.bbLiveOut ∧ i ∉ s.compCurLife) ∨
            (i ∈ s.compCurLife ∧ i ∉ block.bbLiveOut)) ∧
        (c.lvaGetDescByTrackedIndex i).lvIsRegCandidate = true) ∧
    ((∀ i, ((i ∈ block.bbLiveOut ∧ i ∉ s.compCurLife) ∨
            (i ∈ s.compCurLife ∧ i ∉ block.bbLiveOut)) →
        (c.lvaGetDescByTrackedIndex i).lvIsRegCandidate = false) →
      genCodeForBBlist_foundMismatchedRegVar c block s = false) := by
  have hiff : genCodeForBBlist_foundMismatchedRegVar c block s = true ↔
      ∃ i, ((i ∈ block.bbLiveOut ∧ i ∉ s.compCurLife) ∨
            (i ∈ s.compCurLife ∧ i ∉ block.bbLiveOut)) ∧
        (c.lvaGetDescByTrackedIndex i).lvIsRegCandidate = true := by
    unfold genCodeForBBlist_foundMismatchedRegVar
    simp only []
    rw [foldl_found_iff (fun i => (c.lvaGetDescByTrackedIndex i).lvIsRegCandidate)]
    simp only [Bool.false_eq_true, false_or, mem_VarSetOps_Iter, Finset.mem_union,
      Finset.mem_sdiff]
  refine ⟨hiff, ?_⟩
  intro hall
  cases hf : genCodeForBBlist_foundMismatchedRegVar c block s
  · rfl
  · obtain ⟨i, hi, hc⟩ := hiff.mp hf
    rw [hall i hi] at hc
    cases hc

/-- C24 at a concrete state: local 0 (a register candidate) is live-out of the
block but not in `compCurLife`, so the assertion fails. -/
theorem C24_liveness_assertion_witness :
    genCodeForBBlist_foundMismatchedRegVar (exCompiler (exTable3 false)) exBlock3
      (exState ∅ ∅ ∅ exRegs3) = true :=
  (C24_liveness_assertion (exCompiler (exTable3 false)) exBlock3 (exState ∅ ∅ ∅ exRegs3)).1.mpr
    ⟨0, Or.inl ⟨by decide, by decide⟩, rfl⟩

/-! C26: registers of the register parameters at method entry -/

theorem mem_genInitializeRegisterState_fold (c : Compiler) (liveIn : VARSET_TP)
    (valid : regNumber → Bool) (s : CodeGen) (l : List Nat) (used : regMaskTP) (r : Nat) :
    r ∈ l.foldl (genInitializeRegisterState_step c liveIn valid s) used ↔
      r ∈ used ∨ ∃ varNum ∈ l,
        (c.lvaGetDesc varNum).lvIsParam = true ∧ (c.lvaGetDesc varNum).lvRegister = true ∧
        (c.lvaGetDesc varNum).lvVarIndex ∈ liveIn ∧
        (c.lvaGetDesc varNum).addressExposed = false ∧
        valid (s.lvRegNum varNum) = true ∧ r ∈ genRegMask (s.lvRegNum varNum) := by
  induction l generalizing used with
  | nil => simp
  | cons x xs ih =>
    rw [List.foldl_cons, ih]
    unfold genInitializeRegisterState_step CodeGen.GetRegNum
    simp only []
    cases h1 : (c.lvaGetDesc x).lvIsParam <;> cases h2 : (c.lvaGetDesc x).lvRegister <;>
      cases h3 : (c.lvaGetDesc x).addressExposed <;> cases h4 : valid (s.lvRegNum x) <;>
      by_cases h5 : (c.lvaGetDesc x).lvVarIndex ∈ liveIn <;>
      simp [h1, h2, h3, h4, h5, or_assoc]

/-- C26, as stated, fails for a parameter that lives in a register that is not an
integer register: local 0 is a `TYP_DOUBLE` parameter, register-assigned to
register 17 (a floating-point register of the example target), live into the
first block and not address-exposed, and `genInitializeRegisterState` marks no
register at all. -/
theorem C26_register_params_counterexample :
    ((exCompiler (exParamTable .TYP_DOUBLE)).lvaGetDesc 0).lvIsParam = true ∧
    ((exCompiler (exParamTable .TYP_DOUBLE)).lvaGetDesc 0).lvRegister = true ∧
    ((exCompiler (exParamTable .TYP_DOUBLE)).lvaGetDesc 0).lvVarIndex ∈ ({0, 1} : VARSET_TP) ∧
    ((exCompiler (exParamTable .TYP_DOUBLE)).lvaGetDesc 0).addressExposed = false ∧
    (exState ∅ ∅ ∅ (fun n => if n = 0 then .REG 17 else .REG_STK)).lvRegNum 0 = .REG 17 ∧
    (genInitializeRegisterState (exCompiler (exParamTable .TYP_DOUBLE)) {0, 1} exIsValidIntReg
      (exState ∅ ∅ ∅ (fun n => if n = 0 then .REG 17 else .REG_STK)) ∅).2 = ∅ := by
  refine ⟨rfl, rfl, ?_, rfl, rfl, ?_⟩ <;> decide

/-- C26 (amended): `genInitializeRegisterState` marks a register
(`regSet.verifyRegUsed`) if and only if it is a valid integer register and the
assigned register of some local that is a parameter, is register-assigned, is a
member of the live-in set of the first block and is not address-exposed; the
register of such a parameter is marked exactly when it is a valid integer
register.  Registers marked before the call stay marked, and the spill records
are reset. -/
theorem C26_register_params (c : Compiler) (fgFirstBB_bbLiveIn : VARSET_TP)
    (genIsValidIntReg : regNumber → Bool) (s : CodeGen) (used : regMaskTP) (r : Nat) :
    (r ∈ (genInitializeRegisterState c fgFirstBB_bbLiveIn genIsValidIntReg s used).2 ↔
      r ∈ used ∨ ∃ varNum, varNum < c.lvaCount ∧
        (c.lvaGetDesc varNum).lvIsParam = true ∧ (c.lvaGetDesc varNum).lvRegister = true ∧
        (c.lvaGetDesc varNum).lvVarIndex ∈ fgFirstBB_bbLiveIn ∧
        (c.lvaGetDesc varNum).addressExposed = false ∧
        genIsValidIntReg (s.lvRegNum varNum) = true ∧ s.lvRegNum varNum = .REG r) ∧
    (genInitializeRegisterState c fgFirstBB_bbLiveIn genIsValidIntReg s used).1.rsSpillDesc
      = [] := by
  refine ⟨?_, rfl⟩
  unfold genInitializeRegisterState
  simp only []
  rw [mem_genInitializeRegisterState_fold]
  constructor
  · rintro (h | ⟨v, hv, h1, h2, h3, h4, h5, h6⟩)
    · exact Or.inl h
    · refine Or.inr ⟨v, List.mem_range.mp hv, h1, h2, h3, h4, h5, ?_⟩
      change r ∈ genRegMask (s.lvRegNum v) at h6
      cases hr : s.lvRegNum v with
      | REG n =>
        rw [hr] at h6
        simp only [genRegMask, Finset.mem_singleton] at h6
        rw [h6]
      | REG_STK => rw [hr] at h6; simp [genRegMask, RBM_NONE] at h6
      | REG_NA => rw [hr] at h6; simp [genRegMask, RBM_NONE] at h6
  · rintro (h | ⟨v, hv, h1, h2, h3, h4, h5, h6⟩)
    · exact Or.inl h
    · refine Or.inr ⟨v, List.mem_range.mpr hv, h1, h2, h3, h4, h5, ?_⟩
      change r ∈ genRegMask (s.lvRegNum v)
      rw [h6]
      simp [genRegMask]

/-- C26 (amended) at a concrete input: a `TYP_REF` parameter in the integer register
3, live into the first block, has its register marked. -/
theorem C26_register_params_witness :
    3 ∈ (genInitializeRegisterState (exCompiler (exParamTable .TYP_REF)) {0, 1} exIsValidIntReg
      (exState ∅ ∅ ∅ (fun n => if n = 0 then .REG 3 else .REG_STK)) ∅).2 :=
  (C26_register_params (exCompiler (exParamTable .TYP_REF)) {0, 1} exIsValidIntReg
    (exState ∅ ∅ ∅ (fun n => if n = 0 then .REG 3 else .REG_STK)) ∅ 3).1.mpr
    (Or.inr ⟨0, by decide, rfl, rfl, by decide, rfl, rfl, rfl⟩)

/-! C27: consuming one register of a multi-register temporary -/

theorem genCheckConsumeNode_some (node : DebugNode) (s t : ConsumeCheck)
    (h : genCheckConsumeNode node s = some t) :
    (node.gtOper = .GT_CATCH_ARG ∨ node.gtTreeID ∉ s.consumed) ∧
    (∀ last, s.lastConsumedNode = some last →
      node.gtUseNum = -1 ∨ last.gtUseNum < node.gtUseNum) ∧
    t = { consumed := insert node.gtTreeID s.consumed, lastConsumedNode := some node } := by
  unfold genCheckConsumeNode at h
  simp only [] at h
  split_ifs at h with h1 h2
  cases h
  simp only [Bool.not_eq_true', Bool.or_eq_false_iff, decide_eq_false_iff_not, not_and,
    not_not, Bool.not_eq_false] at h1 h2
  refine ⟨?_, ?_, rfl⟩
  · by_cases hc : node.gtOper = .GT_CATCH_ARG
    · exact Or.inl hc
    · exact Or.inr (h1 hc)
  · intro last hl
    rw [hl] at h2
    simp only [Bool.or_eq_true, decide_eq_true_eq, gt_iff_lt] at h2
    exact h2

theorem genCheckConsumeNode_seq_spec (l : List DebugNode) :
    ∀ (s t : ConsumeCheck), genCheckConsumeNode_seq l s = some t →
      s.consumed ⊆ t.consumed ∧
      (∀ n ∈ l, n.gtTreeID ∈ s.consumed → n.gtOper = .GT_CATCH_ARG) ∧
      l.Pairwise (fun a b => a.gtTreeID = b.gtTreeID → b.gtOper = .GT_CATCH_ARG) ∧
      l.Chain' (fun a b => b.gtUseNum = -1 ∨ a.gtUseNum < b.gtUseNum) ∧
      (∀ last first, s.lastConsumedNode = some last → l.head? = some first →
        first.gtUseNum = -1 ∨ last.gtUseNum < first.gtUseNum) := by
  induction l with
  | nil =>
    intro s t h
    simp only [genCheckConsumeNode_seq, Option.some.injEq] at h
    subst h
    exact ⟨Finset.Subset.refl _, fun _ hn => (by cases hn), List.Pairwise.nil, List.chain'_nil,
      fun _ _ _ hf => (by cases hf)⟩
  | cons x xs ih =>
    intro s t h
    unfold genCheckConsumeNode_seq at h
    cases hx : genCheckConsumeNode x s with
    | none => rw [hx] at h; cases h
    | some s1 =>
      rw [hx] at h
      simp only [] at h
      obtain ⟨k1, k2, k3⟩ := genCheckConsumeNode_some x s s1 hx
      obtain ⟨i1, i2, i3, i4, i5⟩ := ih s1 t h
      have hsub : s.consumed ⊆ s1.consumed := by
        rw [k3]; exact Finset.subset_insert _ _
      refine ⟨hsub.trans i1, ?_, ?_, ?_, ?_⟩
      · intro n hn hc
        rcases List.mem_cons.mp hn with rfl | hn2
        · rcases k1 with k | k
          · exact k
          · exact absurd hc k
        · exact i2 n hn2 (hsub hc)
      · refine List.Pairwise.cons ?_ i3
        intro b hb hid
        apply i2 b hb
        rw [k3, ← hid]
        exact Finset.mem_insert_self _ _
      · cases hxs : xs with
        | nil => exact List.chain'_singleton _
        | cons y ys =>
          rw [hxs] at i4 i5
          refine List.Chain'.cons ?_ i4
          exact i5 x y (by rw [k3]) rfl
      · intro last first hl hf
        simp only [List.head?_cons, Option.some.injEq] at hf
        subst hf
        exact k2 last hl

/-- C28, as stated, fails when an unnumbered node is consumed in between: node 1
with use number 5, then node 2 with `gtUseNum == -1`, then node 3 with use number
3 pass the check from a fresh state (no assertion fires), although the use numbers
of the numbered nodes, 5 and then 3, are not increasing.  Without the unnumbered
node in between the same two nodes are rejected. -/
theorem C28_consume_order_counterexample :
    (genCheckConsumeNode_seq
      [{ gtTreeID := 1, gtOper := .GT_ADD, gtUseNum := 5 },
       { gtTreeID := 2, gtOper := .GT_ADD, gtUseNum := -1 },
       { gtTreeID := 3, gtOper := .GT_ADD, gtUseNum := 3 }]
      { consumed := ∅, lastConsumedNode := none }).isSome = true ∧
    ¬ ((5 : Int) < 3) ∧
    genCheckConsumeNode_seq
      [{ gtTreeID := 1, gtOper := .GT_ADD, gtUseNum := 5 },
       { gtTreeID := 3, gtOper := .GT_ADD, gtUseNum := 3 }]
      { consumed := ∅, lastConsumedNode := none } = none := by
  refine ⟨?_, ?_, ?_⟩ <;> decide

/-- C28 (amended): for every sequence of `genCheckConsumeNode` calls in which no
assertion fires, no node other than a `GT_CATCH_ARG` is consumed twice (nor was it
consumed before the sequence), and every numbered node has a use number strictly
greater than that of the node consumed immediately before it; so the use numbers
are strictly increasing along a sequence of numbered nodes, while an unnumbered
node (`gtUseNum == -1`) consumed in between restarts the comparison. -/
theorem C28_consume_order (l : List DebugNode) (s t : ConsumeCheck)
    (hPass : genCheckConsumeNode_seq l s = some t) :
    l.Pairwise (fun a b => a.gtTreeID = b.gtTreeID → b.gtOper = .GT_CATCH_ARG) ∧
    (∀ n ∈ l, n.gtTreeID ∈ s.consumed → n.gtOper = .GT_CATCH_ARG) ∧
    l.Chain' (fun a b => b.gtUseNum = -1 ∨ a.gtUseNum < b.gtUseNum) ∧
    ((∀ n ∈ l, n.gtUseNum ≠ -1) → l.Pairwise (fun a b => a.gtUseNum < b.gtUseNum)) := by
  obtain ⟨_, h2, h3, h4, _⟩ := genCheckConsumeNode_seq_spec l s t hPass
  refine ⟨h3, h2, h4, ?_⟩
  intro hnum
  have hchain : l.Chain' (fun a b => a.gtUseNum < b.gtUseNum) := by
    refine List.Chain'.imp ?_ (List.Chain'.iff_mem.mp h4)
    intro a b hab
    rcases hab with ⟨_, hb, h | h⟩
    · exact absurd h (hnum b hb)
    · exact h
  haveI : IsTrans DebugNode (fun a b => a.gtUseNum < b.gtUseNum) :=
    ⟨fun _ _ _ h1 h2 => lt_trans h1 h2⟩
  exact List.chain'_iff_pairwise.mp hchain

/-- C28 (amended) at a concrete input: the nodes with use numbers 0, 1, 2 pass the
check in this order, and their use numbers are pairwise increasing. -/
theorem C28_consume_order_witness :
    genCheckConsumeNode_seq
      [{ gtTreeID := 1, gtOper := .GT_ADD, gtUseNum := 0 },
       { gtTreeID := 2, gtOper := .GT_ADD, gtUseNum := 1 },
       { gtTreeID := 3, gtOper := .GT_ADD, gtUseNum := 2 }]
      { consumed := ∅, lastConsumedNode := none } =
      some { consumed := insert 3 (insert 2 (insert 1 ∅)),
             lastConsumedNode := some { gtTreeID := 3, gtOper := .GT_ADD, gtUseNum := 2 } } ∧
    List.Pairwise (fun a b : DebugNode => a.gtUseNum < b.gtUseNum)
      [{ gtTreeID := 1, gtOper := .GT_ADD, gtUseNum := 0 },
       { gtTreeID := 2, gtOper := .GT_ADD, gtUseNum := 1 },
       { gtTreeID := 3, gtOper := .GT_ADD, gtUseNum := 2 }] :=
  have h : genCheckConsumeNode_seq
      [{ gtTreeID := 1, gtOper := .GT_ADD, gtUseNum := 0 },
       { gtTreeID := 2, gtOper := .GT_ADD, gtUseNum := 1 },
       { gtTreeID := 3, gtOper := .GT_ADD, gtUseNum := 2 }]
      { consumed := ∅, lastConsumedNode := none } =
      some { consumed := insert 3 (insert 2 (insert 1 ∅)),
             lastConsumedNode := some { gtTreeID := 3, gtOper := .GT_ADD, gtUseNum := 2 } } := rfl
  ⟨h, (C28_consume_order _ _ _ h).2.2.2 (by decide)⟩

/-! C30: `dn_simdhash_select_suffix` -/

theorem dn_simdhash_select_suffix_eq (key_hash : Nat) :
    dn_simdhash_select_suffix key_hash =
      if key_hash % 256 ≠ 0 then key_hash % 256 else 255 := by
  have h1 : (key_hash % 4294967296) &&& 0xFF = key_hash % 256 := by
    have := Nat.and_pow_two_sub_one_eq_mod (key_hash % 4294967296) 8
    norm_num at this
    rw [this]
  unfold dn_simdhash_select_suffix
  simp only [h1, Nat.mod_mod]

/-- C30: for every 32-bit hash value (every natural number, taken modulo `2^32`)
`dn_simdhash_select_suffix` returns a non-zero byte: the low 8 bits of the hash
when they are non-zero and `0xFF` when they are zero; the possible suffixes are
exactly the values 1..255, each reached by a 32-bit hash. -/
theorem C30_select_suffix (key_hash : Nat) :
    dn_simdhash_select_suffix key_hash ≠ 0 ∧
    dn_simdhash_select_suffix key_hash ≤ 255 ∧
    (key_hash % 256 ≠ 0 → dn_simdhash_select_suffix key_hash = key_hash % 256) ∧
    (key_hash % 256 = 0 → dn_simdhash_select_suffix key_hash = 0xFF) ∧
    (∀ v, 1 ≤ v → v ≤ 255 → ∃ h, h < 4294967296 ∧ dn_simdhash_select_suffix h = v) := by
  rw [dn_simdhash_select_suffix_eq]
  refine ⟨?_, ?_, ?_, ?_, ?_⟩
  · split_ifs with h
    · exact h
    · decide
  · split_ifs
    · omega
    · exact Nat.le_refl _
  · intro h; simp [h]
  · intro h; simp [h]
  · intro v hv1 hv2
    refine ⟨v, by omega, ?_⟩
    rw [dn_simdhash_select_suffix_eq]
    have : v % 256 = v := Nat.mod_eq_of_lt (by omega)
    rw [this]
    have hv : v ≠ 0 := by omega
    simp [hv]

/-- C30 at concrete inputs: a hash whose low byte is zero gets the suffix `0xFF`. -/
theorem C30_select_suffix_witness :
    dn_simdhash_select_suffix 0x1200 = 0xFF :=
  (C30_select_suffix 0x1200).2.2.2.1 (by decide)

end CodeGenLinear
